import Mathlib

/-!
Dtype-v2.0: a shallow embedding of `src/dtype.c`.

The boxed value `dtype` of `src/dtype.h` is embedded as a record of an optional
byte block (`mem`, `none` for `NULL`), the `size` field and the `type` field.
The C functions are embedded one by one under their own names.

Modelling conventions
* A byte is a natural number; a memory block is a `List Nat`.
* The process-wide switches of `dtype.c` are passed explicitly as `Flags`.
* `calloc` / `realloc` may fail: each function that allocates takes the outcome
  of the allocator as an argument.
* Everything written with `fprintf(stderr, ..)` or `printf(..)` is recorded, in
  order, as a list of `Event`s; each call site has its own constructor carrying
  the arguments of the call.
* A call ends in one of three ways (`Res`): it returns, the process is ended by
  `exit`, or it runs into undefined behaviour (a read or copy outside a block,
  a `NULL` dereference, a table lookup outside the table).
* `sizeof` and the byte order are those of the platform and are taken as a
  parameter (`Abi`); `lp64` is the usual 64-bit little-endian instance.
-/

set_option autoImplicit false

namespace Dtype

/-! ## Platform parameters -/

/-- Sizes (in bytes) of the C types used by `dtype.c`, the byte order and the
signedness of plain `char`. `sizeof(char)` is 1 by definition of C, and every
`sizeof` is at least 1. -/
structure Abi where
  sizeof_bool : Nat
  sizeof_short : Nat
  sizeof_int : Nat
  sizeof_long : Nat
  sizeof_float : Nat
  sizeof_double : Nat
  big_endian : Bool
  char_signed : Bool
  bool_pos : 0 < sizeof_bool
  short_pos : 0 < sizeof_short
  int_pos : 0 < sizeof_int
  long_pos : 0 < sizeof_long
  float_pos : 0 < sizeof_float
  double_pos : 0 < sizeof_double

/-- The `sizeof(char)` of C, always one byte. -/
def sizeof_char : Nat := 1

/-- The x86-64 System V platform: little-endian, `int` and `float` of 4 bytes,
`long` and `double` of 8 bytes, signed `char`. -/
def lp64 : Abi where
  sizeof_bool := 1
  sizeof_short := 2
  sizeof_int := 4
  sizeof_long := 8
  sizeof_float := 4
  sizeof_double := 8
  big_endian := false
  char_signed := true
  bool_pos := by decide
  short_pos := by decide
  int_pos := by decide
  long_pos := by decide
  float_pos := by decide
  double_pos := by decide

/-! ## Object representations -/

/-- The `n` low bytes of `u`, least significant first. -/
def leBytes : Nat → Nat → List Nat
  | 0, _ => []
  | n + 1, u => (u % 256) :: leBytes n (u / 256)

/-- The number whose little-endian bytes are the given list. -/
def leValue : List Nat → Nat
  | [] => 0
  | b :: bs => b + 256 * leValue bs

/-- The `n`-byte object representation of the unsigned number `u` (taken modulo
`256 ^ n`) in the byte order of the platform: what `&val` points to. -/
def objrep (abi : Abi) (n : Nat) (u : Nat) : List Nat :=
  if abi.big_endian then (leBytes n u).reverse else leBytes n u

/-- The unsigned number a block of bytes represents in the byte order of the
platform. -/
def objval (abi : Abi) (bs : List Nat) : Nat :=
  if abi.big_endian then leValue bs.reverse else leValue bs

/-- Two-complement encoding of a signed value in `n` bytes. -/
def ofSigned (n : Nat) (v : Int) : Nat := (v % (256 : Int) ^ n).toNat

/-- Two-complement decoding of an `n`-byte unsigned number. -/
def toSigned (n : Nat) (u : Nat) : Int :=
  if 2 * u < 256 ^ n then (u : Int) else (u : Int) - (256 : Int) ^ n

/-- The object representation of a plain `char` value. -/
def ofChar (abi : Abi) (v : Int) : Nat :=
  if abi.char_signed then ofSigned sizeof_char v else (v % 256).toNat

/-- The plain `char` value of a one-byte number. -/
def toChar (abi : Abi) (u : Nat) : Int :=
  if abi.char_signed then toSigned sizeof_char u else (u : Int)

/-- The values of a signed integer type of `n` bytes. -/
def SignedRange (n : Nat) (v : Int) : Prop :=
  -((256 : Int) ^ n) ≤ 2 * v ∧ 2 * v < (256 : Int) ^ n

/-- The values of plain `char`. -/
def CharRange (abi : Abi) (v : Int) : Prop :=
  if abi.char_signed then SignedRange sizeof_char v else 0 ≤ v ∧ v < 256

/-! ## The data model of `dtype.h` -/

/-- The constants of `enum DTYPE_TYPES`. -/
def DTYPE_NONE : Int := 0
def DTYPE_BOOL : Int := 1
def DTYPE_CHAR : Int := 2
def DTYPE_SHORT : Int := 3
def DTYPE_USHORT : Int := 4
def DTYPE_INT : Int := 5
def DTYPE_UINT : Int := 6
def DTYPE_LONG : Int := 7
def DTYPE_ULONG : Int := 8
def DTYPE_FLOAT : Int := 9
def DTYPE_DOUBLE : Int := 10
def DTYPE_STRING : Int := 11
def DTYPE_CUSTOM : Int := 12

/-- The constants of `enum DTYPE_ERRORS`. -/
def DTYPE_NO_ERROR : Int := 0
def DTYPE_MEMORY_ERROR : Int := 1
def DTYPE_WARN_ERROR : Int := 2
def DTYPE_TYPE_ERROR : Int := 3
def DTYPE_UNKNOWN_ERROR : Int := 4

/-- The record `struct dtype`: `mem` is `none` for a `NULL` pointer and otherwise
holds the bytes of the block it points to; `type` is kept as an integer so that a
corrupted tag outside the enumeration can be expressed. -/
structure dtype where
  mem : Option (List Nat)
  size : Nat
  type : Int
  deriving DecidableEq, Repr

/-- The array `DTYPE_STR_TYPES`. -/
def DTYPE_STR_TYPES : List String :=
  [ "none", "boolean", "character", "short", "unsigned short", "int",
    "unsigned int", "long", "unsigned long", "float", "double", "string",
    "other (custom type)" ]

/-- The four switches of `dtype.c`. -/
structure Flags where
  DTYPE_ERROR_THROW : Bool
  DTYPE_WARN_THROW : Bool
  DTYPE_WARN_EQ_ERROR : Bool
  DTYPE_EXIT_ON_ERROR : Bool
  deriving DecidableEq, Repr

/-- The initial values of the switches. -/
def Flags.initial : Flags :=
  { DTYPE_ERROR_THROW := true, DTYPE_WARN_THROW := true,
    DTYPE_WARN_EQ_ERROR := false, DTYPE_EXIT_ON_ERROR := false }

/-- The function `dtype_warn_throw`. -/
def dtype_warn_throw (fl : Flags) (val : Bool) : Flags := { fl with DTYPE_WARN_THROW := val }

/-- The function `dtype_error_throw`. -/
def dtype_error_throw (fl : Flags) (val : Bool) : Flags := { fl with DTYPE_ERROR_THROW := val }

/-- The function `dtype_warn_eq_error`. -/
def dtype_warn_eq_error (fl : Flags) (val : Bool) : Flags :=
  { fl with DTYPE_WARN_EQ_ERROR := val }

/-- The function `dtype_exit_on_error`. -/
def dtype_exit_on_error (fl : Flags) (val : Bool) : Flags :=
  { fl with DTYPE_EXIT_ON_ERROR := val }

/-! ## Effects -/

/-- One call of `fprintf(stderr, ..)` or `printf(..)`, with its arguments. -/
inductive Event where
  /-- The block written by `dtype__raise`: error code, function, message. -/
  | error (errcode : Int) (func : String) (msg : String)
  /-- The size appended by `dtype__mem_error`. -/
  | memSize (size : Nat)
  /-- The range note appended by `dtype__typecheck` for a corrupted tag. -/
  | typeRange (type : Int) (lo : Int) (hi : Int)
  /-- The warning block of `dtype__typecheck`: name and code of the expected
  type, then name and code of the type of the variable. -/
  | warning (expected : String) (expectedCode : Int) (actual : String) (actualCode : Int)
  /-- Text written to standard output by `printf`. -/
  | out (text : String)
  deriving DecidableEq, Repr

/-- How a call ends. -/
inductive Res (α : Type) where
  /-- The call returned a value. -/
  | ret (a : α)
  /-- The process was ended by `exit(code)`. -/
  | exit (code : Int)
  /-- The call ran into undefined behaviour. -/
  | undef
  deriving DecidableEq, Repr

/-- A run of a call: what it wrote, and how it ended. -/
structure Run (α : Type) where
  log : List Event
  res : Res α
  deriving DecidableEq, Repr

/-- A call that returns at once and writes nothing. -/
def Run.pure {α : Type} (a : α) : Run α := ⟨[], Res.ret a⟩

/-- Sequencing: the second call runs only if the first returned. -/
def Run.bind {α β : Type} (r : Run α) (k : α → Run β) : Run β :=
  match r.res with
  | Res.ret a => ⟨r.log ++ (k a).log, (k a).res⟩
  | Res.exit c => ⟨r.log, Res.exit c⟩
  | Res.undef => ⟨r.log, Res.undef⟩

instance : Monad Run where
  pure := Run.pure
  bind := Run.bind

/-- Write one event. -/
def emit (e : Event) : Run Unit := ⟨[e], Res.ret ()⟩

/-- End the process. -/
def exitWith {α : Type} (code : Int) : Run α := ⟨[], Res.exit code⟩

/-- Undefined behaviour. -/
def undefined {α : Type} : Run α := ⟨[], Res.undef⟩

/-- Turn the result of a checked memory access into a run. -/
def checked {α : Type} : Option α → Run α
  | some a => Run.pure a
  | none => undefined

/-! ## Internal functions of `dtype.c` -/

/-- The function `dtype__raise`: reports on `stderr` when error reporting is on
and the code is a real error code, then ends the process if exit-on-error is
set; returns whether the error was displayed. -/
def dtype__raise (fl : Flags) (func : String) (msg : String) (errcode : Int) : Run Bool :=
  if fl.DTYPE_ERROR_THROW
      && (decide (errcode > DTYPE_NO_ERROR) && decide (errcode ≤ DTYPE_UNKNOWN_ERROR)) then do
    emit (Event.error errcode func msg)
    if fl.DTYPE_EXIT_ON_ERROR then exitWith errcode else pure ()
    pure true
  else
    pure false

/-- The function `dtype__mem_error`. -/
def dtype__mem_error (fl : Flags) (size : Nat) (func : String) : Run Unit := do
  if (← dtype__raise fl func "Couldn't allocate memory for size" DTYPE_MEMORY_ERROR) then
    emit (Event.memSize size)
  else
    pure ()

/-- The lookup `DTYPE_STR_TYPES[i]`; outside the array it is undefined. -/
def strTypesAt (i : Int) : Option String :=
  if 0 ≤ i then DTYPE_STR_TYPES[i.toNat]? else none

/-- The function `dtype_get_str_type`. -/
def dtype_get_str_type (var : dtype) : Option String :=
  strTypesAt var.type

/-- The function `dtype__typecheck`. -/
def dtype__typecheck (fl : Flags) (var : dtype) (type : Int) : Run Bool :=
  if var.type < DTYPE_NONE ∨ var.type > DTYPE_CUSTOM then do
    if (← dtype__raise fl "dtype_typecheck" "Invalid type, type is corrupted."
          DTYPE_TYPE_ERROR) then
      emit (Event.typeRange var.type DTYPE_NONE DTYPE_CUSTOM)
    else
      pure ()
    pure true
  else if !fl.DTYPE_WARN_THROW || var.type == type then
    pure false
  else do
    let expected ← checked (strTypesAt type)
    let actual ← checked (dtype_get_str_type var)
    emit (Event.warning expected type actual var.type)
    pure true

/-- The function `dtype__mem_alloc`, that is `calloc(size, 1)`: a block of `size`
zero bytes when the allocator succeeds (`heap = true`), `NULL` otherwise. -/
def dtype__mem_alloc (heap : Bool) (size : Nat) : Option (List Nat) :=
  if heap then some (List.replicate size 0) else none

/-- The function `dtype__mem_refresh`. Freeing the old block has no effect on
the returned record, whose three fields are then assigned one after the other. -/
def dtype__mem_refresh (fl : Flags) (heap : Bool) (var : dtype) (size : Nat)
    (func : String) : Run dtype :=
  let var := { var with mem := if size ≠ 0 then dtype__mem_alloc heap size else none }
  let var := { var with size := if var.mem.isSome then size else 0 }
  let var := { var with type := DTYPE_NONE }
  if var.size = 0 ∧ size ≠ 0 then do
    dtype__mem_error fl size func
    pure var
  else
    pure var

/-- The library function `memcpy(dst, src, n)`: the new content of the block
`dst`; undefined when `dst` is `NULL` or one of the blocks has fewer than `n`
bytes. -/
def memcpy (dst : Option (List Nat)) (src : List Nat) (n : Nat) : Option (List Nat) :=
  match dst with
  | some d => if n ≤ d.length ∧ n ≤ src.length then some (src.take n ++ d.drop n) else none
  | none => none

/-- The statement `var.size ? memcpy(var.mem, &val, n) : 0;` of the setters of the
primitive types, where `src` is the object representation of the parameter
`val`, an object of the setter itself. -/
def copy_if_sized (var : dtype) (src : List Nat) (n : Nat) : Run dtype :=
  if var.size ≠ 0 then
    match memcpy var.mem src n with
    | some m => pure { var with mem := some m }
    | none => undefined
  else
    pure var

/-- The library function `strlen`: the index of the first zero byte; undefined
when the block has none. -/
def strlen (s : List Nat) : Option Nat :=
  if 0 ∈ s then some (s.takeWhile (fun b => b != 0)).length else none

/-- The C string that starts a block: the bytes before the first zero byte. -/
def cstring (s : List Nat) : Option (List Nat) :=
  if 0 ∈ s then some (s.takeWhile (fun b => b != 0)) else none

/-- The library function `realloc(old, size)`. Its outcome is `none` when it
fails; when it succeeds the outcome carries the indeterminate content of the
bytes beyond the old block (padded with zeros if too short). -/
def realloc (old : Option (List Nat)) (size : Nat) (outcome : Option (List Nat)) :
    Option (List Nat) :=
  match outcome with
  | none => none
  | some fresh => some ((old.getD [] ++ fresh ++ List.replicate size 0).take size)

/-- A read of `n` bytes through `var.mem`: undefined for `NULL` and for a block
of fewer than `n` bytes. -/
def deref (var : dtype) (n : Nat) : Option (List Nat) :=
  match var.mem with
  | some bs => if n ≤ bs.length then some (bs.take n) else none
  | none => none

/-! ## External functions of `dtype.c` -/

/-- The function `dtype_default`. -/
def dtype_default : dtype := { mem := none, size := 0, type := DTYPE_NONE }

/-- The function `dtype_change_size`: only `mem` is assigned. -/
def dtype_change_size (var : dtype) (size : Nat) (outcome : Option (List Nat)) : dtype :=
  { var with mem := realloc var.mem size outcome }

/-- The function `dtype_set_bool`. -/
def dtype_set_bool (abi : Abi) (fl : Flags) (heap : Bool) (var : dtype) (val : Bool) :
    Run dtype := do
  let var ← dtype__mem_refresh fl heap var abi.sizeof_bool "dtype_set_bool"
  let var ← copy_if_sized var (objrep abi abi.sizeof_bool (if val then 1 else 0))
    abi.sizeof_bool
  pure { var with type := DTYPE_BOOL }

/-- The function `dtype_set_char`. -/
def dtype_set_char (abi : Abi) (fl : Flags) (heap : Bool) (var : dtype) (val : Int) :
    Run dtype := do
  let var ← dtype__mem_refresh fl heap var sizeof_char "dtype_set_char"
  let var ← copy_if_sized var (objrep abi sizeof_char (ofChar abi val)) sizeof_char
  pure { var with type := DTYPE_CHAR }

/-- The function `dtype_set_short`. -/
def dtype_set_short (abi : Abi) (fl : Flags) (heap : Bool) (var : dtype) (val : Int) :
    Run dtype := do
  let var ← dtype__mem_refresh fl heap var abi.sizeof_short "dtype_set_short"
  let var ← copy_if_sized var (objrep abi abi.sizeof_short (ofSigned abi.sizeof_short val))
    abi.sizeof_short
  pure { var with type := DTYPE_SHORT }

/-- The function `dtype_set_ushort`. -/
def dtype_set_ushort (abi : Abi) (fl : Flags) (heap : Bool) (var : dtype) (val : Nat) :
    Run dtype := do
  let var ← dtype__mem_refresh fl heap var abi.sizeof_short "dtype_set_ushort"
  let var ← copy_if_sized var (objrep abi abi.sizeof_short val) abi.sizeof_short
  pure { var with type := DTYPE_USHORT }

/-- The function `dtype_set_int`. -/
def dtype_set_int (abi : Abi) (fl : Flags) (heap : Bool) (var : dtype) (val : Int) :
    Run dtype := do
  let var ← dtype__mem_refresh fl heap var abi.sizeof_int "dtype_set_int"
  let var ← copy_if_sized var (objrep abi abi.sizeof_int (ofSigned abi.sizeof_int val))
    abi.sizeof_int
  pure { var with type := DTYPE_INT }

/-- The function `dtype_set_uint`. -/
def dtype_set_uint (abi : Abi) (fl : Flags) (heap : Bool) (var : dtype) (val : Nat) :
    Run dtype := do
  let var ← dtype__mem_refresh fl heap var abi.sizeof_int "dtype_set_uint"
  let var ← copy_if_sized var (objrep abi abi.sizeof_int val) abi.sizeof_int
  pure { var with type := DTYPE_UINT }

/-- The function `dtype_set_long`. -/
def dtype_set_long (abi : Abi) (fl : Flags) (heap : Bool) (var : dtype) (val : Int) :
    Run dtype := do
  let var ← dtype__mem_refresh fl heap var abi.sizeof_long "dtype_set_long"
  let var ← copy_if_sized var (objrep abi abi.sizeof_long (ofSigned abi.sizeof_long val))
    abi.sizeof_long
  pure { var with type := DTYPE_LONG }

/-- The function `dtype_set_ulong`. -/
def dtype_set_ulong (abi : Abi) (fl : Flags) (heap : Bool) (var : dtype) (val : Nat) :
    Run dtype := do
  let var ← dtype__mem_refresh fl heap var abi.sizeof_long "dtype_set_ulong"
  let var ← copy_if_sized var (objrep abi abi.sizeof_long val) abi.sizeof_long
  pure { var with type := DTYPE_ULONG }

/-- The function `dtype_set_float`; the value is given by its bit pattern. -/
def dtype_set_float (abi : Abi) (fl : Flags) (heap : Bool) (var : dtype) (val : Nat) :
    Run dtype := do
  let var ← dtype__mem_refresh fl heap var abi.sizeof_float "dtype_set_float"
  let var ← copy_if_sized var (objrep abi abi.sizeof_float val) abi.sizeof_float
  pure { var with type := DTYPE_FLOAT }

/-- The function `dtype_set_double`; the value is given by its bit pattern. The
block allocated and the number of bytes copied are both `sizeof(int)`, while
`&val` points to `sizeof(double)` bytes. -/
def dtype_set_double (abi : Abi) (fl : Flags) (heap : Bool) (var : dtype) (val : Nat) :
    Run dtype := do
  let var ← dtype__mem_refresh fl heap var abi.sizeof_int "dtype_set_double"
  let var ← copy_if_sized var (objrep abi abi.sizeof_double val) abi.sizeof_int
  pure { var with type := DTYPE_DOUBLE }

/-- What the pointer passed as source to `dtype_set_string` or `dtype_set_custom`
points to. The setter frees the buffer of the value it is given before it copies
from the source, so a source inside that buffer must be told apart from a source
elsewhere. -/
inductive Source where
  /-- A pointer into a live block that is not the buffer of the value passed in
  the same call; `bytes` are the bytes from the pointer to the end of the block. -/
  | block (bytes : List Nat)
  /-- A pointer into the buffer of the value passed in the same call, `off` bytes
  after its start; `dtype_get_string(var)` is such a pointer, with `off = 0`. -/
  | own (off : Nat)
  deriving DecidableEq, Repr

/-- The bytes a read through the source finds on entry to the setter, while the
buffer of `var` is still allocated. -/
def Source.bytesBefore (var : dtype) : Source → Option (List Nat)
  | .block bytes => some bytes
  | .own off => var.mem.bind fun b => if off ≤ b.length then some (b.drop off) else none

/-- The bytes a read through the source finds after `dtype__mem_refresh` has run:
a source inside the old buffer of the value points to freed memory (or is built
on `NULL`), and the read is undefined. -/
def Source.bytesAfter : Source → Option (List Nat)
  | .block bytes => some bytes
  | .own _ => none

/-- The statement `var.size ? memcpy(var.mem, val, n) : 0;` of `dtype_set_string`
and `dtype_set_custom`, where `val` is a pointer supplied by the caller and is
read after the refresh. -/
def copy_source_if_sized (var : dtype) (val : Source) (n : Nat) : Run dtype :=
  if var.size ≠ 0 then
    match val.bytesAfter.bind fun src => memcpy var.mem src n with
    | some m => pure { var with mem := some m }
    | none => undefined
  else
    pure var

/-- The statement `var.size ? memcpy(var.mem, val, strlen(val)+1) : 0;` of
`dtype_set_string`: the length is computed a second time, and the string and its
terminator are copied, both through `val` after the refresh. -/
def copy_string_if_sized (var : dtype) (val : Source) : Run dtype :=
  if var.size ≠ 0 then
    match val.bytesAfter.bind fun src =>
        (strlen src).bind fun len => memcpy var.mem src (len + 1) with
    | some m => pure { var with mem := some m }
    | none => undefined
  else
    pure var

/-- The function `dtype_set_string`. The argument `strlen(val) + 1` of the refresh
is evaluated first, while the old buffer is still allocated; the copy reads `val`
after the refresh has freed that buffer. -/
def dtype_set_string (fl : Flags) (heap : Bool) (var : dtype) (val : Source) :
    Run dtype := do
  let len ← checked ((val.bytesBefore var).bind strlen)
  let var ← dtype__mem_refresh fl heap var (len + 1) "dtype_set_string"
  let var ← copy_string_if_sized var val
  pure { var with type := DTYPE_STRING }

/-- The function `dtype_clear`. -/
def dtype_clear (fl : Flags) (heap : Bool) (var : dtype) : Run dtype := do
  let var ← dtype__mem_refresh fl heap var 0 "dtype_clear"
  pure { var with type := DTYPE_NONE }

/-- The function `dtype_set_custom`. The copy reads `valPointer` after the refresh
has freed the old buffer. No assignment to `type` follows the refresh. -/
def dtype_set_custom (fl : Flags) (heap : Bool) (var : dtype) (valPointer : Source)
    (size : Nat) : Run dtype := do
  let var ← dtype__mem_refresh fl heap var size "dtype_set_custom"
  let var ← copy_source_if_sized var valPointer size
  pure var

/-- The message of the error raised by a getter under warn-as-error. -/
def warn_error_msg : String :=
  "All warnings treated as errors, Error produced due to type mismatch."

/-- The first statement of every getter:
`if ( dtype__typecheck(var, type) && DTYPE_WARN_EQ_ERROR ) dtype__raise(func, .., DTYPE_WARN_ERROR);`
The type check is always evaluated; the value of `dtype__raise` is dropped. -/
def mismatch_check (fl : Flags) (var : dtype) (type : Int) (func : String) : Run Unit := do
  if (← dtype__typecheck fl var type) && fl.DTYPE_WARN_EQ_ERROR then
    let _ ← dtype__raise fl func warn_error_msg DTYPE_WARN_ERROR
    pure ()
  else
    pure ()

/-- The function `dtype_get_bool`. -/
def dtype_get_bool (abi : Abi) (fl : Flags) (var : dtype) : Run Bool := do
  mismatch_check fl var DTYPE_BOOL "dtype_get_bool"
  let bs ← checked (deref var abi.sizeof_bool)
  pure (objval abi bs != 0)

/-- The function `dtype_get_char`. -/
def dtype_get_char (abi : Abi) (fl : Flags) (var : dtype) : Run Int := do
  mismatch_check fl var DTYPE_CHAR "dtype_get_char"
  let bs ← checked (deref var sizeof_char)
  pure (toChar abi (objval abi bs))

/-- The function `dtype_get_short`. -/
def dtype_get_short (abi : Abi) (fl : Flags) (var : dtype) : Run Int := do
  mismatch_check fl var DTYPE_SHORT "dtype_get_short"
  let bs ← checked (deref var abi.sizeof_short)
  pure (toSigned abi.sizeof_short (objval abi bs))

/-- The function `dtype_get_ushort`. -/
def dtype_get_ushort (abi : Abi) (fl : Flags) (var : dtype) : Run Nat := do
  mismatch_check fl var DTYPE_USHORT "dtype_get_ushort"
  let bs ← checked (deref var abi.sizeof_short)
  pure (objval abi bs)

/-- The function `dtype_get_int`. -/
def dtype_get_int (abi : Abi) (fl : Flags) (var : dtype) : Run Int := do
  mismatch_check fl var DTYPE_INT "dtype_get_int"
  let bs ← checked (deref var abi.sizeof_int)
  pure (toSigned abi.sizeof_int (objval abi bs))

/-- The function `dtype_get_uint`. -/
def dtype_get_uint (abi : Abi) (fl : Flags) (var : dtype) : Run Nat := do
  mismatch_check fl var DTYPE_UINT "dtype_get_uint"
  let bs ← checked (deref var abi.sizeof_int)
  pure (objval abi bs)

/-- The function `dtype_get_long`. -/
def dtype_get_long (abi : Abi) (fl : Flags) (var : dtype) : Run Int := do
  mismatch_check fl var DTYPE_LONG "dtype_get_long"
  let bs ← checked (deref var abi.sizeof_long)
  pure (toSigned abi.sizeof_long (objval abi bs))

/-- The function `dtype_get_ulong`. -/
def dtype_get_ulong (abi : Abi) (fl : Flags) (var : dtype) : Run Nat := do
  mismatch_check fl var DTYPE_ULONG "dtype_get_ulong"
  let bs ← checked (deref var abi.sizeof_long)
  pure (objval abi bs)

/-- The function `dtype_get_float`; the type check is made against `DTYPE_BOOL`,
as in the source. The value returned is the bit pattern read. -/
def dtype_get_float (abi : Abi) (fl : Flags) (var : dtype) : Run Nat := do
  mismatch_check fl var DTYPE_BOOL "dtype_get_float"
  let bs ← checked (deref var abi.sizeof_float)
  pure (objval abi bs)

/-- The function `dtype_get_double`; the value returned is the bit pattern read. -/
def dtype_get_double (abi : Abi) (fl : Flags) (var : dtype) : Run Nat := do
  mismatch_check fl var DTYPE_DOUBLE "dtype_get_double"
  let bs ← checked (deref var abi.sizeof_double)
  pure (objval abi bs)

/-- The function `dtype_get_string`: the pointer `var.mem` itself is returned,
here as the block it points to (`none` for `NULL`); nothing is read. -/
def dtype_get_string (fl : Flags) (var : dtype) : Run (Option (List Nat)) := do
  mismatch_check fl var DTYPE_STRING "dtype_get_string"
  pure var.mem

/-- A call `printf(..)` that writes the given text: the value is the number of
characters written (a text has one character for each byte written). -/
def printf (text : String) : Run Int := do
  emit (Event.out text)
  pure (text.length : Int)

/-- The text made of the given bytes. -/
def bytesToString (bs : List Nat) : String := String.mk (bs.map Char.ofNat)

/-- The conversion of a C `bool` to `int`. -/
def boolToInt (b : Bool) : Int := if b then 1 else 0

/-- The text `printf` writes for the conversions `%f` and `%lf`, as a function of
the bit pattern of the argument: the decimal rendering of floating-point numbers
is not modelled and is taken as a parameter. -/
structure FloatFormat where
  fmt_f : Nat → String
  fmt_lf : Nat → String

/-- The function `dtype_print`. -/
def dtype_print (abi : Abi) (ff : FloatFormat) (fl : Flags) (var : dtype) : Run Int :=
  if var.type = DTYPE_NONE then printf "none"
  else if var.type = DTYPE_BOOL then do
    let b ← dtype_get_bool abi fl var
    printf (if b then "true" else "false")
  else if var.type = DTYPE_CHAR then do
    let c ← dtype_get_char abi fl var
    printf (bytesToString [(c % 256).toNat])
  else if var.type = DTYPE_SHORT then do
    let v ← dtype_get_short abi fl var
    printf (toString v)
  else if var.type = DTYPE_USHORT then do
    let v ← dtype_get_ushort abi fl var
    printf (toString v)
  else if var.type = DTYPE_INT then do
    let v ← dtype_get_int abi fl var
    printf (toString v)
  else if var.type = DTYPE_UINT then do
    let v ← dtype_get_uint abi fl var
    printf (toString v)
  else if var.type = DTYPE_LONG then do
    let v ← dtype_get_long abi fl var
    printf (toString v)
  else if var.type = DTYPE_ULONG then do
    let v ← dtype_get_ulong abi fl var
    printf (toString v)
  else if var.type = DTYPE_FLOAT then do
    let v ← dtype_get_float abi fl var
    printf (ff.fmt_f v)
  else if var.type = DTYPE_DOUBLE then do
    let v ← dtype_get_double abi fl var
    printf (ff.fmt_lf v)
  else if var.type = DTYPE_STRING then do
    let p ← dtype_get_string fl var
    let block ← checked p
    let s ← checked (cstring block)
    printf (bytesToString s)
  else if var.type = DTYPE_CUSTOM then printf "dtype_custom_variable"
  else do
    let r ← dtype__raise fl "dtype_print" "Invalid type to print." DTYPE_TYPE_ERROR
    pure (boolToInt r)

/-- The function `dtype_debug_print`. -/
def dtype_debug_print (abi : Abi) (ff : FloatFormat) (fl : Flags) (var : dtype) : Run Int :=
  if var.type < DTYPE_NONE ∨ var.type > DTYPE_CUSTOM then do
    let r ← dtype__raise fl "dtype_debug_print" "Invalid type to print." DTYPE_TYPE_ERROR
    pure (boolToInt r)
  else do
    let name ← checked (dtype_get_str_type var)
    let _ ← printf ("\n\x7b typecode = " ++ toString var.type ++ ", type = `" ++ name
      ++ "`, size = `" ++ toString var.size ++ "`, content = `")
    let ret ← dtype_print abi ff fl var
    let _ ← printf "` \x7d\n"
    pure ret

/-! ## The getters as a family -/

/-- The eleven getters `dtype_get_T`. -/
inductive Getter where
  | bool | char | short | ushort | int | uint | long | ulong | float | double | string
  deriving DecidableEq, Repr

/-- The tag `T` that the getter `dtype_get_T` is named after. -/
def Getter.tag : Getter → Int
  | .bool => DTYPE_BOOL
  | .char => DTYPE_CHAR
  | .short => DTYPE_SHORT
  | .ushort => DTYPE_USHORT
  | .int => DTYPE_INT
  | .uint => DTYPE_UINT
  | .long => DTYPE_LONG
  | .ulong => DTYPE_ULONG
  | .float => DTYPE_FLOAT
  | .double => DTYPE_DOUBLE
  | .string => DTYPE_STRING

/-- The name of the C function. -/
def Getter.func : Getter → String
  | .bool => "dtype_get_bool"
  | .char => "dtype_get_char"
  | .short => "dtype_get_short"
  | .ushort => "dtype_get_ushort"
  | .int => "dtype_get_int"
  | .uint => "dtype_get_uint"
  | .long => "dtype_get_long"
  | .ulong => "dtype_get_ulong"
  | .float => "dtype_get_float"
  | .double => "dtype_get_double"
  | .string => "dtype_get_string"

/-- The number of bytes the getter reads through `var.mem`: `sizeof(T)`, and
nothing for the string getter, which returns the pointer. -/
def Getter.width (abi : Abi) : Getter → Nat
  | .bool => abi.sizeof_bool
  | .char => sizeof_char
  | .short => abi.sizeof_short
  | .ushort => abi.sizeof_short
  | .int => abi.sizeof_int
  | .uint => abi.sizeof_int
  | .long => abi.sizeof_long
  | .ulong => abi.sizeof_long
  | .float => abi.sizeof_float
  | .double => abi.sizeof_double
  | .string => 0

/-- Forget the value of a run. -/
def Run.void {α : Type} (r : Run α) : Run Unit :=
  r.bind fun _ => Run.pure ()

/-- The call of a getter, its value dropped. -/
def Getter.call (abi : Abi) (fl : Flags) (var : dtype) : Getter → Run Unit
  | .bool => (dtype_get_bool abi fl var).void
  | .char => (dtype_get_char abi fl var).void
  | .short => (dtype_get_short abi fl var).void
  | .ushort => (dtype_get_ushort abi fl var).void
  | .int => (dtype_get_int abi fl var).void
  | .uint => (dtype_get_uint abi fl var).void
  | .long => (dtype_get_long abi fl var).void
  | .ulong => (dtype_get_ulong abi fl var).void
  | .float => (dtype_get_float abi fl var).void
  | .double => (dtype_get_double abi fl var).void
  | .string => (dtype_get_string fl var).void

/-- The warnings among the events. -/
def Event.isWarning : Event → Bool
  | .warning _ _ _ _ => true
  | _ => false

/-- The error blocks of `dtype__raise` among the events. -/
def Event.isError : Event → Bool
  | .error _ _ _ => true
  | _ => false

/-! ## Sequences of public operations -/

/-- One public operation that yields a new boxed value, with the outcome of its
allocation. -/
inductive Op where
  | change_size (size : Nat) (outcome : Option (List Nat))
  | set_bool (val : Bool) (heap : Bool)
  | set_char (val : Int) (heap : Bool)
  | set_short (val : Int) (heap : Bool)
  | set_ushort (val : Nat) (heap : Bool)
  | set_int (val : Int) (heap : Bool)
  | set_uint (val : Nat) (heap : Bool)
  | set_long (val : Int) (heap : Bool)
  | set_ulong (val : Nat) (heap : Bool)
  | set_float (val : Nat) (heap : Bool)
  | set_double (val : Nat) (heap : Bool)
  | set_string (val : Source) (heap : Bool)
  | set_custom (valPointer : Source) (size : Nat) (heap : Bool)
  | clear (heap : Bool)

/-- The call of an operation on a boxed value. -/
def Op.call (abi : Abi) (fl : Flags) (var : dtype) : Op → Run dtype
  | .change_size size outcome => Run.pure (dtype_change_size var size outcome)
  | .set_bool val heap => dtype_set_bool abi fl heap var val
  | .set_char val heap => dtype_set_char abi fl heap var val
  | .set_short val heap => dtype_set_short abi fl heap var val
  | .set_ushort val heap => dtype_set_ushort abi fl heap var val
  | .set_int val heap => dtype_set_int abi fl heap var val
  | .set_uint val heap => dtype_set_uint abi fl heap var val
  | .set_long val heap => dtype_set_long abi fl heap var val
  | .set_ulong val heap => dtype_set_ulong abi fl heap var val
  | .set_float val heap => dtype_set_float abi fl heap var val
  | .set_double val heap => dtype_set_double abi fl heap var val
  | .set_string val heap => dtype_set_string fl heap var val
  | .set_custom valPointer size heap => dtype_set_custom fl heap var valPointer size
  | .clear heap => dtype_clear fl heap var

/-- The boxed values reachable from `dtype_default()` by public operations that
return. -/
inductive Reachable (abi : Abi) (fl : Flags) : dtype → Prop where
  | start : Reachable abi fl dtype_default
  | step (x y : dtype) (op : Op) :
      Reachable abi fl x → (op.call abi fl x).res = Res.ret y → Reachable abi fl y


/-- The name the table gives to a tag (empty outside the table); used to state
what a warning shows. -/
def typeName (t : Int) : String := (strTypesAt t).getD ""

/-- All four switches set. -/
def Flags.allOn : Flags :=
  { DTYPE_ERROR_THROW := true, DTYPE_WARN_THROW := true,
    DTYPE_WARN_EQ_ERROR := true, DTYPE_EXIT_ON_ERROR := true }

/-- How a setter that assigns the tag `tag` after the refresh ends when the
allocation has failed: the process is ended with the memory error code when
error reporting and exit-on-error are both set, and otherwise the setter returns
a value without buffer, of length 0, carrying `tag`. Used to state the failure
case of the setters. -/
def allocFailure (fl : Flags) (tag : Int) : Res dtype :=
  if fl.DTYPE_ERROR_THROW && fl.DTYPE_EXIT_ON_ERROR then Res.exit DTYPE_MEMORY_ERROR
  else Res.ret { mem := none, size := 0, type := tag }

/-- Whether the read made by a getter stays inside the block of the value: the
block exists and has at least `sizeof(T)` bytes. The string getter reads
nothing. -/
def Getter.readable (abi : Abi) (var : dtype) (g : Getter) : Bool :=
  g == Getter.string || (deref var (g.width abi)).isSome

/-- The length/buffer invariant of the data model: the length field is 0 exactly
when the buffer is absent, and it is the number of bytes of the buffer. -/
def LengthInvariant (y : dtype) : Prop :=
  (y.size = 0 ↔ y.mem = none) ∧ ∀ bs, y.mem = some bs → bs.length = y.size

/-- The operation is a call of `dtype_change_size`. -/
def Op.isChangeSize : Op → Bool
  | .change_size _ _ => true
  | _ => false

/-- The run does not end the process: its outcome is a return or undefined
behaviour, never `exit`. -/
def NoExit {α : Type} (r : Run α) : Prop := ∀ c, r.res ≠ Res.exit c

/-- The events written to standard output. -/
def Event.isOut : Event → Bool
  | .out _ => true
  | _ => false

/-- A float format for closed examples in which no floating-point number is
printed. -/
def FloatFormat.unused : FloatFormat := { fmt_f := fun _ => "", fmt_lf := fun _ => "" }

/-- The boxed values reachable from `dtype_default()` by public operations that
return, the switches being set anew before each operation. -/
inductive ReachableAnyFlags (abi : Abi) : dtype → Prop where
  | start : ReachableAnyFlags abi dtype_default
  | step (fl : Flags) (x y : dtype) (op : Op) :
      ReachableAnyFlags abi x → (op.call abi fl x).res = Res.ret y → ReachableAnyFlags abi y

/-- The twelve tags from `DTYPE_NONE` to `DTYPE_STRING`. -/
def tagsBelowCustom : List Int :=
  [DTYPE_NONE, DTYPE_BOOL, DTYPE_CHAR, DTYPE_SHORT, DTYPE_USHORT, DTYPE_INT, DTYPE_UINT,
    DTYPE_LONG, DTYPE_ULONG, DTYPE_FLOAT, DTYPE_DOUBLE, DTYPE_STRING]

/-- The run returns to its caller: it neither ends the process nor runs into
undefined behaviour. -/
def Run.returns {α : Type} (r : Run α) : Bool :=
  match r.res with
  | Res.ret _ => true
  | _ => false

/-- Whether the reads of the operation stay inside live objects. The copy of
`dtype_set_double` reads `sizeof(int)` bytes of a double; `dtype_set_string`
reads its argument up to the terminator, and again after the old buffer of the
value has been freed when the allocation has succeeded; `dtype_set_custom` reads
`size` bytes of its source after the old buffer has been freed, when `size` is
not 0 and the allocation has succeeded. The other operations read their
argument by value. -/
def Op.defined (abi : Abi) (var : dtype) : Op → Bool
  | .set_double _ heap => !heap || decide (abi.sizeof_int ≤ abi.sizeof_double)
  | .set_string val heap =>
    ((val.bytesBefore var).bind strlen).isSome && (!heap || val.bytesAfter.isSome)
  | .set_custom valPointer size heap =>
    size == 0 || !heap ||
      match valPointer.bytesAfter with
      | some bytes => decide (size ≤ bytes.length)
      | none => false
  | _ => true

/-- Whether the read `dtype_print` makes for the tag of the value stays inside
its buffer: `sizeof(T)` bytes for a tag from `DTYPE_BOOL` to `DTYPE_DOUBLE`, a
terminated string for `DTYPE_STRING`, and no read for any other tag. -/
def printable (abi : Abi) (var : dtype) : Bool :=
  if var.type = DTYPE_BOOL then Getter.bool.readable abi var
  else if var.type = DTYPE_CHAR then Getter.char.readable abi var
  else if var.type = DTYPE_SHORT then Getter.short.readable abi var
  else if var.type = DTYPE_USHORT then Getter.ushort.readable abi var
  else if var.type = DTYPE_INT then Getter.int.readable abi var
  else if var.type = DTYPE_UINT then Getter.uint.readable abi var
  else if var.type = DTYPE_LONG then Getter.long.readable abi var
  else if var.type = DTYPE_ULONG then Getter.ulong.readable abi var
  else if var.type = DTYPE_FLOAT then Getter.float.readable abi var
  else if var.type = DTYPE_DOUBLE then Getter.double.readable abi var
  else if var.type = DTYPE_STRING then (var.mem.bind cstring).isSome
  else true

/-- Whether the lookups of `dtype__typecheck` in the table of type names stay
inside the table: none is made for a tag of the value outside
`DTYPE_NONE .. DTYPE_CUSTOM` (the error is raised instead), with warning
reporting disabled or when the tags agree; otherwise the expected tag is looked
up. -/
def typecheckDefined (fl : Flags) (var : dtype) (type : Int) : Bool :=
  decide (var.type < DTYPE_NONE ∨ var.type > DTYPE_CUSTOM) || !fl.DTYPE_WARN_THROW
    || var.type == type || (strTypesAt type).isSome

/-! ## Memory with block identity

The embedding above keeps the bytes of a buffer inside the value that owns it. To
speak of a source that lies in the buffer the setter frees, and of a later store
through the pointer that was passed as source, the part of the library behind
`dtype_set_string` and `dtype_set_custom` is embedded a second time over a memory
of numbered blocks, in which `mem` is a pointer. Block numbers are never handed
out twice, so a pointer into a freed block stays dangling. -/

namespace Heap

/-- The state of a block. -/
inductive BlockState where
  /-- Never handed out by the allocator. -/
  | unallocated
  /-- Allocated, or an object of the caller, with its bytes. -/
  | live (bytes : List Nat)
  /-- Released by `free`. -/
  | freed
  deriving DecidableEq, Repr

/-- The memory of the program: the state of each block, by number. -/
abbrev Memory : Type := Nat → BlockState

/-- The memory with the state of one block replaced. -/
def Memory.set (m : Memory) (b : Nat) (st : BlockState) : Memory :=
  fun i => if i = b then st else m i

/-- A pointer that is not `NULL`: a block and an offset into it. -/
structure Pointer where
  block : Nat
  off : Nat
  deriving DecidableEq, Repr

/-- The record `struct dtype` with `mem` as a pointer: `none` for `NULL`, and
otherwise the number of the block whose start it points to. -/
structure dtype where
  mem : Option Nat
  size : Nat
  type : Int
  deriving DecidableEq, Repr

/-- The library function `free(p)` for a pointer that is not `NULL`: undefined
unless it is the start of a live block. -/
def free (m : Memory) (b : Nat) : Option Memory :=
  match m b with
  | .live _ => some (m.set b .freed)
  | _ => none

/-- The function `dtype__mem_alloc`, that is `calloc(size, 1)`. The outcome is
`none` when the allocator fails and otherwise the number of the block it hands
out, which becomes a live block of `size` zero bytes. -/
def dtype__mem_alloc (m : Memory) (outcome : Option Nat) (size : Nat) : Memory × Option Nat :=
  match outcome with
  | some b => (m.set b (.live (List.replicate size 0)), some b)
  | none => (m, none)

/-- The library function `memcpy(dst, src, n)`, `dst` being the start of a block:
undefined when `dst` is `NULL`, when one of the two blocks is not live, when one
of them has fewer than `n` bytes from the pointer on, or when the two regions
overlap. -/
def memcpy (m : Memory) (dst : Option Nat) (src : Pointer) (n : Nat) : Option Memory :=
  match dst with
  | none => none
  | some d =>
    match m d, m src.block with
    | .live dbytes, .live sbytes =>
      if (d ≠ src.block ∨ n ≤ src.off) ∧ n ≤ dbytes.length ∧ src.off + n ≤ sbytes.length then
        some (m.set d (.live ((sbytes.drop src.off).take n ++ dbytes.drop n)))
      else none
    | _, _ => none

/-- The statement `if (var.mem!=NULL) { free(var.mem); }` of
`dtype__mem_refresh`. -/
def free_unless_null (m : Memory) (mem : Option Nat) : Run Memory :=
  match mem with
  | some b => checked (free m b)
  | none => pure m

/-- The function `dtype__mem_refresh`. -/
def dtype__mem_refresh (fl : Flags) (outcome : Option Nat) (m : Memory) (var : dtype)
    (size : Nat) (func : String) : Run (Memory × dtype) := do
  let m ← free_unless_null m var.mem
  let alloc := if size ≠ 0 then dtype__mem_alloc m outcome size else (m, none)
  let m := alloc.1
  let var := { var with mem := alloc.2 }
  let var := { var with size := if var.mem.isSome then size else 0 }
  let var := { var with type := DTYPE_NONE }
  if var.size = 0 ∧ size ≠ 0 then do
    dtype__mem_error fl size func
    pure (m, var)
  else
    pure (m, var)

/-- The statement `var.size ? memcpy(var.mem, src, n) : 0;` of the setters. -/
def copy_if_sized (m : Memory) (var : dtype) (src : Pointer) (n : Nat) : Run Memory :=
  if var.size ≠ 0 then checked (memcpy m var.mem src n) else pure m

/-- The function `dtype_set_custom`. -/
def dtype_set_custom (fl : Flags) (outcome : Option Nat) (m : Memory) (var : dtype)
    (valPointer : Pointer) (size : Nat) : Run (Memory × dtype) := do
  let r ← dtype__mem_refresh fl outcome m var size "dtype_set_custom"
  let m ← copy_if_sized r.1 r.2 valPointer size
  pure (m, r.2)

/-- The bytes from a pointer to the end of its block, when the block is live and
the pointer lies inside it. -/
def bytesAt (m : Memory) (p : Pointer) : Option (List Nat) :=
  match m p.block with
  | .live bytes => if p.off ≤ bytes.length then some (bytes.drop p.off) else none
  | _ => none

/-- The library function `strlen(p)`: undefined unless the pointer lies inside a
live block with a zero byte from the pointer on. -/
def strlen (m : Memory) (p : Pointer) : Option Nat :=
  (bytesAt m p).bind Dtype.strlen

/-- The statement `var.size ? memcpy(var.mem, val, strlen(val)+1) : 0;` of
`dtype_set_string`. -/
def copy_string_if_sized (m : Memory) (var : dtype) (val : Pointer) : Run Memory :=
  if var.size ≠ 0 then
    checked ((strlen m val).bind fun len => memcpy m var.mem val (len + 1))
  else pure m

/-- The function `dtype_set_string`. -/
def dtype_set_string (fl : Flags) (outcome : Option Nat) (m : Memory) (var : dtype)
    (val : Pointer) : Run (Memory × dtype) := do
  let len ← checked (strlen m val)
  let r ← dtype__mem_refresh fl outcome m var (len + 1) "dtype_set_string"
  let m ← copy_string_if_sized r.1 r.2 val
  pure (m, { r.2 with type := DTYPE_STRING })

/-- A store of bytes through a pointer, as the assignments `c1.x = 0; c1.y = 0;`
of `src/test.c`: undefined unless the block is live and holds the bytes
written. -/
def store (m : Memory) (p : Pointer) (bytes : List Nat) : Option Memory :=
  match m p.block with
  | .live old =>
    if p.off + bytes.length ≤ old.length then
      some (m.set p.block
        (.live (old.take p.off ++ bytes ++ old.drop (p.off + bytes.length))))
    else none
  | _ => none

/-- A sequence of stores, one after the other. -/
def stores (m : Memory) : List (Pointer × List Nat) → Option Memory
  | [] => some m
  | w :: ws => (store m w.1 w.2).bind fun m2 => stores m2 ws

/-- The bytes of the buffer of a value, when it has one and the block is live. -/
def buffer (m : Memory) (var : dtype) : Option (List Nat) :=
  var.mem.bind fun b =>
    match m b with
    | .live bytes => some bytes
    | _ => none

/-- The value of the embedding above that a record stands for: its buffer read
from the memory. -/
def value (m : Memory) (var : dtype) : Dtype.dtype :=
  { mem := buffer m var, size := var.size, type := var.type }

/-- The source of the embedding above that a pointer stands for, relative to the
value passed with it: a pointer into the buffer of that value, or the bytes from
the pointer to the end of another live block. -/
def source (m : Memory) (var : dtype) (p : Pointer) : Option Source :=
  if var.mem = some p.block then some (Source.own p.off)
  else
    match m p.block with
    | .live bytes => if p.off ≤ bytes.length then some (Source.block (bytes.drop p.off)) else none
    | _ => none

/-- The run with the record returned read back as a value of the embedding
above. -/
def valueOf (r : Run (Memory × dtype)) : Run Dtype.dtype :=
  r.bind fun out => Run.pure (value out.1 out.2)

/-- The buffer of a record can be released: `mem` is `NULL` or the start of a live
block. -/
def releasable (m : Memory) (var : dtype) : Bool :=
  var.mem.isNone || (buffer m var).isSome

/-- The memory after the first statement of `dtype__mem_refresh` on a record whose
buffer can be released. -/
def afterFree (m : Memory) (mem : Option Nat) : Memory :=
  match mem with
  | some b => m.set b .freed
  | none => m

/-- The memory of `src/test.c` before its call of `dtype_set_custom`: block 0 is
the buffer of `var`, holding `{10, 20}`, block 1 is the record `c1 = {15, 16}`. -/
def testMemory : Memory :=
  fun i => if i = 0 then .live [10, 0, 0, 0, 20, 0, 0, 0]
    else if i = 1 then .live [15, 0, 0, 0, 16, 0, 0, 0] else .unallocated

/-- A memory in which block 0 holds the string "hi" with its terminator and no
other block has been handed out. -/
def hiMemory : Memory :=
  fun i => if i = 0 then .live [104, 105, 0] else .unallocated

end Heap

/-! ## Basic facts about runs -/

@[simp]
theorem bind_run {α β : Type} (r : Run α) (k : α → Run β) : (r >>= k) = r.bind k := rfl

@[simp]
theorem pure_run {α : Type} (a : α) : (pure a : Run α) = Run.pure a := rfl

@[simp]
theorem Run.pure_bind {α β : Type} (a : α) (k : α → Run β) : (Run.pure a).bind k = k a := rfl

@[simp]
theorem Run.pure_log {α : Type} (a : α) : (Run.pure a).log = [] := rfl

@[simp]
theorem Run.pure_res {α : Type} (a : α) : (Run.pure a).res = Res.ret a := rfl

theorem Run.bind_of_ret {α β : Type} (r : Run α) (k : α → Run β) (a : α)
    (h : r.res = Res.ret a) : r.bind k = ⟨r.log ++ (k a).log, (k a).res⟩ := by
  simp [Run.bind, h]

/-! ## Object representations -/

theorem leBytes_length (n u : Nat) : (leBytes n u).length = n := by
  induction n generalizing u with
  | zero => rfl
  | succ n ih => simp [leBytes, ih]

theorem leValue_leBytes (n u : Nat) : leValue (leBytes n u) = u % 256 ^ n := by
  induction n generalizing u with
  | zero => simp [leBytes, leValue, Nat.mod_one]
  | succ n ih => rw [leBytes, leValue, ih, pow_succ', Nat.mod_mul]

theorem objrep_length (abi : Abi) (n u : Nat) : (objrep abi n u).length = n := by
  unfold objrep
  split <;> simp [leBytes_length]

theorem objval_objrep (abi : Abi) (n u : Nat) : objval abi (objrep abi n u) = u % 256 ^ n := by
  unfold objval objrep
  split <;> simp [leValue_leBytes]

theorem ofSigned_lt (n : Nat) (v : Int) : ofSigned n v < 256 ^ n := by
  unfold ofSigned
  have hpos : (0 : Int) < (256 : Int) ^ n := by positivity
  have h1 := Int.emod_lt_of_pos v hpos
  have h0 := Int.emod_nonneg v (ne_of_gt hpos)
  zify
  rw [Int.toNat_of_nonneg h0]
  exact h1

theorem toSigned_ofSigned (n : Nat) (v : Int) (h : SignedRange n v) :
    toSigned n (ofSigned n v) = v := by
  obtain ⟨hlo, hhi⟩ := h
  have hpos : (0 : Int) < (256 : Int) ^ n := by positivity
  have h0 := Int.emod_nonneg v (ne_of_gt hpos)
  unfold toSigned ofSigned
  have hcast : (((v % (256 : Int) ^ n).toNat : Nat) : Int) = v % (256 : Int) ^ n :=
    Int.toNat_of_nonneg h0
  have hlt : (2 * (v % (256 : Int) ^ n).toNat < 256 ^ n) ↔ 2 * (v % (256 : Int) ^ n) < (256 : Int) ^ n := by
    zify
    rw [hcast]
  rcases lt_or_le v 0 with hneg | hnn
  · have hm : v % (256 : Int) ^ n = v + (256 : Int) ^ n := by
      rw [← Int.add_mul_emod_self (a := v) (b := 1) (c := (256 : Int) ^ n), one_mul]
      apply Int.emod_eq_of_lt <;> omega
    rw [if_neg (by rw [hlt, hm]; omega), hcast, hm]
    omega
  · have hm : v % (256 : Int) ^ n = v := by
      apply Int.emod_eq_of_lt <;> omega
    rw [if_pos (by rw [hlt, hm]; omega), hcast, hm]

/-! ## The allocation step and the copy -/

theorem mem_error_eval (fl : Flags) (size : Nat) (func : String) :
    dtype__mem_error fl size func =
      if fl.DTYPE_ERROR_THROW then
        if fl.DTYPE_EXIT_ON_ERROR then
          ⟨[Event.error DTYPE_MEMORY_ERROR func "Couldn't allocate memory for size"],
            Res.exit DTYPE_MEMORY_ERROR⟩
        else
          ⟨[Event.error DTYPE_MEMORY_ERROR func "Couldn't allocate memory for size",
            Event.memSize size], Res.ret ()⟩
      else ⟨[], Res.ret ()⟩ := by
  cases fl with
  | mk e w q x =>
    cases e <;> cases x <;> rfl

theorem mem_refresh_ok (fl : Flags) (x : dtype) (n : Nat) (func : String) (hn : 0 < n) :
    dtype__mem_refresh fl true x n func
      = Run.pure { mem := some (List.replicate n 0), size := n, type := DTYPE_NONE } := by
  have h : n ≠ 0 := Nat.pos_iff_ne_zero.mp hn
  simp [dtype__mem_refresh, dtype__mem_alloc, h]

theorem mem_refresh_fail (fl : Flags) (x : dtype) (n : Nat) (func : String) (hn : 0 < n) :
    dtype__mem_refresh fl false x n func
      = (dtype__mem_error fl n func).bind
          fun _ => Run.pure { mem := none, size := 0, type := DTYPE_NONE } := by
  have h : n ≠ 0 := Nat.pos_iff_ne_zero.mp hn
  simp [dtype__mem_refresh, dtype__mem_alloc, h]

theorem mem_refresh_zero (fl : Flags) (heap : Bool) (x : dtype) (func : String) :
    dtype__mem_refresh fl heap x 0 func
      = Run.pure { mem := none, size := 0, type := DTYPE_NONE } := by
  simp [dtype__mem_refresh]

theorem copy_fresh (n : Nat) (t : Int) (src : List Nat) (hn : 0 < n) (hs : n ≤ src.length) :
    copy_if_sized { mem := some (List.replicate n 0), size := n, type := t } src n
      = Run.pure { mem := some (src.take n), size := n, type := t } := by
  have h : n ≠ 0 := Nat.pos_iff_ne_zero.mp hn
  simp [copy_if_sized, memcpy, h, hs]

theorem copy_empty (t : Int) (src : List Nat) (n : Nat) :
    copy_if_sized { mem := none, size := 0, type := t } src n
      = Run.pure { mem := none, size := 0, type := t } := by
  simp [copy_if_sized]

theorem copy_objrep (abi : Abi) (n : Nat) (t : Int) (u : Nat) (hn : 0 < n) :
    copy_if_sized { mem := some (List.replicate n 0), size := n, type := t } (objrep abi n u) n
      = Run.pure { mem := some (objrep abi n u), size := n, type := t } := by
  rw [copy_fresh n t _ hn (by rw [objrep_length])]
  rw [List.take_of_length_le (by rw [objrep_length])]

/-! ## The type check -/

theorem strTypesAt_valid (t : Int) (h0 : DTYPE_NONE ≤ t) (h1 : t ≤ DTYPE_CUSTOM) :
    strTypesAt t = some (typeName t) := by
  simp only [DTYPE_NONE, DTYPE_CUSTOM] at h0 h1
  have h : t = 0 ∨ t = 1 ∨ t = 2 ∨ t = 3 ∨ t = 4 ∨ t = 5 ∨ t = 6 ∨ t = 7 ∨ t = 8 ∨ t = 9
      ∨ t = 10 ∨ t = 11 ∨ t = 12 := by omega
  rcases h with h | h | h | h | h | h | h | h | h | h | h | h | h <;> subst h <;> rfl

theorem typecheck_valid (fl : Flags) (var : dtype) (type : Int)
    (h0 : DTYPE_NONE ≤ var.type) (h1 : var.type ≤ DTYPE_CUSTOM)
    (t0 : DTYPE_NONE ≤ type) (t1 : type ≤ DTYPE_CUSTOM) :
    dtype__typecheck fl var type =
      if fl.DTYPE_WARN_THROW = true ∧ var.type ≠ type then
        ⟨[Event.warning (typeName type) type (typeName var.type) var.type], Res.ret true⟩
      else Run.pure false := by
  have hr : ¬ (var.type < DTYPE_NONE ∨ var.type > DTYPE_CUSTOM) := by
    simp only [DTYPE_NONE, DTYPE_CUSTOM] at h0 h1 ⊢
    omega
  unfold dtype__typecheck
  rw [if_neg hr]
  by_cases hw : fl.DTYPE_WARN_THROW = true
  · by_cases he : var.type = type
    · simp [hw, he]
    · simp [hw, he, dtype_get_str_type, strTypesAt_valid _ h0 h1, strTypesAt_valid _ t0 t1,
        checked, emit, Run.bind]
  · simp [hw]

theorem typecheck_corrupt (fl : Flags) (var : dtype) (type : Int)
    (h : var.type < DTYPE_NONE ∨ var.type > DTYPE_CUSTOM) :
    dtype__typecheck fl var type =
      if fl.DTYPE_ERROR_THROW then
        if fl.DTYPE_EXIT_ON_ERROR then
          ⟨[Event.error DTYPE_TYPE_ERROR "dtype_typecheck" "Invalid type, type is corrupted."],
            Res.exit DTYPE_TYPE_ERROR⟩
        else
          ⟨[Event.error DTYPE_TYPE_ERROR "dtype_typecheck" "Invalid type, type is corrupted.",
            Event.typeRange var.type DTYPE_NONE DTYPE_CUSTOM], Res.ret true⟩
      else Run.pure true := by
  unfold dtype__typecheck
  rw [if_pos h]
  cases fl with
  | mk e w q x => cases e <;> cases x <;> rfl

theorem raise_warn_error (fl : Flags) (func : String) :
    dtype__raise fl func warn_error_msg DTYPE_WARN_ERROR =
      if fl.DTYPE_ERROR_THROW then
        if fl.DTYPE_EXIT_ON_ERROR then
          ⟨[Event.error DTYPE_WARN_ERROR func warn_error_msg], Res.exit DTYPE_WARN_ERROR⟩
        else
          ⟨[Event.error DTYPE_WARN_ERROR func warn_error_msg], Res.ret true⟩
      else Run.pure false := by
  cases fl with
  | mk e w q x => cases e <;> cases x <;> rfl

theorem mismatch_check_valid (fl : Flags) (var : dtype) (type : Int) (func : String)
    (h0 : DTYPE_NONE ≤ var.type) (h1 : var.type ≤ DTYPE_CUSTOM)
    (t0 : DTYPE_NONE ≤ type) (t1 : type ≤ DTYPE_CUSTOM) :
    mismatch_check fl var type func =
      if fl.DTYPE_WARN_THROW = true ∧ var.type ≠ type then
        if fl.DTYPE_WARN_EQ_ERROR = true ∧ fl.DTYPE_ERROR_THROW = true then
          ⟨[Event.warning (typeName type) type (typeName var.type) var.type,
            Event.error DTYPE_WARN_ERROR func warn_error_msg],
            if fl.DTYPE_EXIT_ON_ERROR then Res.exit DTYPE_WARN_ERROR else Res.ret ()⟩
        else
          ⟨[Event.warning (typeName type) type (typeName var.type) var.type], Res.ret ()⟩
      else Run.pure () := by
  unfold mismatch_check
  rw [bind_run, typecheck_valid fl var type h0 h1 t0 t1]
  by_cases hc : fl.DTYPE_WARN_THROW = true ∧ var.type ≠ type
  · rw [if_pos hc, if_pos hc]
    cases fl with
    | mk e w q x => cases e <;> cases q <;> cases x <;> rfl
  · rw [if_neg hc, if_neg hc]
    rfl

theorem mismatch_check_same (fl : Flags) (var : dtype) (func : String)
    (h0 : DTYPE_NONE ≤ var.type) (h1 : var.type ≤ DTYPE_CUSTOM) :
    mismatch_check fl var var.type func = Run.pure () := by
  rw [mismatch_check_valid fl var var.type func h0 h1 h0 h1]
  simp

/-! ## The source of a copy -/

theorem copy_source_block (var : dtype) (src : List Nat) (n : Nat) :
    copy_source_if_sized var (Source.block src) n = copy_if_sized var src n := rfl

theorem copy_source_own (var : dtype) (off n : Nat) :
    copy_source_if_sized var (Source.own off) n
      = if var.size ≠ 0 then undefined else Run.pure var := rfl

theorem copy_source_cases (var : dtype) (val : Source) (n : Nat) :
    copy_source_if_sized var val n = undefined
      ∨ ∃ src, copy_source_if_sized var val n = copy_if_sized var src n := by
  cases val with
  | block bytes => exact Or.inr ⟨bytes, rfl⟩
  | own off =>
    rw [copy_source_own]
    by_cases h : var.size ≠ 0
    · left
      rw [if_pos h]
    · right
      refine ⟨[], ?_⟩
      rw [if_neg h]
      unfold copy_if_sized
      rw [if_neg h]
      rfl

theorem set_custom_block (fl : Flags) (heap : Bool) (x : dtype) (src : List Nat)
    (size : Nat) :
    dtype_set_custom fl heap x (Source.block src) size
      = (dtype__mem_refresh fl heap x size "dtype_set_custom").bind fun var =>
          (copy_if_sized var src size).bind fun var => Run.pure var := rfl

theorem set_custom_shape (fl : Flags) (heap : Bool) (x : dtype) (val : Source)
    (size : Nat) :
    dtype_set_custom fl heap x val size
      = (dtype__mem_refresh fl heap x size "dtype_set_custom").bind fun var =>
          (copy_source_if_sized var val size).bind fun var => Run.pure var := rfl

/-- The second `strlen(val)` of `dtype_set_string` finds the length the first one
found, or is undefined as the copy is. -/
theorem copy_string_eq (x var : dtype) (val : Source) (len : Nat)
    (h : (val.bytesBefore x).bind strlen = some len) :
    copy_string_if_sized var val = copy_source_if_sized var val (len + 1) := by
  cases val with
  | own off => rfl
  | block bytes =>
    have hb : strlen bytes = some len := h
    simp [copy_string_if_sized, copy_source_if_sized, Source.bytesAfter, hb]

theorem set_string_shape (fl : Flags) (heap : Bool) (x : dtype) (val : Source) :
    dtype_set_string fl heap x val
      = (checked ((val.bytesBefore x).bind strlen)).bind fun len =>
          (dtype__mem_refresh fl heap x (len + 1) "dtype_set_string").bind fun var =>
            (copy_source_if_sized var val (len + 1)).bind fun var =>
              Run.pure { var with type := DTYPE_STRING } := by
  unfold dtype_set_string
  simp only [bind_run, pure_run]
  cases h : (val.bytesBefore x).bind strlen with
  | none => rfl
  | some len =>
    simp only [copy_string_eq x _ val len h]
    rfl

theorem set_string_block (fl : Flags) (heap : Bool) (x : dtype) (val : List Nat) :
    dtype_set_string fl heap x (Source.block val)
      = (checked (strlen val)).bind fun len =>
          (dtype__mem_refresh fl heap x (len + 1) "dtype_set_string").bind fun var =>
            (copy_if_sized var val (len + 1)).bind fun var =>
              Run.pure { var with type := DTYPE_STRING } := by
  rw [set_string_shape]
  rfl

/-! ## The setters when the allocation succeeds -/

theorem set_bool_ok (abi : Abi) (fl : Flags) (x : dtype) (v : Bool) :
    dtype_set_bool abi fl true x v
      = Run.pure { mem := some (objrep abi abi.sizeof_bool (if v then 1 else 0)),
                   size := abi.sizeof_bool, type := DTYPE_BOOL } := by
  simp [dtype_set_bool, mem_refresh_ok _ _ _ _ abi.bool_pos, copy_objrep _ _ _ _ abi.bool_pos]

theorem set_char_ok (abi : Abi) (fl : Flags) (x : dtype) (v : Int) :
    dtype_set_char abi fl true x v
      = Run.pure { mem := some (objrep abi sizeof_char (ofChar abi v)),
                   size := sizeof_char, type := DTYPE_CHAR } := by
  have hpos : 0 < sizeof_char := by decide
  simp [dtype_set_char, mem_refresh_ok _ _ _ _ hpos, copy_objrep _ _ _ _ hpos]

theorem set_short_ok (abi : Abi) (fl : Flags) (x : dtype) (v : Int) :
    dtype_set_short abi fl true x v
      = Run.pure { mem := some (objrep abi abi.sizeof_short (ofSigned abi.sizeof_short v)),
                   size := abi.sizeof_short, type := DTYPE_SHORT } := by
  simp [dtype_set_short, mem_refresh_ok _ _ _ _ abi.short_pos,
    copy_objrep _ _ _ _ abi.short_pos]

theorem set_ushort_ok (abi : Abi) (fl : Flags) (x : dtype) (v : Nat) :
    dtype_set_ushort abi fl true x v
      = Run.pure { mem := some (objrep abi abi.sizeof_short v),
                   size := abi.sizeof_short, type := DTYPE_USHORT } := by
  simp [dtype_set_ushort, mem_refresh_ok _ _ _ _ abi.short_pos,
    copy_objrep _ _ _ _ abi.short_pos]

theorem set_int_ok (abi : Abi) (fl : Flags) (x : dtype) (v : Int) :
    dtype_set_int abi fl true x v
      = Run.pure { mem := some (objrep abi abi.sizeof_int (ofSigned abi.sizeof_int v)),
                   size := abi.sizeof_int, type := DTYPE_INT } := by
  simp [dtype_set_int, mem_refresh_ok _ _ _ _ abi.int_pos, copy_objrep _ _ _ _ abi.int_pos]

theorem set_uint_ok (abi : Abi) (fl : Flags) (x : dtype) (v : Nat) :
    dtype_set_uint abi fl true x v
      = Run.pure { mem := some (objrep abi abi.sizeof_int v),
                   size := abi.sizeof_int, type := DTYPE_UINT } := by
  simp [dtype_set_uint, mem_refresh_ok _ _ _ _ abi.int_pos, copy_objrep _ _ _ _ abi.int_pos]

theorem set_long_ok (abi : Abi) (fl : Flags) (x : dtype) (v : Int) :
    dtype_set_long abi fl true x v
      = Run.pure { mem := some (objrep abi abi.sizeof_long (ofSigned abi.sizeof_long v)),
                   size := abi.sizeof_long, type := DTYPE_LONG } := by
  simp [dtype_set_long, mem_refresh_ok _ _ _ _ abi.long_pos, copy_objrep _ _ _ _ abi.long_pos]

theorem set_ulong_ok (abi : Abi) (fl : Flags) (x : dtype) (v : Nat) :
    dtype_set_ulong abi fl true x v
      = Run.pure { mem := some (objrep abi abi.sizeof_long v),
                   size := abi.sizeof_long, type := DTYPE_ULONG } := by
  simp [dtype_set_ulong, mem_refresh_ok _ _ _ _ abi.long_pos,
    copy_objrep _ _ _ _ abi.long_pos]

theorem set_float_ok (abi : Abi) (fl : Flags) (x : dtype) (v : Nat) :
    dtype_set_float abi fl true x v
      = Run.pure { mem := some (objrep abi abi.sizeof_float v),
                   size := abi.sizeof_float, type := DTYPE_FLOAT } := by
  simp [dtype_set_float, mem_refresh_ok _ _ _ _ abi.float_pos,
    copy_objrep _ _ _ _ abi.float_pos]

theorem takeWhile_terminated (s rest : List Nat) (hs : ∀ b ∈ s, b ≠ 0) :
    (s ++ 0 :: rest).takeWhile (fun b => b != 0) = s := by
  induction s with
  | nil => simp [List.takeWhile]
  | cons a t ih =>
    have ha : a ≠ 0 := hs a (by simp)
    have ht : ∀ b ∈ t, b ≠ 0 := fun b hb => hs b (by simp [hb])
    rw [List.cons_append, List.takeWhile_cons]
    simp [ha, ih ht]

theorem strlen_terminated (s rest : List Nat) (hs : ∀ b ∈ s, b ≠ 0) :
    strlen (s ++ 0 :: rest) = some s.length := by
  simp [strlen, takeWhile_terminated s rest hs]

theorem cstring_terminated (s rest : List Nat) (hs : ∀ b ∈ s, b ≠ 0) :
    cstring (s ++ 0 :: rest) = some s := by
  simp [cstring, takeWhile_terminated s rest hs]

theorem set_string_ok (fl : Flags) (x : dtype) (s rest : List Nat) (hs : ∀ b ∈ s, b ≠ 0) :
    dtype_set_string fl true x (Source.block (s ++ 0 :: rest))
      = Run.pure { mem := some (s ++ [0]), size := s.length + 1, type := DTYPE_STRING } := by
  have htake : (s ++ 0 :: rest).take (s.length + 1) = s ++ [0] := by
    rw [List.take_append_eq_append_take]
    simp
  rw [set_string_block]
  simp [strlen_terminated s rest hs, checked,
    mem_refresh_ok _ _ _ _ (Nat.succ_pos s.length),
    copy_fresh _ _ _ (Nat.succ_pos s.length), htake]

theorem set_custom_ok (fl : Flags) (x : dtype) (src : List Nat) (size : Nat)
    (hpos : 0 < size) (hle : size ≤ src.length) :
    dtype_set_custom fl true x (Source.block src) size
      = Run.pure { mem := some (src.take size), size := size, type := DTYPE_NONE } := by
  rw [set_custom_block]
  simp [mem_refresh_ok _ _ _ _ hpos, copy_fresh _ _ _ hpos hle]

/-! ## The setters when the allocation fails -/

theorem setter_fail (fl : Flags) (x : dtype) (n m : Nat) (func : String) (tag : Int)
    (src : List Nat) (hn : 0 < n) :
    ((dtype__mem_refresh fl false x n func).bind fun var =>
        (copy_if_sized var src m).bind fun var =>
          Run.pure { var with type := tag }).res = allocFailure fl tag := by
  rw [mem_refresh_fail fl x n func hn, mem_error_eval]
  cases fl with
  | mk e w q x => cases e <;> cases x <;> rfl

theorem set_custom_fail (fl : Flags) (x : dtype) (src : Source) (size : Nat)
    (hn : 0 < size) :
    (dtype_set_custom fl false x src size).res = allocFailure fl DTYPE_NONE := by
  rw [set_custom_shape, mem_refresh_fail fl x size _ hn, mem_error_eval]
  cases fl with
  | mk e w q x => cases e <;> cases x <;> rfl

theorem set_custom_zero (fl : Flags) (heap : Bool) (x : dtype) (src : Source) :
    dtype_set_custom fl heap x src 0 = Run.pure dtype_default := by
  rw [set_custom_shape, mem_refresh_zero]
  simp [copy_source_if_sized, dtype_default]

/-! ## Reading back what was set -/

theorem read_after_check {α : Type} (chk : Run Unit) (o : Option (List Nat))
    (f : List Nat → α) :
    (chk.bind fun _ => (checked o).bind fun bs => Run.pure (f bs))
      = ⟨chk.log,
          match chk.res with
          | Res.ret _ => (match o with
              | some bs => Res.ret (f bs)
              | none => Res.undef)
          | Res.exit c => Res.exit c
          | Res.undef => Res.undef⟩ := by
  obtain ⟨l, r⟩ := chk
  cases r <;> cases o <;> simp [Run.bind, checked, undefined, Run.pure]

theorem deref_objrep (abi : Abi) (n : Nat) (u : Nat) (sz : Nat) (t : Int) :
    deref { mem := some (objrep abi n u), size := sz, type := t } n = some (objrep abi n u) := by
  simp [deref, objrep_length]

theorem mismatch_check_tag (fl : Flags) (m : Option (List Nat)) (sz : Nat) (t : Int)
    (func : String) (h0 : DTYPE_NONE ≤ t) (h1 : t ≤ DTYPE_CUSTOM) :
    mismatch_check fl { mem := m, size := sz, type := t } t func = Run.pure () :=
  mismatch_check_same fl { mem := m, size := sz, type := t } func h0 h1

theorem mismatch_check_mk (fl : Flags) (m : Option (List Nat)) (sz : Nat) (t type : Int)
    (func : String) (h0 : DTYPE_NONE ≤ t) (h1 : t ≤ DTYPE_CUSTOM)
    (t0 : DTYPE_NONE ≤ type) (t1 : type ≤ DTYPE_CUSTOM) :
    mismatch_check fl { mem := m, size := sz, type := t } type func =
      if fl.DTYPE_WARN_THROW = true ∧ t ≠ type then
        if fl.DTYPE_WARN_EQ_ERROR = true ∧ fl.DTYPE_ERROR_THROW = true then
          ⟨[Event.warning (typeName type) type (typeName t) t,
            Event.error DTYPE_WARN_ERROR func warn_error_msg],
            if fl.DTYPE_EXIT_ON_ERROR then Res.exit DTYPE_WARN_ERROR else Res.ret ()⟩
        else
          ⟨[Event.warning (typeName type) type (typeName t) t], Res.ret ()⟩
      else Run.pure () :=
  mismatch_check_valid fl { mem := m, size := sz, type := t } type func h0 h1 t0 t1

theorem checked_some {α : Type} (a : α) : checked (some a) = Run.pure a := rfl

theorem ofSigned_mod (n : Nat) (v : Int) : ofSigned n v % 256 ^ n = ofSigned n v :=
  Nat.mod_eq_of_lt (ofSigned_lt n v)

theorem toChar_ofChar (abi : Abi) (v : Int) (h : CharRange abi v) :
    toChar abi (ofChar abi v % 256 ^ sizeof_char) = v := by
  unfold CharRange at h
  unfold toChar ofChar
  cases hs : abi.char_signed
  · simp only [hs] at h
    simp only [Bool.false_eq_true, if_false, sizeof_char, pow_one]
    obtain ⟨h0, h1⟩ := h
    have hm : v % 256 = v := Int.emod_eq_of_lt h0 h1
    rw [hm]
    have h2 : v.toNat % 256 = v.toNat := Nat.mod_eq_of_lt (by omega)
    rw [h2]
    exact Int.toNat_of_nonneg h0
  · simp only [hs, if_true] at h
    simp only [if_true]
    rw [ofSigned_mod, toSigned_ofSigned _ _ h]

theorem roundtrip_bool (abi : Abi) (fl : Flags) (x : dtype) (v : Bool) :
    (dtype_set_bool abi fl true x v).bind (dtype_get_bool abi fl) = Run.pure v := by
  rw [set_bool_ok, Run.pure_bind]
  unfold dtype_get_bool
  simp only [bind_run, pure_run]
  rw [mismatch_check_tag _ _ _ _ _ (by decide) (by decide), Run.pure_bind, deref_objrep]
  simp only [checked_some, Run.pure_bind]
  rw [objval_objrep]
  have hp : 1 < 256 ^ abi.sizeof_bool := Nat.one_lt_pow (Nat.pos_iff_ne_zero.mp abi.bool_pos) (by decide)
  cases v
  · simp [checked]
  · simp [checked, Nat.mod_eq_of_lt hp]

theorem roundtrip_char (abi : Abi) (fl : Flags) (x : dtype) (v : Int) (h : CharRange abi v) :
    (dtype_set_char abi fl true x v).bind (dtype_get_char abi fl) = Run.pure v := by
  rw [set_char_ok, Run.pure_bind]
  unfold dtype_get_char
  simp only [bind_run, pure_run]
  rw [mismatch_check_tag _ _ _ _ _ (by decide) (by decide), Run.pure_bind, deref_objrep]
  simp only [checked_some, Run.pure_bind]
  rw [objval_objrep, toChar_ofChar abi v h]

theorem roundtrip_short (abi : Abi) (fl : Flags) (x : dtype) (v : Int)
    (h : SignedRange abi.sizeof_short v) :
    (dtype_set_short abi fl true x v).bind (dtype_get_short abi fl) = Run.pure v := by
  rw [set_short_ok, Run.pure_bind]
  unfold dtype_get_short
  simp only [bind_run, pure_run]
  rw [mismatch_check_tag _ _ _ _ _ (by decide) (by decide), Run.pure_bind, deref_objrep]
  simp only [checked_some, Run.pure_bind]
  rw [objval_objrep, ofSigned_mod, toSigned_ofSigned _ _ h]

theorem roundtrip_ushort (abi : Abi) (fl : Flags) (x : dtype) (v : Nat)
    (h : v < 256 ^ abi.sizeof_short) :
    (dtype_set_ushort abi fl true x v).bind (dtype_get_ushort abi fl) = Run.pure v := by
  rw [set_ushort_ok, Run.pure_bind]
  unfold dtype_get_ushort
  simp only [bind_run, pure_run]
  rw [mismatch_check_tag _ _ _ _ _ (by decide) (by decide), Run.pure_bind, deref_objrep]
  simp only [checked_some, Run.pure_bind]
  rw [objval_objrep, Nat.mod_eq_of_lt h]

theorem roundtrip_int (abi : Abi) (fl : Flags) (x : dtype) (v : Int)
    (h : SignedRange abi.sizeof_int v) :
    (dtype_set_int abi fl true x v).bind (dtype_get_int abi fl) = Run.pure v := by
  rw [set_int_ok, Run.pure_bind]
  unfold dtype_get_int
  simp only [bind_run, pure_run]
  rw [mismatch_check_tag _ _ _ _ _ (by decide) (by decide), Run.pure_bind, deref_objrep]
  simp only [checked_some, Run.pure_bind]
  rw [objval_objrep, ofSigned_mod, toSigned_ofSigned _ _ h]

theorem roundtrip_uint (abi : Abi) (fl : Flags) (x : dtype) (v : Nat)
    (h : v < 256 ^ abi.sizeof_int) :
    (dtype_set_uint abi fl true x v).bind (dtype_get_uint abi fl) = Run.pure v := by
  rw [set_uint_ok, Run.pure_bind]
  unfold dtype_get_uint
  simp only [bind_run, pure_run]
  rw [mismatch_check_tag _ _ _ _ _ (by decide) (by decide), Run.pure_bind, deref_objrep]
  simp only [checked_some, Run.pure_bind]
  rw [objval_objrep, Nat.mod_eq_of_lt h]

theorem roundtrip_long (abi : Abi) (fl : Flags) (x : dtype) (v : Int)
    (h : SignedRange abi.sizeof_long v) :
    (dtype_set_long abi fl true x v).bind (dtype_get_long abi fl) = Run.pure v := by
  rw [set_long_ok, Run.pure_bind]
  unfold dtype_get_long
  simp only [bind_run, pure_run]
  rw [mismatch_check_tag _ _ _ _ _ (by decide) (by decide), Run.pure_bind, deref_objrep]
  simp only [checked_some, Run.pure_bind]
  rw [objval_objrep, ofSigned_mod, toSigned_ofSigned _ _ h]

theorem roundtrip_ulong (abi : Abi) (fl : Flags) (x : dtype) (v : Nat)
    (h : v < 256 ^ abi.sizeof_long) :
    (dtype_set_ulong abi fl true x v).bind (dtype_get_ulong abi fl) = Run.pure v := by
  rw [set_ulong_ok, Run.pure_bind]
  unfold dtype_get_ulong
  simp only [bind_run, pure_run]
  rw [mismatch_check_tag _ _ _ _ _ (by decide) (by decide), Run.pure_bind, deref_objrep]
  simp only [checked_some, Run.pure_bind]
  rw [objval_objrep, Nat.mod_eq_of_lt h]

/-- The float getter on a value just set by the float setter: the check against
`DTYPE_BOOL` leaves the read untouched unless it ends the process, which it does
exactly when all four switches are set. -/
theorem roundtrip_float_res (abi : Abi) (fl : Flags) (x : dtype) (v : Nat)
    (h : v < 256 ^ abi.sizeof_float) :
    ((dtype_set_float abi fl true x v).bind (dtype_get_float abi fl)).res
      = if fl.DTYPE_WARN_THROW && fl.DTYPE_WARN_EQ_ERROR && fl.DTYPE_ERROR_THROW
            && fl.DTYPE_EXIT_ON_ERROR
        then Res.exit DTYPE_WARN_ERROR else Res.ret v := by
  rw [set_float_ok, Run.pure_bind]
  unfold dtype_get_float
  simp only [bind_run, pure_run]
  rw [read_after_check, mismatch_check_mk _ _ _ _ _ _ (by decide) (by decide) (by decide)
    (by decide), deref_objrep]
  simp only [objval_objrep, Nat.mod_eq_of_lt h]
  cases fl with
  | mk e w q x => cases e <;> cases w <;> cases q <;> cases x <;> simp [DTYPE_FLOAT, DTYPE_BOOL]

/-- C1 (failing input): with the four switches set, `dtype_get_float` applied to
the value `dtype_set_float` has just produced (allocation succeeding) does not
return the value: its check against `DTYPE_BOOL` emits a mismatch warning, the
warning is raised as an error, and the process is ended with status
`DTYPE_WARN_ERROR`. -/
theorem get_float_of_set_float_exits (abi : Abi) (x : dtype) (v : Nat) :
    (dtype_set_float abi Flags.allOn true x v).bind (dtype_get_float abi Flags.allOn)
      = ⟨[Event.warning "boolean" DTYPE_BOOL "float" DTYPE_FLOAT,
          Event.error DTYPE_WARN_ERROR "dtype_get_float" warn_error_msg],
         Res.exit DTYPE_WARN_ERROR⟩ := by
  rw [set_float_ok, Run.pure_bind]
  unfold dtype_get_float
  simp only [bind_run, pure_run]
  rw [read_after_check, mismatch_check_mk _ _ _ _ _ _ (by decide) (by decide) (by decide)
    (by decide)]
  rfl

/-! ## What a setter that returns has done -/

theorem bind_res_ret {α β : Type} (r : Run α) (k : α → Run β) (b : β)
    (h : (r.bind k).res = Res.ret b) : ∃ a, r.res = Res.ret a ∧ (k a).res = Res.ret b := by
  obtain ⟨l, res⟩ := r
  cases res with
  | ret a => exact ⟨a, rfl, h⟩
  | exit c => cases h
  | undef => cases h

theorem mem_refresh_ret_type (fl : Flags) (heap : Bool) (x : dtype) (n : Nat) (func : String)
    (a : dtype) (h : (dtype__mem_refresh fl heap x n func).res = Res.ret a) :
    a.type = DTYPE_NONE := by
  rcases Nat.eq_zero_or_pos n with hz | hpos
  · subst hz
    rw [mem_refresh_zero] at h
    cases h
    rfl
  · cases heap
    · rw [mem_refresh_fail fl x n func hpos] at h
      obtain ⟨_, _, h2⟩ := bind_res_ret _ _ _ h
      cases h2
      rfl
    · rw [mem_refresh_ok fl x n func hpos] at h
      cases h
      rfl

theorem copy_ret_type (a b : dtype) (src : List Nat) (n : Nat)
    (h : (copy_if_sized a src n).res = Res.ret b) : b.type = a.type := by
  unfold copy_if_sized at h
  split at h
  · split at h
    · cases h
      rfl
    · cases h
  · cases h
    rfl

theorem setter_ret_tag (fl : Flags) (heap : Bool) (x : dtype) (n m : Nat) (func : String)
    (src : List Nat) (tag : Int) (y : dtype)
    (h : ((dtype__mem_refresh fl heap x n func).bind fun var =>
            (copy_if_sized var src m).bind fun var =>
              Run.pure { var with type := tag }).res = Res.ret y) :
    y.type = tag := by
  obtain ⟨a, _, h1⟩ := bind_res_ret _ _ _ h
  obtain ⟨b, _, h2⟩ := bind_res_ret _ _ _ h1
  cases h2
  rfl

theorem source_shape_ret {β : Type} (r : Run dtype) (val : Source) (n : Nat)
    (k : dtype → Run β) (y : β)
    (h : (r.bind fun var => (copy_source_if_sized var val n).bind k).res = Res.ret y) :
    ∃ src, (r.bind fun var => (copy_if_sized var src n).bind k).res = Res.ret y := by
  obtain ⟨a, ha, h1⟩ := bind_res_ret _ _ _ h
  rcases copy_source_cases a val n with hu | ⟨src, hs⟩
  · rw [hu] at h1
    cases h1
  · rw [hs] at h1
    refine ⟨src, ?_⟩
    rw [Run.bind_of_ret r _ a ha]
    exact h1

theorem set_custom_ret_tag (fl : Flags) (heap : Bool) (x : dtype) (src : Source)
    (size : Nat) (y : dtype) (h : (dtype_set_custom fl heap x src size).res = Res.ret y) :
    y.type = DTYPE_NONE := by
  rw [set_custom_shape] at h
  obtain ⟨bytes, h⟩ := source_shape_ret _ src size _ y h
  obtain ⟨a, ha, h1⟩ := bind_res_ret _ _ _ h
  obtain ⟨b, hb, h2⟩ := bind_res_ret _ _ _ h1
  cases h2
  rw [copy_ret_type a _ bytes size hb]
  exact mem_refresh_ret_type fl heap x size _ a ha

/-! ## Claims about the setters -/

/-- C8: setter postcondition. For each primitive type other than double, when
the allocation succeeds the setter writes nothing, returns, and the value it
returns has length `sizeof(T)`, a buffer that is exactly the `sizeof(T)`-byte
object representation of the value set, and tag `T`; the prior value `x` does not
occur in the result. The last conjunct records that the object representation on
`n` bytes has `n` bytes. -/
theorem setter_postcondition (abi : Abi) (fl : Flags) (x : dtype)
    (b : Bool) (c s i l : Int) (us ui ul f : Nat) :
    dtype_set_bool abi fl true x b
        = Run.pure { mem := some (objrep abi abi.sizeof_bool (if b then 1 else 0)),
                     size := abi.sizeof_bool, type := DTYPE_BOOL }
    ∧ dtype_set_char abi fl true x c
        = Run.pure { mem := some (objrep abi sizeof_char (ofChar abi c)),
                     size := sizeof_char, type := DTYPE_CHAR }
    ∧ dtype_set_short abi fl true x s
        = Run.pure { mem := some (objrep abi abi.sizeof_short (ofSigned abi.sizeof_short s)),
                     size := abi.sizeof_short, type := DTYPE_SHORT }
    ∧ dtype_set_ushort abi fl true x us
        = Run.pure { mem := some (objrep abi abi.sizeof_short us),
                     size := abi.sizeof_short, type := DTYPE_USHORT }
    ∧ dtype_set_int abi fl true x i
        = Run.pure { mem := some (objrep abi abi.sizeof_int (ofSigned abi.sizeof_int i)),
                     size := abi.sizeof_int, type := DTYPE_INT }
    ∧ dtype_set_uint abi fl true x ui
        = Run.pure { mem := some (objrep abi abi.sizeof_int ui),
                     size := abi.sizeof_int, type := DTYPE_UINT }
    ∧ dtype_set_long abi fl true x l
        = Run.pure { mem := some (objrep abi abi.sizeof_long (ofSigned abi.sizeof_long l)),
                     size := abi.sizeof_long, type := DTYPE_LONG }
    ∧ dtype_set_ulong abi fl true x ul
        = Run.pure { mem := some (objrep abi abi.sizeof_long ul),
                     size := abi.sizeof_long, type := DTYPE_ULONG }
    ∧ dtype_set_float abi fl true x f
        = Run.pure { mem := some (objrep abi abi.sizeof_float f),
                     size := abi.sizeof_float, type := DTYPE_FLOAT }
    ∧ ∀ n u : Nat, (objrep abi n u).length = n :=
  ⟨set_bool_ok abi fl x b, set_char_ok abi fl x c, set_short_ok abi fl x s,
    set_ushort_ok abi fl x us, set_int_ok abi fl x i, set_uint_ok abi fl x ui,
    set_long_ok abi fl x l, set_ulong_ok abi fl x ul, set_float_ok abi fl x f,
    objrep_length abi⟩

/-- C2 (counterexample): setting an int and then overwriting it with four custom
bytes does not leave the tag `DTYPE_INT`: the tag before the call of
`dtype_set_custom` is `DTYPE_INT`, the tag after it is `DTYPE_NONE`. -/
theorem set_custom_after_int_tag :
    dtype_set_int lp64 Flags.initial true dtype_default 5
        = Run.pure { mem := some [5, 0, 0, 0], size := 4, type := DTYPE_INT }
    ∧ dtype_set_custom Flags.initial true
          { mem := some [5, 0, 0, 0], size := 4, type := DTYPE_INT }
          (Source.block [1, 2, 3, 4]) 4
        = Run.pure { mem := some [1, 2, 3, 4], size := 4, type := DTYPE_NONE }
    ∧ DTYPE_NONE ≠ DTYPE_INT := by
  decide

/-- C2 (amended): `dtype_set_custom` assigns no tag of its own, and the refresh
it starts with resets the tag, so every value it returns has tag `DTYPE_NONE`,
whatever tag `x` had and wherever the source lies; and it does return when the
allocation succeeds and the source, a block other than the buffer of `x`, holds
at least `size` bytes. -/
theorem set_custom_tag_none (fl : Flags) (heap : Bool) (x : dtype) (src : List Nat)
    (size : Nat) :
    (∀ (val : Source) (y : dtype),
        (dtype_set_custom fl heap x val size).res = Res.ret y → y.type = DTYPE_NONE)
    ∧ (size ≤ src.length →
        ∃ y, dtype_set_custom fl true x (Source.block src) size = Run.pure y
          ∧ y.type = DTYPE_NONE) := by
  constructor
  · intro val y hy
    exact set_custom_ret_tag fl heap x val size y hy
  · intro hle
    rcases Nat.eq_zero_or_pos size with h0 | hpos
    · subst h0
      exact ⟨_, set_custom_zero fl true x _, rfl⟩
    · exact ⟨_, set_custom_ok fl x src size hpos hle, rfl⟩

/-- Witness of C2 (amended): the value of the counterexample, tag `DTYPE_INT`,
overwritten with four custom bytes. -/
theorem set_custom_tag_none_witness :
    (∀ y, (dtype_set_custom Flags.initial true
            { mem := some [5, 0, 0, 0], size := 4, type := DTYPE_INT }
            (Source.block [1, 2, 3, 4]) 4).res
          = Res.ret y → y.type = DTYPE_NONE)
    ∧ ∃ y, dtype_set_custom Flags.initial true
            { mem := some [5, 0, 0, 0], size := 4, type := DTYPE_INT }
            (Source.block [1, 2, 3, 4]) 4
          = Run.pure y ∧ y.type = DTYPE_NONE :=
  ⟨(set_custom_tag_none Flags.initial true _ [1, 2, 3, 4] 4).1 (Source.block [1, 2, 3, 4]),
    (set_custom_tag_none Flags.initial true _ [1, 2, 3, 4] 4).2 (by decide)⟩

/-- C3 (counterexample): `dtype_set_int` with a failing allocation (initial
switches) reports the memory error and returns a value without buffer and of
length 0 whose tag is `DTYPE_INT`, not `DTYPE_NONE`. -/
theorem set_int_alloc_failure_tag :
    dtype_set_int lp64 Flags.initial false dtype_default 5
        = ⟨[Event.error DTYPE_MEMORY_ERROR "dtype_set_int" "Couldn't allocate memory for size",
            Event.memSize 4],
           Res.ret { mem := none, size := 0, type := DTYPE_INT }⟩
    ∧ DTYPE_INT ≠ DTYPE_NONE := by
  decide

/-- C3 (amended): when the allocation of the new buffer fails, every setter ends
as `allocFailure` describes: the process is ended with status
`DTYPE_MEMORY_ERROR` if error reporting and exit-on-error are both set, and
otherwise the setter returns a value with no buffer and length 0. The tag of that
value is the setter's own tag `T` for the ten primitive setters and
`DTYPE_STRING` for `dtype_set_string`, which assign it after the refresh whether
or not the allocation succeeded; it is `DTYPE_NONE` only for `dtype_set_custom`
(called with a non-zero size, so that an allocation takes place, and with any
source, which is not read). The string passed to `dtype_set_string` lies in a
block other than the buffer of `x`. -/
theorem setter_alloc_failure (abi : Abi) (fl : Flags) (x : dtype)
    (b : Bool) (c s i l : Int) (us ui ul f d : Nat) (str rest : List Nat) (src : Source)
    (size : Nat) (hstr : ∀ a ∈ str, a ≠ 0) (hsize : 0 < size) :
    (dtype_set_bool abi fl false x b).res = allocFailure fl DTYPE_BOOL
    ∧ (dtype_set_char abi fl false x c).res = allocFailure fl DTYPE_CHAR
    ∧ (dtype_set_short abi fl false x s).res = allocFailure fl DTYPE_SHORT
    ∧ (dtype_set_ushort abi fl false x us).res = allocFailure fl DTYPE_USHORT
    ∧ (dtype_set_int abi fl false x i).res = allocFailure fl DTYPE_INT
    ∧ (dtype_set_uint abi fl false x ui).res = allocFailure fl DTYPE_UINT
    ∧ (dtype_set_long abi fl false x l).res = allocFailure fl DTYPE_LONG
    ∧ (dtype_set_ulong abi fl false x ul).res = allocFailure fl DTYPE_ULONG
    ∧ (dtype_set_float abi fl false x f).res = allocFailure fl DTYPE_FLOAT
    ∧ (dtype_set_double abi fl false x d).res = allocFailure fl DTYPE_DOUBLE
    ∧ (dtype_set_string fl false x (Source.block (str ++ 0 :: rest))).res
        = allocFailure fl DTYPE_STRING
    ∧ (dtype_set_custom fl false x src size).res = allocFailure fl DTYPE_NONE := by
  refine ⟨?_, ?_, ?_, ?_, ?_, ?_, ?_, ?_, ?_, ?_, ?_, ?_⟩
  · exact setter_fail fl x _ _ _ _ _ abi.bool_pos
  · exact setter_fail fl x _ _ _ _ _ (by decide)
  · exact setter_fail fl x _ _ _ _ _ abi.short_pos
  · exact setter_fail fl x _ _ _ _ _ abi.short_pos
  · exact setter_fail fl x _ _ _ _ _ abi.int_pos
  · exact setter_fail fl x _ _ _ _ _ abi.int_pos
  · exact setter_fail fl x _ _ _ _ _ abi.long_pos
  · exact setter_fail fl x _ _ _ _ _ abi.long_pos
  · exact setter_fail fl x _ _ _ _ _ abi.float_pos
  · exact setter_fail fl x _ _ _ _ _ abi.int_pos
  · rw [set_string_block, strlen_terminated str rest hstr, checked_some, Run.pure_bind]
    exact setter_fail fl x _ _ _ _ _ (Nat.succ_pos _)
  · exact set_custom_fail fl x src size hsize

/-- Witness of C3 (amended): the x86-64 platform, the initial switches, the empty
value, the string "hi" and a custom block of two bytes. -/
theorem setter_alloc_failure_witness :
    (dtype_set_bool lp64 Flags.initial false dtype_default true).res
        = allocFailure Flags.initial DTYPE_BOOL
    ∧ (dtype_set_int lp64 Flags.initial false dtype_default 5).res
        = Res.ret { mem := none, size := 0, type := DTYPE_INT }
    ∧ (dtype_set_string Flags.initial false dtype_default
        (Source.block ([104, 105] ++ 0 :: []))).res
        = allocFailure Flags.initial DTYPE_STRING
    ∧ (dtype_set_custom Flags.initial false dtype_default (Source.block [15, 16]) 2).res
        = Res.ret dtype_default :=
  have h := setter_alloc_failure lp64 Flags.initial dtype_default true 0 0 5 0 0 0 0 0 0
    [104, 105] [] (Source.block [15, 16]) 2 (by decide) (by decide)
  ⟨h.1, h.2.2.2.2.1, h.2.2.2.2.2.2.2.2.2.2.1, h.2.2.2.2.2.2.2.2.2.2.2⟩

/-- C4 (failing input): the first call of `src/test.c`,
`dtype_change_size(dtype_default(), size)` with `realloc` succeeding, yields a
reachable value whose `size` field is still 0 although its buffer is present and
holds `size` bytes (8 in the test); and when `realloc` fails on a value that holds
an int, the buffer is absent while the `size` field keeps its old value 4. -/
theorem change_size_leaves_size_field (abi : Abi) (fl : Flags) (size : Nat)
    (fresh : List Nat) :
    Reachable abi fl (dtype_change_size dtype_default size (some fresh))
    ∧ (dtype_change_size dtype_default size (some fresh)).size = 0
    ∧ (∃ bs, (dtype_change_size dtype_default size (some fresh)).mem = some bs
          ∧ bs.length = size)
    ∧ dtype_change_size dtype_default 8 (some [])
        = { mem := some [0, 0, 0, 0, 0, 0, 0, 0], size := 0, type := DTYPE_NONE }
    ∧ dtype_change_size { mem := some [5, 0, 0, 0], size := 4, type := DTYPE_INT } 8 none
        = { mem := none, size := 4, type := DTYPE_INT } := by
  refine ⟨?_, rfl, ?_, by decide, by decide⟩
  · exact Reachable.step dtype_default _ (Op.change_size size (some fresh)) Reachable.start rfl
  · refine ⟨_, rfl, ?_⟩
    simp [dtype_default]

/-- C5: `dtype_clear` returns the empty value `dtype_default()` for every value
`x` and every setting of the switches, and writes nothing (its log is empty, so no
diagnostic is raised), whatever the allocator would do; in particular clearing
the value produced by setting the int 5 gives the empty value. -/
theorem clear_returns_default (abi : Abi) (fl : Flags) (heap : Bool) (x : dtype) :
    dtype_clear fl heap x = Run.pure dtype_default
    ∧ dtype_default = { mem := none, size := 0, type := DTYPE_NONE }
    ∧ (dtype_set_int abi fl true dtype_default 5).bind (dtype_clear fl heap)
        = Run.pure dtype_default := by
  have h : ∀ y, dtype_clear fl heap y = Run.pure dtype_default := by
    intro y
    simp [dtype_clear, mem_refresh_zero, dtype_default]
  refine ⟨h x, rfl, ?_⟩
  rw [set_int_ok, Run.pure_bind, h]

/-! ## The getters -/

theorem void_read {α : Type} (chk : Run Unit) (o : Option (List Nat)) (f : List Nat → α) :
    (chk.bind fun _ => (checked o).bind fun bs => Run.pure (f bs)).void
      = chk.bind fun _ => if o.isSome then Run.pure () else undefined := by
  obtain ⟨l, r⟩ := chk
  cases r <;> cases o <;> simp [Run.void, Run.bind, checked, undefined, Run.pure]

theorem void_pointer {α : Type} (chk : Run Unit) (p : α) :
    (chk.bind fun _ => Run.pure p).void = chk.bind fun _ => Run.pure () := by
  obtain ⟨l, r⟩ := chk
  cases r <;> simp [Run.void, Run.bind, Run.pure]

/-- Every getter but the float getter is its type check against its own tag,
followed by its read. -/
theorem getter_call_shape (abi : Abi) (fl : Flags) (var : dtype) (g : Getter)
    (hg : g ≠ Getter.float) :
    g.call abi fl var
      = (mismatch_check fl var g.tag g.func).bind
          fun _ => if g.readable abi var then Run.pure () else undefined := by
  cases g with
  | float => exact absurd rfl hg
  | string =>
    simp only [Getter.call, dtype_get_string, bind_run, pure_run, Getter.tag, Getter.func,
      Getter.readable, void_pointer]
    simp
  | bool =>
    simp only [Getter.call, dtype_get_bool, bind_run, pure_run, Getter.tag, Getter.func,
      Getter.readable, Getter.width, void_read]
    simp
  | char =>
    simp only [Getter.call, dtype_get_char, bind_run, pure_run, Getter.tag, Getter.func,
      Getter.readable, Getter.width, void_read]
    simp
  | short =>
    simp only [Getter.call, dtype_get_short, bind_run, pure_run, Getter.tag, Getter.func,
      Getter.readable, Getter.width, void_read]
    simp
  | ushort =>
    simp only [Getter.call, dtype_get_ushort, bind_run, pure_run, Getter.tag, Getter.func,
      Getter.readable, Getter.width, void_read]
    simp
  | int =>
    simp only [Getter.call, dtype_get_int, bind_run, pure_run, Getter.tag, Getter.func,
      Getter.readable, Getter.width, void_read]
    simp
  | uint =>
    simp only [Getter.call, dtype_get_uint, bind_run, pure_run, Getter.tag, Getter.func,
      Getter.readable, Getter.width, void_read]
    simp
  | long =>
    simp only [Getter.call, dtype_get_long, bind_run, pure_run, Getter.tag, Getter.func,
      Getter.readable, Getter.width, void_read]
    simp
  | ulong =>
    simp only [Getter.call, dtype_get_ulong, bind_run, pure_run, Getter.tag, Getter.func,
      Getter.readable, Getter.width, void_read]
    simp
  | double =>
    simp only [Getter.call, dtype_get_double, bind_run, pure_run, Getter.tag, Getter.func,
      Getter.readable, Getter.width, void_read]
    simp

/-- The float getter is the type check against `DTYPE_BOOL`, followed by its
read. -/
theorem getter_call_float (abi : Abi) (fl : Flags) (var : dtype) :
    Getter.float.call abi fl var
      = (mismatch_check fl var DTYPE_BOOL "dtype_get_float").bind
          fun _ => if Getter.float.readable abi var then Run.pure () else undefined := by
  simp only [Getter.call, dtype_get_float, bind_run, pure_run,
    Getter.readable, Getter.width, void_read]
  simp

theorem Getter.tag_valid (g : Getter) : DTYPE_NONE ≤ g.tag ∧ g.tag ≤ DTYPE_CUSTOM := by
  cases g <;> decide

theorem check_then_read (chk : Run Unit) (b : Bool) :
    (chk.bind fun _ => if b then Run.pure () else undefined)
      = ⟨chk.log,
          match chk.res with
          | Res.ret _ => if b then Res.ret () else Res.undef
          | Res.exit c => Res.exit c
          | Res.undef => Res.undef⟩ := by
  obtain ⟨l, r⟩ := chk
  cases r <;> cases b <;> simp [Run.bind, undefined, Run.pure]

/-- C9: with warning reporting enabled, each getter other than the float getter,
called on a value whose tag is in the valid range, emits a type-mismatch warning
if and only if the tag of the value differs from the type `T` of the getter; the
warning then is the single one naming `T` as expected and the tag of the value
as found. -/
theorem mismatch_warning_iff (abi : Abi) (fl : Flags) (var : dtype) (g : Getter)
    (hw : fl.DTYPE_WARN_THROW = true) (hg : g ≠ Getter.float)
    (h0 : DTYPE_NONE ≤ var.type) (h1 : var.type ≤ DTYPE_CUSTOM) :
    ((∃ e ∈ (g.call abi fl var).log, e.isWarning = true) ↔ var.type ≠ g.tag)
    ∧ (var.type ≠ g.tag →
        (g.call abi fl var).log.filter Event.isWarning
          = [Event.warning (typeName g.tag) g.tag (typeName var.type) var.type]) := by
  rw [getter_call_shape abi fl var g hg, check_then_read,
    mismatch_check_valid fl var g.tag g.func h0 h1 g.tag_valid.1 g.tag_valid.2]
  by_cases he : var.type = g.tag
  · simp [hw, he]
  · by_cases hq : fl.DTYPE_WARN_EQ_ERROR = true ∧ fl.DTYPE_ERROR_THROW = true
    · simp [hw, he, hq, Event.isWarning]
    · simp [hw, he, hq, Event.isWarning]

/-- Witness of C9: `dtype_get_int` on the empty value (tag `DTYPE_NONE`) under the
initial switches. -/
theorem mismatch_warning_iff_get_int_default :
    ((∃ e ∈ (Getter.int.call lp64 Flags.initial dtype_default).log, e.isWarning = true)
        ↔ dtype_default.type ≠ Getter.int.tag)
    ∧ (dtype_default.type ≠ Getter.int.tag →
        (Getter.int.call lp64 Flags.initial dtype_default).log.filter Event.isWarning
          = [Event.warning (typeName Getter.int.tag) Getter.int.tag
              (typeName dtype_default.type) dtype_default.type]) :=
  mismatch_warning_iff lp64 Flags.initial dtype_default Getter.int rfl (by decide)
    (by decide) (by decide)

/-- C10 (counterexample): with warn-as-error, warning reporting and error
reporting enabled and exit-on-error disabled, `dtype_get_int` on the empty value
(valid tag `DTYPE_NONE`, different from `DTYPE_INT`) emits the warning and the
`DTYPE_WARN_ERROR` diagnostic and then does not return: it reads through the
`NULL` pointer of the value. -/
theorem get_int_default_does_not_return :
    dtype_get_int lp64
        { DTYPE_ERROR_THROW := true, DTYPE_WARN_THROW := true,
          DTYPE_WARN_EQ_ERROR := true, DTYPE_EXIT_ON_ERROR := false } dtype_default
      = ⟨[Event.warning "int" DTYPE_INT "none" DTYPE_NONE,
          Event.error DTYPE_WARN_ERROR "dtype_get_int" warn_error_msg],
         Res.undef⟩
    ∧ dtype_default.mem = none
    ∧ dtype_default.type = DTYPE_NONE
    ∧ DTYPE_NONE ≠ DTYPE_INT := by
  decide

/-- C10 (amended): with warn-as-error, warning reporting and error reporting
enabled and exit-on-error disabled, each getter other than the float getter,
called on a value whose valid tag differs from its type `T`, writes exactly the
mismatch warning followed by one `DTYPE_WARN_ERROR` diagnostic naming the getter
as origin, and does not end the process; it then makes its unguarded read, so it
returns exactly when the buffer of the value holds at least `sizeof(T)` bytes
(always for the string getter) and otherwise runs into undefined behaviour. -/
theorem warn_as_error_escalation (abi : Abi) (fl : Flags) (var : dtype) (g : Getter)
    (hq : fl.DTYPE_WARN_EQ_ERROR = true) (hw : fl.DTYPE_WARN_THROW = true)
    (he : fl.DTYPE_ERROR_THROW = true) (hx : fl.DTYPE_EXIT_ON_ERROR = false)
    (hg : g ≠ Getter.float)
    (h0 : DTYPE_NONE ≤ var.type) (h1 : var.type ≤ DTYPE_CUSTOM) (hne : var.type ≠ g.tag) :
    (g.call abi fl var).log
        = [Event.warning (typeName g.tag) g.tag (typeName var.type) var.type,
           Event.error DTYPE_WARN_ERROR g.func warn_error_msg]
    ∧ (g.call abi fl var).res = (if g.readable abi var then Res.ret () else Res.undef)
    ∧ (Getter.string.readable abi var = true) := by
  rw [getter_call_shape abi fl var g hg, check_then_read,
    mismatch_check_valid fl var g.tag g.func h0 h1 g.tag_valid.1 g.tag_valid.2]
  simp [hq, hw, he, hx, hne, Getter.readable]

/-- Witness of C10 (amended): `dtype_get_int` on a value tagged `DTYPE_UINT` that
holds four bytes. -/
theorem warn_as_error_escalation_get_int_uint :
    (Getter.int.call lp64
        { DTYPE_ERROR_THROW := true, DTYPE_WARN_THROW := true,
          DTYPE_WARN_EQ_ERROR := true, DTYPE_EXIT_ON_ERROR := false }
        { mem := some [65, 0, 0, 0], size := 4, type := DTYPE_UINT }).log
        = [Event.warning (typeName Getter.int.tag) Getter.int.tag (typeName DTYPE_UINT)
             DTYPE_UINT,
           Event.error DTYPE_WARN_ERROR Getter.int.func warn_error_msg]
    ∧ (Getter.int.call lp64
        { DTYPE_ERROR_THROW := true, DTYPE_WARN_THROW := true,
          DTYPE_WARN_EQ_ERROR := true, DTYPE_EXIT_ON_ERROR := false }
        { mem := some [65, 0, 0, 0], size := 4, type := DTYPE_UINT }).res
        = (if Getter.int.readable lp64 { mem := some [65, 0, 0, 0], size := 4, type := DTYPE_UINT }
            then Res.ret () else Res.undef)
    ∧ (Getter.string.readable lp64 { mem := some [65, 0, 0, 0], size := 4, type := DTYPE_UINT } = true) :=
  warn_as_error_escalation lp64 _ { mem := some [65, 0, 0, 0], size := 4, type := DTYPE_UINT }
    Getter.int rfl rfl rfl rfl (by decide) (by decide) (by decide) (by decide)

/-! ## The length/buffer invariant apart from `dtype_change_size` -/

theorem setter_shape_invariant (fl : Flags) (heap : Bool) (x : dtype) (n : Nat)
    (func : String) (src : List Nat) (tag : Int) (y : dtype)
    (h : ((dtype__mem_refresh fl heap x n func).bind fun var =>
            (copy_if_sized var src n).bind fun var =>
              Run.pure { var with type := tag }).res = Res.ret y) :
    LengthInvariant y := by
  rcases Nat.eq_zero_or_pos n with h0 | hpos
  · subst h0
    rw [mem_refresh_zero] at h
    simp only [Run.pure_bind, copy_empty, Run.pure_res] at h
    cases h
    simp [LengthInvariant]
  · cases heap
    · rw [setter_fail fl x n n func tag src hpos] at h
      unfold allocFailure at h
      split at h
      · cases h
      · cases h
        simp [LengthInvariant]
    · rw [mem_refresh_ok fl x n func hpos] at h
      simp only [Run.pure_bind] at h
      by_cases hle : n ≤ src.length
      · rw [copy_fresh n _ src hpos hle] at h
        simp only [Run.pure_bind, Run.pure_res] at h
        cases h
        have hn : n ≠ 0 := Nat.pos_iff_ne_zero.mp hpos
        simp [LengthInvariant, hn, hle]
      · have hn : n ≠ 0 := Nat.pos_iff_ne_zero.mp hpos
        simp [copy_if_sized, memcpy, hn, hle, undefined, Run.bind] at h

theorem set_custom_invariant (fl : Flags) (heap : Bool) (x : dtype) (src : Source)
    (size : Nat) (y : dtype) (h : (dtype_set_custom fl heap x src size).res = Res.ret y) :
    LengthInvariant y := by
  rw [set_custom_shape] at h
  obtain ⟨bytes, h⟩ := source_shape_ret _ src size _ y h
  obtain ⟨a, ha, h1⟩ := bind_res_ret _ _ _ h
  obtain ⟨b, hb, h2⟩ := bind_res_ret _ _ _ h1
  cases h2
  have h3 : ((dtype__mem_refresh fl heap x size "dtype_set_custom").bind fun var =>
      (copy_if_sized var bytes size).bind fun var =>
        Run.pure { var with type := DTYPE_NONE }).res
      = Res.ret { y with type := DTYPE_NONE } := by
    rw [Run.bind_of_ret _ _ a ha]
    simp only [Run.bind_of_ret _ _ y hb]
    rfl
  have h4 := setter_shape_invariant fl heap x size _ bytes _ _ h3
  exact h4

/-- Every public operation other than `dtype_change_size` returns a value that
satisfies the length/buffer invariant, whatever value it was called on; so does
`dtype_default()`. -/
theorem ops_keep_invariant (abi : Abi) (fl : Flags) (x y : dtype) (op : Op)
    (hop : op.isChangeSize = false) (h : (op.call abi fl x).res = Res.ret y) :
    LengthInvariant y ∧ LengthInvariant dtype_default := by
  refine ⟨?_, by simp [LengthInvariant, dtype_default]⟩
  cases op with
  | change_size size outcome => simp [Op.isChangeSize] at hop
  | set_bool val heap => exact setter_shape_invariant fl heap x _ _ _ _ y h
  | set_char val heap => exact setter_shape_invariant fl heap x _ _ _ _ y h
  | set_short val heap => exact setter_shape_invariant fl heap x _ _ _ _ y h
  | set_ushort val heap => exact setter_shape_invariant fl heap x _ _ _ _ y h
  | set_int val heap => exact setter_shape_invariant fl heap x _ _ _ _ y h
  | set_uint val heap => exact setter_shape_invariant fl heap x _ _ _ _ y h
  | set_long val heap => exact setter_shape_invariant fl heap x _ _ _ _ y h
  | set_ulong val heap => exact setter_shape_invariant fl heap x _ _ _ _ y h
  | set_float val heap => exact setter_shape_invariant fl heap x _ _ _ _ y h
  | set_double val heap => exact setter_shape_invariant fl heap x _ _ _ _ y h
  | set_string val heap =>
    simp only [Op.call] at h
    rw [set_string_shape] at h
    obtain ⟨len, _, h1⟩ := bind_res_ret _ _ _ h
    obtain ⟨bytes, h2⟩ := source_shape_ret _ val (len + 1) _ y h1
    exact setter_shape_invariant fl heap x _ _ _ _ y h2
  | set_custom src size heap => exact set_custom_invariant fl heap x src size y h
  | clear heap =>
    simp only [Op.call, dtype_clear, bind_run, pure_run, mem_refresh_zero, Run.pure_bind,
      Run.pure_res] at h
    cases h
    simp [LengthInvariant]

/-! ## Raising errors -/

theorem raise_eval (fl : Flags) (func msg : String) (errcode : Int) :
    dtype__raise fl func msg errcode =
      if fl.DTYPE_ERROR_THROW = true ∧ DTYPE_NO_ERROR < errcode ∧ errcode ≤ DTYPE_UNKNOWN_ERROR
      then ⟨[Event.error errcode func msg],
            if fl.DTYPE_EXIT_ON_ERROR then Res.exit errcode else Res.ret true⟩
      else Run.pure false := by
  unfold dtype__raise
  by_cases h : fl.DTYPE_ERROR_THROW = true ∧ DTYPE_NO_ERROR < errcode
      ∧ errcode ≤ DTYPE_UNKNOWN_ERROR
  · rw [if_pos h]
    obtain ⟨h1, h2, h3⟩ := h
    have hc : (fl.DTYPE_ERROR_THROW
        && (decide (errcode > DTYPE_NO_ERROR) && decide (errcode ≤ DTYPE_UNKNOWN_ERROR)))
        = true := by simp [h1, h2, h3]
    rw [if_pos hc]
    cases hx : fl.DTYPE_EXIT_ON_ERROR <;> rfl
  · rw [if_neg h]
    have hc : ¬ ((fl.DTYPE_ERROR_THROW
        && (decide (errcode > DTYPE_NO_ERROR) && decide (errcode ≤ DTYPE_UNKNOWN_ERROR)))
        = true) := by
      intro hc
      apply h
      simpa using hc
    rw [if_neg hc]
    rfl

/-- C11: with exit-on-error disabled, for every origin, message and error code
(any integer), `dtype__raise` writes nothing and returns false when error
reporting is disabled or the code is `DTYPE_NO_ERROR` or lies outside
`DTYPE_MEMORY_ERROR .. DTYPE_UNKNOWN_ERROR`, and otherwise writes exactly the
diagnostic block (code, origin, message) and returns true. -/
theorem raise_reports_valid_kinds (fl : Flags) (func msg : String) (errcode : Int)
    (hx : fl.DTYPE_EXIT_ON_ERROR = false) :
    ((fl.DTYPE_ERROR_THROW = false ∨ errcode = DTYPE_NO_ERROR
        ∨ errcode < DTYPE_MEMORY_ERROR ∨ DTYPE_UNKNOWN_ERROR < errcode) →
      dtype__raise fl func msg errcode = ⟨[], Res.ret false⟩)
    ∧ (¬ (fl.DTYPE_ERROR_THROW = false ∨ errcode = DTYPE_NO_ERROR
        ∨ errcode < DTYPE_MEMORY_ERROR ∨ DTYPE_UNKNOWN_ERROR < errcode) →
      dtype__raise fl func msg errcode = ⟨[Event.error errcode func msg], Res.ret true⟩) := by
  rw [raise_eval]
  simp only [DTYPE_NO_ERROR, DTYPE_MEMORY_ERROR, DTYPE_UNKNOWN_ERROR]
  constructor
  · intro h
    rw [if_neg]
    · rfl
    · rintro ⟨h1, h2, h3⟩
      rcases h with h | h | h | h
      · rw [h1] at h
        cases h
      · omega
      · omega
      · omega
  · intro h
    rw [if_pos, hx]
    · rfl
    · refine ⟨?_, ?_, ?_⟩
      · cases he : fl.DTYPE_ERROR_THROW
        · exact absurd (Or.inl he) h
        · rfl
      · by_contra hc
        apply h
        have : errcode = 0 ∨ errcode < 1 := by omega
        rcases this with h0 | h0
        · exact Or.inr (Or.inl h0)
        · exact Or.inr (Or.inr (Or.inl h0))
      · by_contra hc
        exact h (Or.inr (Or.inr (Or.inr (by omega))))

/-- Witness of C11: the memory error reported by a setter, and a code outside
the enumeration, under the initial switches. -/
theorem raise_reports_valid_kinds_initial :
    (dtype__raise Flags.initial "dtype_set_int" "Couldn't allocate memory for size"
        DTYPE_MEMORY_ERROR
      = ⟨[Event.error DTYPE_MEMORY_ERROR "dtype_set_int" "Couldn't allocate memory for size"],
          Res.ret true⟩)
    ∧ dtype__raise Flags.initial "f" "m" 5 = ⟨[], Res.ret false⟩ :=
  ⟨(raise_reports_valid_kinds Flags.initial "dtype_set_int"
      "Couldn't allocate memory for size" DTYPE_MEMORY_ERROR rfl).2 (by decide),
   (raise_reports_valid_kinds Flags.initial "f" "m" 5 rfl).1 (by decide)⟩

/-! ## Ending the process -/

theorem noExit_pure {α : Type} (a : α) : NoExit (Run.pure a) := by
  intro c h
  cases h

theorem noExit_undefined {α : Type} : NoExit (undefined : Run α) := by
  intro c h
  cases h

theorem noExit_emit (e : Event) : NoExit (emit e) := by
  intro c h
  cases h

theorem noExit_checked {α : Type} (o : Option α) : NoExit (checked o) := by
  cases o
  · exact noExit_undefined
  · exact noExit_pure _

theorem noExit_bind {α β : Type} (r : Run α) (k : α → Run β) (hr : NoExit r)
    (hk : ∀ a, NoExit (k a)) : NoExit (r.bind k) := by
  intro c h
  obtain ⟨l, res⟩ := r
  cases res with
  | ret a => exact hk a c h
  | exit d => exact hr d rfl
  | undef => cases h

theorem noExit_void {α : Type} (r : Run α) (hr : NoExit r) : NoExit r.void :=
  noExit_bind r _ hr fun _ => noExit_pure _

theorem noExit_printf (text : String) : NoExit (printf text) :=
  noExit_bind _ _ (noExit_emit _) fun _ => noExit_pure _

theorem noExit_raise (fl : Flags) (func msg : String) (errcode : Int)
    (hx : fl.DTYPE_EXIT_ON_ERROR = false) : NoExit (dtype__raise fl func msg errcode) := by
  rw [raise_eval, hx]
  split
  · intro c h
    cases h
  · exact noExit_pure _

theorem noExit_mem_error (fl : Flags) (size : Nat) (func : String)
    (hx : fl.DTYPE_EXIT_ON_ERROR = false) : NoExit (dtype__mem_error fl size func) := by
  unfold dtype__mem_error
  simp only [bind_run, pure_run]
  repeat' (first
    | exact noExit_pure _
    | exact noExit_undefined
    | exact noExit_emit _
    | exact noExit_checked _
    | exact noExit_raise fl _ _ _ hx
    | refine noExit_bind _ _ ?_ (fun _ => ?_)
    | split)

theorem noExit_typecheck (fl : Flags) (var : dtype) (type : Int)
    (hx : fl.DTYPE_EXIT_ON_ERROR = false) : NoExit (dtype__typecheck fl var type) := by
  unfold dtype__typecheck
  simp only [bind_run, pure_run]
  repeat' (first
    | exact noExit_pure _
    | exact noExit_undefined
    | exact noExit_emit _
    | exact noExit_checked _
    | exact noExit_raise fl _ _ _ hx
    | refine noExit_bind _ _ ?_ (fun _ => ?_)
    | split)

theorem noExit_mem_refresh (fl : Flags) (heap : Bool) (var : dtype) (size : Nat)
    (func : String) (hx : fl.DTYPE_EXIT_ON_ERROR = false) :
    NoExit (dtype__mem_refresh fl heap var size func) := by
  unfold dtype__mem_refresh
  simp only [bind_run, pure_run]
  repeat' (first
    | exact noExit_pure _
    | exact noExit_mem_error fl _ _ hx
    | refine noExit_bind _ _ ?_ (fun _ => ?_)
    | split)

theorem noExit_copy (var : dtype) (src : List Nat) (n : Nat) :
    NoExit (copy_if_sized var src n) := by
  unfold copy_if_sized
  split
  · split
    · exact noExit_pure _
    · exact noExit_undefined
  · exact noExit_pure _

theorem noExit_setter (fl : Flags) (heap : Bool) (x : dtype) (n m : Nat) (func : String)
    (src : List Nat) (f : dtype → dtype) (hx : fl.DTYPE_EXIT_ON_ERROR = false) :
    NoExit ((dtype__mem_refresh fl heap x n func).bind fun var =>
      (copy_if_sized var src m).bind fun var => Run.pure (f var)) :=
  noExit_bind _ _ (noExit_mem_refresh fl heap x n func hx) fun _ =>
    noExit_bind _ _ (noExit_copy _ _ _) fun _ => noExit_pure _

theorem noExit_copy_source (var : dtype) (val : Source) (n : Nat) :
    NoExit (copy_source_if_sized var val n) := by
  rcases copy_source_cases var val n with h | ⟨src, h⟩
  · rw [h]
    exact noExit_undefined
  · rw [h]
    exact noExit_copy var src n

theorem noExit_source_setter (fl : Flags) (heap : Bool) (x : dtype) (n m : Nat)
    (func : String) (val : Source) (f : dtype → dtype)
    (hx : fl.DTYPE_EXIT_ON_ERROR = false) :
    NoExit ((dtype__mem_refresh fl heap x n func).bind fun var =>
      (copy_source_if_sized var val m).bind fun var => Run.pure (f var)) :=
  noExit_bind _ _ (noExit_mem_refresh fl heap x n func hx) fun _ =>
    noExit_bind _ _ (noExit_copy_source _ _ _) fun _ => noExit_pure _

theorem noExit_op (abi : Abi) (fl : Flags) (x : dtype) (op : Op)
    (hx : fl.DTYPE_EXIT_ON_ERROR = false) : NoExit (op.call abi fl x) := by
  cases op with
  | change_size size outcome => exact noExit_pure _
  | set_bool val heap => exact noExit_setter fl heap x _ _ _ _ _ hx
  | set_char val heap => exact noExit_setter fl heap x _ _ _ _ _ hx
  | set_short val heap => exact noExit_setter fl heap x _ _ _ _ _ hx
  | set_ushort val heap => exact noExit_setter fl heap x _ _ _ _ _ hx
  | set_int val heap => exact noExit_setter fl heap x _ _ _ _ _ hx
  | set_uint val heap => exact noExit_setter fl heap x _ _ _ _ _ hx
  | set_long val heap => exact noExit_setter fl heap x _ _ _ _ _ hx
  | set_ulong val heap => exact noExit_setter fl heap x _ _ _ _ _ hx
  | set_float val heap => exact noExit_setter fl heap x _ _ _ _ _ hx
  | set_double val heap => exact noExit_setter fl heap x _ _ _ _ _ hx
  | set_string val heap =>
    show NoExit (dtype_set_string fl heap x val)
    rw [set_string_shape]
    exact noExit_bind _ _ (noExit_checked _) fun _ =>
      noExit_source_setter fl heap x _ _ _ _ _ hx
  | set_custom src size heap => exact noExit_source_setter fl heap x _ _ _ _ (fun v => v) hx
  | clear heap =>
    exact noExit_bind _ _ (noExit_mem_refresh fl heap x 0 _ hx) fun _ => noExit_pure _

theorem noExit_mismatch_check (fl : Flags) (var : dtype) (type : Int) (func : String)
    (hx : fl.DTYPE_EXIT_ON_ERROR = false) : NoExit (mismatch_check fl var type func) := by
  unfold mismatch_check
  simp only [bind_run, pure_run]
  repeat' (first
    | exact noExit_pure _
    | exact noExit_typecheck fl _ _ hx
    | exact noExit_raise fl _ _ _ hx
    | refine noExit_bind _ _ ?_ (fun _ => ?_)
    | split)

theorem noExit_read {α : Type} (fl : Flags) (var : dtype) (type : Int) (func : String)
    (o : Option (List Nat)) (f : List Nat → α) (hx : fl.DTYPE_EXIT_ON_ERROR = false) :
    NoExit ((mismatch_check fl var type func).bind fun _ =>
      (checked o).bind fun bs => Run.pure (f bs)) :=
  noExit_bind _ _ (noExit_mismatch_check fl var type func hx) fun _ =>
    noExit_bind _ _ (noExit_checked _) fun _ => noExit_pure _

theorem noExit_ite {α : Type} (c : Prop) [Decidable c] (a b : Run α) (ha : NoExit a)
    (hb : NoExit b) : NoExit (if c then a else b) := by
  by_cases h : c
  · rw [if_pos h]
    exact ha
  · rw [if_neg h]
    exact hb

theorem noExit_getter (abi : Abi) (fl : Flags) (var : dtype) (g : Getter)
    (hx : fl.DTYPE_EXIT_ON_ERROR = false) : NoExit (g.call abi fl var) := by
  cases g with
  | string =>
    exact noExit_void _
      (noExit_bind _ _ (noExit_mismatch_check fl var _ _ hx) fun _ => noExit_pure _)
  | bool => exact noExit_void _ (noExit_read fl var _ _ _ _ hx)
  | char => exact noExit_void _ (noExit_read fl var _ _ _ _ hx)
  | short => exact noExit_void _ (noExit_read fl var _ _ _ _ hx)
  | ushort => exact noExit_void _ (noExit_read fl var _ _ _ _ hx)
  | int => exact noExit_void _ (noExit_read fl var _ _ _ _ hx)
  | uint => exact noExit_void _ (noExit_read fl var _ _ _ _ hx)
  | long => exact noExit_void _ (noExit_read fl var _ _ _ _ hx)
  | ulong => exact noExit_void _ (noExit_read fl var _ _ _ _ hx)
  | float => exact noExit_void _ (noExit_read fl var _ _ _ _ hx)
  | double => exact noExit_void _ (noExit_read fl var _ _ _ _ hx)

theorem noExit_print (abi : Abi) (ff : FloatFormat) (fl : Flags) (var : dtype)
    (hx : fl.DTYPE_EXIT_ON_ERROR = false) : NoExit (dtype_print abi ff fl var) := by
  unfold dtype_print
  simp only [bind_run, pure_run]
  repeat' (first
    | exact noExit_pure _
    | exact noExit_printf _
    | exact noExit_checked _
    | exact noExit_raise fl _ _ _ hx
    | exact noExit_read fl var _ _ _ _ hx
    | exact noExit_bind _ _ (noExit_mismatch_check fl var _ _ hx) fun _ => noExit_pure _
    | refine noExit_bind _ _ ?_ (fun _ => ?_)
    | refine noExit_ite _ _ _ ?_ ?_)

theorem noExit_debug_print (abi : Abi) (ff : FloatFormat) (fl : Flags) (var : dtype)
    (hx : fl.DTYPE_EXIT_ON_ERROR = false) : NoExit (dtype_debug_print abi ff fl var) := by
  unfold dtype_debug_print
  simp only [bind_run, pure_run]
  repeat' (first
    | exact noExit_pure _
    | exact noExit_printf _
    | exact noExit_checked _
    | exact noExit_raise fl _ _ _ hx
    | exact noExit_print abi ff fl var hx
    | refine noExit_bind _ _ ?_ (fun _ => ?_)
    | refine noExit_ite _ _ _ ?_ ?_)

/-! ## Resizing -/

/-- C13: for every value `x` and every new size `n > 0`, when `realloc` succeeds
the buffer of `dtype_change_size(x, n)` has `n` bytes, its first
`min(old, n)` bytes are those of the buffer of `x` (`old` being the number of
bytes of that buffer, 0 for `NULL`), whatever the content of the new bytes, and
the tag is unchanged. -/
theorem change_size_preserves (x : dtype) (n : Nat) (fresh : List Nat) (_hn : 0 < n) :
    ∃ bs, (dtype_change_size x n (some fresh)).mem = some bs
      ∧ bs.length = n
      ∧ bs.take (min (x.mem.getD []).length n)
          = (x.mem.getD []).take (min (x.mem.getD []).length n)
      ∧ (∀ i, i < min (x.mem.getD []).length n → bs[i]? = (x.mem.getD [])[i]?)
      ∧ (dtype_change_size x n (some fresh)).type = x.type := by
  have htake : ((x.mem.getD [] ++ fresh ++ List.replicate n 0).take n).take
        (min (x.mem.getD []).length n)
      = (x.mem.getD []).take (min (x.mem.getD []).length n) := by
    rw [List.take_take, List.append_assoc]
    have hm : min (min (x.mem.getD []).length n) n = min (x.mem.getD []).length n := by
      omega
    rw [hm, List.take_append_of_le_length (by omega)]
  have hmem : (dtype_change_size x n (some fresh)).mem
      = some ((x.mem.getD [] ++ fresh ++ List.replicate n 0).take n) := rfl
  refine ⟨_, hmem, ?_, htake, ?_, rfl⟩
  · simp only [List.length_take, List.length_append, List.length_replicate]
    omega
  · intro i hi
    rw [List.getElem?_take, if_pos (by omega), List.append_assoc,
      List.getElem?_append_left (by omega)]

/-- Witness of C13: the int 5 is set, the value is resized from 4 to 8 bytes, and
the first 4 bytes still hold the int. -/
theorem change_size_preserves_int :
    ∃ bs, (dtype_change_size { mem := some [5, 0, 0, 0], size := 4, type := DTYPE_INT } 8
              (some [170, 170, 170, 170])).mem = some bs
      ∧ bs.length = 8
      ∧ bs.take (min ((some [5, 0, 0, 0] : Option (List Nat)).getD []).length 8)
          = ((some [5, 0, 0, 0] : Option (List Nat)).getD []).take
              (min ((some [5, 0, 0, 0] : Option (List Nat)).getD []).length 8)
      ∧ (∀ i, i < min ((some [5, 0, 0, 0] : Option (List Nat)).getD []).length 8 →
          bs[i]? = ((some [5, 0, 0, 0] : Option (List Nat)).getD [])[i]?)
      ∧ (dtype_change_size { mem := some [5, 0, 0, 0], size := 4, type := DTYPE_INT } 8
              (some [170, 170, 170, 170])).type = DTYPE_INT :=
  change_size_preserves { mem := some [5, 0, 0, 0], size := 4, type := DTYPE_INT } 8
    [170, 170, 170, 170] (by decide)

/-! ## Printing -/

theorem print_none (abi : Abi) (ff : FloatFormat) (fl : Flags) (m : Option (List Nat))
    (sz : Nat) :
    dtype_print abi ff fl { mem := m, size := sz, type := DTYPE_NONE }
      = ⟨[Event.out "none"], Res.ret 4⟩ := by
  unfold dtype_print
  rw [if_pos rfl]
  rfl

theorem raise_type_error_value (fl : Flags) (func msg : String) :
    ((dtype__raise fl func msg DTYPE_TYPE_ERROR).bind fun r => Run.pure (boolToInt r))
      = if fl.DTYPE_ERROR_THROW then
          ⟨[Event.error DTYPE_TYPE_ERROR func msg],
            if fl.DTYPE_EXIT_ON_ERROR then Res.exit DTYPE_TYPE_ERROR else Res.ret 1⟩
        else ⟨[], Res.ret 0⟩ := by
  cases fl with
  | mk e w q x => cases e <;> cases x <;> rfl

/-- C14: on the empty value `dtype_default()`, which is also the value every
`dtype_clear` returns, `dtype_debug_print` writes to standard output the block
with typecode 0, type name `none`, size 0 and content `none`, writes no
diagnostic, and returns 4, under every setting of the switches; on a value whose
tag lies outside `DTYPE_NONE .. DTYPE_CUSTOM` it writes nothing to standard
output and its result is that of raising `DTYPE_TYPE_ERROR` from
`dtype_debug_print` (1 if the error was displayed, 0 if not, and no return when
the raise ends the process). -/
theorem debug_print_empty_and_corrupt (abi : Abi) (ff : FloatFormat) (fl : Flags)
    (heap : Bool) (x var : dtype) (hvar : var.type < DTYPE_NONE ∨ var.type > DTYPE_CUSTOM) :
    dtype_debug_print abi ff fl dtype_default
        = ⟨[Event.out "\n\x7b typecode = 0, type = `none`, size = `0`, content = `",
            Event.out "none", Event.out "` \x7d\n"], Res.ret 4⟩
    ∧ (dtype_clear fl heap x).bind (dtype_debug_print abi ff fl)
        = dtype_debug_print abi ff fl dtype_default
    ∧ dtype_debug_print abi ff fl var
        = ((dtype__raise fl "dtype_debug_print" "Invalid type to print." DTYPE_TYPE_ERROR).bind
            fun r => Run.pure (boolToInt r))
    ∧ (∀ e ∈ (dtype_debug_print abi ff fl var).log, e.isOut = false) := by
  have hclear : dtype_clear fl heap x = Run.pure dtype_default := by
    simp [dtype_clear, mem_refresh_zero, dtype_default]
  have hcorrupt : dtype_debug_print abi ff fl var
        = ((dtype__raise fl "dtype_debug_print" "Invalid type to print." DTYPE_TYPE_ERROR).bind
            fun r => Run.pure (boolToInt r)) := by
    unfold dtype_debug_print
    rw [if_pos hvar]
    rfl
  refine ⟨?_, ?_, hcorrupt, ?_⟩
  · unfold dtype_debug_print
    rw [if_neg (by decide)]
    simp only [bind_run, pure_run, dtype_default, print_none]
    rfl
  · rw [hclear, Run.pure_bind]
  · rw [hcorrupt, raise_type_error_value]
    intro e he
    cases hE : fl.DTYPE_ERROR_THROW
    · simp [hE] at he
    · simp [hE] at he
      subst he
      rfl

/-- Witness of C14: a value with the tag 13, one past `DTYPE_CUSTOM`, under the
initial switches: the error is displayed and 1 is returned. -/
theorem debug_print_corrupt_initial :
    dtype_debug_print lp64 FloatFormat.unused Flags.initial
        { mem := none, size := 0, type := 13 }
      = ⟨[Event.error DTYPE_TYPE_ERROR "dtype_debug_print" "Invalid type to print."],
          Res.ret 1⟩ :=
  ((debug_print_empty_and_corrupt lp64 FloatFormat.unused Flags.initial true dtype_default
      { mem := none, size := 0, type := 13 } (by decide)).2.2.1).trans (by decide)

theorem bytesToString_length (bs : List Nat) : (bytesToString bs).length = bs.length := by
  simp [bytesToString, String.length]

theorem objval_single (abi : Abi) (b : Nat) : objval abi [b] = b := by
  unfold objval
  split <;> simp [leValue]

theorem print_bool (abi : Abi) (ff : FloatFormat) (fl : Flags) (bs : List Nat) (sz : Nat)
    (hbs : abi.sizeof_bool ≤ bs.length) :
    dtype_print abi ff fl { mem := some bs, size := sz, type := DTYPE_BOOL }
      = if objval abi (bs.take abi.sizeof_bool) ≠ 0 then ⟨[Event.out "true"], Res.ret 4⟩
        else ⟨[Event.out "false"], Res.ret 5⟩ := by
  unfold dtype_print
  dsimp only
  rw [if_neg (by decide), if_pos rfl]
  unfold dtype_get_bool
  simp only [bind_run, pure_run]
  rw [mismatch_check_tag _ _ _ _ _ (by decide) (by decide), Run.pure_bind]
  simp only [deref, hbs, if_true, checked_some, Run.pure_bind]
  by_cases h : objval abi (bs.take abi.sizeof_bool) = 0
  · simp [h]
    rfl
  · simp [h]
    rfl

theorem print_string (abi : Abi) (ff : FloatFormat) (fl : Flags) (s rest : List Nat)
    (sz : Nat) (hs : ∀ b ∈ s, b ≠ 0) :
    dtype_print abi ff fl { mem := some (s ++ 0 :: rest), size := sz, type := DTYPE_STRING }
      = ⟨[Event.out (bytesToString s)], Res.ret (s.length : Int)⟩ := by
  unfold dtype_print
  dsimp only
  rw [if_neg (by decide), if_neg (by decide), if_neg (by decide), if_neg (by decide),
    if_neg (by decide), if_neg (by decide), if_neg (by decide), if_neg (by decide),
    if_neg (by decide), if_neg (by decide), if_neg (by decide), if_pos rfl]
  unfold dtype_get_string
  simp only [bind_run, pure_run]
  rw [mismatch_check_tag _ _ _ _ _ (by decide) (by decide)]
  simp only [Run.pure_bind, checked_some, cstring_terminated s rest hs]
  simp [printf, emit, Run.bind, Run.pure, bytesToString_length]

theorem print_custom (abi : Abi) (ff : FloatFormat) (fl : Flags) (m : Option (List Nat))
    (sz : Nat) :
    dtype_print abi ff fl { mem := m, size := sz, type := DTYPE_CUSTOM }
      = ⟨[Event.out "dtype_custom_variable"], Res.ret 21⟩ := by
  unfold dtype_print
  dsimp only
  rw [if_neg (by decide), if_neg (by decide), if_neg (by decide), if_neg (by decide),
    if_neg (by decide), if_neg (by decide), if_neg (by decide), if_neg (by decide),
    if_neg (by decide), if_neg (by decide), if_neg (by decide), if_neg (by decide),
    if_pos rfl]
  rfl

theorem print_corrupt (abi : Abi) (ff : FloatFormat) (fl : Flags) (var : dtype)
    (hvar : var.type < DTYPE_NONE ∨ var.type > DTYPE_CUSTOM) :
    dtype_print abi ff fl var
      = ((dtype__raise fl "dtype_print" "Invalid type to print." DTYPE_TYPE_ERROR).bind
          fun r => Run.pure (boolToInt r)) := by
  have h : ∀ t : Int, DTYPE_NONE ≤ t → t ≤ DTYPE_CUSTOM → var.type ≠ t := by
    intro t h0 h1 he
    rw [he] at hvar
    omega
  unfold dtype_print
  rw [if_neg (h _ (by decide) (by decide)), if_neg (h _ (by decide) (by decide)),
    if_neg (h _ (by decide) (by decide)), if_neg (h _ (by decide) (by decide)),
    if_neg (h _ (by decide) (by decide)), if_neg (h _ (by decide) (by decide)),
    if_neg (h _ (by decide) (by decide)), if_neg (h _ (by decide) (by decide)),
    if_neg (h _ (by decide) (by decide)), if_neg (h _ (by decide) (by decide)),
    if_neg (h _ (by decide) (by decide)), if_neg (h _ (by decide) (by decide)),
    if_neg (h _ (by decide) (by decide))]
  rfl

/-- C15 (counterexample): with the four switches set, `dtype_print` on a value
with the tag 13 displays the `DTYPE_TYPE_ERROR` diagnostic and then does not
return 1: the raise ends the process with status 3. -/
theorem print_corrupt_exits :
    dtype_print lp64 FloatFormat.unused Flags.allOn { mem := none, size := 0, type := 13 }
      = ⟨[Event.error DTYPE_TYPE_ERROR "dtype_print" "Invalid type to print."],
          Res.exit DTYPE_TYPE_ERROR⟩
    ∧ DTYPE_CUSTOM < 13 := by
  decide

/-- C15 (amended): `dtype_print` dispatches on the tag and returns the number of
characters written. For a value tagged `DTYPE_NONE` it writes `none` and returns
4; for one tagged `DTYPE_BOOL` whose buffer holds at least `sizeof(bool)` bytes
it writes `true` (returns 4) if the stored bool is non-zero and `false`
(returns 5) otherwise, the stored bool being the first byte when
`sizeof(bool)` is 1; for one tagged `DTYPE_STRING` whose buffer holds a
terminated string it writes that text and returns its length; for one tagged
`DTYPE_CUSTOM` it writes `dtype_custom_variable` and returns 21. For a tag
outside `DTYPE_NONE .. DTYPE_CUSTOM` it writes nothing to standard output and
raises `DTYPE_TYPE_ERROR`: it returns 0 if error reporting is disabled, returns 1
after the report if error reporting is enabled and exit-on-error is disabled,
and ends the process with status `DTYPE_TYPE_ERROR` after the report if both are
enabled. -/
theorem print_dispatch (abi : Abi) (ff : FloatFormat) (fl : Flags) (m : Option (List Nat))
    (sz : Nat) (bs s rest : List Nat) (var : dtype)
    (hbs : abi.sizeof_bool ≤ bs.length) (hs : ∀ b ∈ s, b ≠ 0)
    (hvar : var.type < DTYPE_NONE ∨ var.type > DTYPE_CUSTOM) :
    dtype_print abi ff fl { mem := m, size := sz, type := DTYPE_NONE }
        = ⟨[Event.out "none"], Res.ret 4⟩
    ∧ dtype_print abi ff fl { mem := some bs, size := sz, type := DTYPE_BOOL }
        = (if objval abi (bs.take abi.sizeof_bool) ≠ 0 then ⟨[Event.out "true"], Res.ret 4⟩
           else ⟨[Event.out "false"], Res.ret 5⟩)
    ∧ (abi.sizeof_bool = 1 → ∀ b tl, bs = b :: tl → objval abi (bs.take abi.sizeof_bool) = b)
    ∧ dtype_print abi ff fl { mem := some (s ++ 0 :: rest), size := sz, type := DTYPE_STRING }
        = ⟨[Event.out (bytesToString s)], Res.ret (s.length : Int)⟩
    ∧ (bytesToString s).length = s.length
    ∧ dtype_print abi ff fl { mem := m, size := sz, type := DTYPE_CUSTOM }
        = ⟨[Event.out "dtype_custom_variable"], Res.ret 21⟩
    ∧ dtype_print abi ff fl var
        = (if fl.DTYPE_ERROR_THROW then
            ⟨[Event.error DTYPE_TYPE_ERROR "dtype_print" "Invalid type to print."],
              if fl.DTYPE_EXIT_ON_ERROR then Res.exit DTYPE_TYPE_ERROR else Res.ret 1⟩
           else ⟨[], Res.ret 0⟩) := by
  refine ⟨print_none abi ff fl m sz, print_bool abi ff fl bs sz hbs, ?_,
    print_string abi ff fl s rest sz hs, bytesToString_length s,
    print_custom abi ff fl m sz, ?_⟩
  · intro h1 b tl hb
    subst hb
    rw [h1]
    exact objval_single abi b
  · rw [print_corrupt abi ff fl var hvar, raise_type_error_value]

/-- Witness of C15 (amended): the x86-64 platform under the initial switches, a
bool buffer holding 1, the string "hi" and a value with the tag 13. -/
theorem print_dispatch_initial :
    dtype_print lp64 FloatFormat.unused Flags.initial
        { mem := some [1], size := 1, type := DTYPE_BOOL }
      = ⟨[Event.out "true"], Res.ret 4⟩
    ∧ dtype_print lp64 FloatFormat.unused Flags.initial
        { mem := some [104, 105, 0], size := 3, type := DTYPE_STRING }
      = ⟨[Event.out "hi"], Res.ret 2⟩
    ∧ dtype_print lp64 FloatFormat.unused Flags.initial { mem := none, size := 0, type := 13 }
      = ⟨[Event.error DTYPE_TYPE_ERROR "dtype_print" "Invalid type to print."], Res.ret 1⟩ :=
  have hb := print_dispatch lp64 FloatFormat.unused Flags.initial none 1 [1] [104, 105] []
    { mem := none, size := 0, type := 13 } (by decide) (by decide) (by decide)
  have hs := print_dispatch lp64 FloatFormat.unused Flags.initial none 3 [1] [104, 105] []
    { mem := none, size := 0, type := 13 } (by decide) (by decide) (by decide)
  ⟨hb.2.1.trans (by decide), hs.2.2.2.1.trans (by decide), hs.2.2.2.2.2.2.trans (by decide)⟩

/-! ## The double setter -/

theorem set_double_ok (abi : Abi) (fl : Flags) (x : dtype) (v : Nat)
    (hle : abi.sizeof_int ≤ abi.sizeof_double) :
    dtype_set_double abi fl true x v
      = Run.pure { mem := some ((objrep abi abi.sizeof_double v).take abi.sizeof_int),
                   size := abi.sizeof_int, type := DTYPE_DOUBLE } := by
  have hsrc : abi.sizeof_int ≤ (objrep abi abi.sizeof_double v).length := by
    rw [objrep_length]
    exact hle
  simp [dtype_set_double, mem_refresh_ok _ _ _ _ abi.int_pos,
    copy_fresh _ _ _ abi.int_pos hsrc]

/-- C16: on a platform where a double has at least `sizeof(int)` bytes, for every
double `v` (given by its bit pattern) and every prior value, when the allocation
succeeds `dtype_set_double` writes nothing and returns a value whose length
field is `sizeof(int)`, whose buffer is exactly the first `sizeof(int)` bytes of
the `sizeof(double)`-byte representation of `v`, and whose tag is `DTYPE_DOUBLE`;
the buffer has `sizeof(int)` bytes, not `sizeof(double)`. -/
theorem set_double_truncates (abi : Abi) (fl : Flags) (x : dtype) (v : Nat)
    (hle : abi.sizeof_int ≤ abi.sizeof_double) :
    dtype_set_double abi fl true x v
        = Run.pure { mem := some ((objrep abi abi.sizeof_double v).take abi.sizeof_int),
                     size := abi.sizeof_int, type := DTYPE_DOUBLE }
    ∧ ((objrep abi abi.sizeof_double v).take abi.sizeof_int).length = abi.sizeof_int
    ∧ (objrep abi abi.sizeof_double v).length = abi.sizeof_double := by
  refine ⟨set_double_ok abi fl x v hle, ?_, objrep_length abi _ v⟩
  rw [List.length_take, objrep_length]
  omega

/-- Witness of C16: on the x86-64 platform the double 1.0 (bit pattern
`0x3FF0000000000000`) is stored as its four low bytes, all zero. -/
theorem set_double_truncates_lp64 :
    dtype_set_double lp64 Flags.initial true dtype_default 4607182418800017408
        = Run.pure { mem := some [0, 0, 0, 0], size := 4, type := DTYPE_DOUBLE }
    ∧ objrep lp64 8 4607182418800017408 = [0, 0, 0, 0, 0, 0, 240, 63] :=
  ⟨(set_double_truncates lp64 Flags.initial dtype_default 4607182418800017408
      (by decide)).1.trans (by decide), by decide⟩

/-- C17 (failing input): on the x86-64 platform, where `sizeof(int)` is 4 and
`sizeof(double)` is 8, for every double `v`, every prior value and every setting
of the switches, `dtype_set_double` (allocation succeeding) returns a value whose
buffer has 4 bytes, and the read of 8 bytes made by `dtype_get_double` on that
value leaves the buffer: the bounds-checked read fails. -/
theorem get_double_reads_past_buffer (fl : Flags) (x : dtype) (v : Nat) :
    dtype_set_double lp64 fl true x v
        = Run.pure { mem := some ((objrep lp64 8 v).take 4), size := 4, type := DTYPE_DOUBLE }
    ∧ ((objrep lp64 8 v).take 4).length = 4
    ∧ Getter.double.width lp64 = 8
    ∧ deref { mem := some ((objrep lp64 8 v).take 4), size := 4, type := DTYPE_DOUBLE } 8 = none
    ∧ (dtype_set_double lp64 fl true x v).bind (dtype_get_double lp64 fl)
        = ⟨[], Res.undef⟩ := by
  have hset : dtype_set_double lp64 fl true x v
      = Run.pure { mem := some ((objrep lp64 8 v).take 4), size := 4, type := DTYPE_DOUBLE } :=
    set_double_ok lp64 fl x v (by decide)
  have hlen : ((objrep lp64 8 v).take 4).length = 4 := by
    rw [List.length_take, objrep_length]
    rfl
  have hderef :
      deref { mem := some ((objrep lp64 8 v).take 4), size := 4, type := DTYPE_DOUBLE } 8
        = none := by
    simp only [deref, hlen]
    rfl
  refine ⟨hset, hlen, rfl, hderef, ?_⟩
  rw [hset, Run.pure_bind]
  unfold dtype_get_double
  simp only [bind_run, pure_run]
  rw [mismatch_check_tag _ _ _ _ _ (by decide) (by decide), Run.pure_bind]
  have h8 : lp64.sizeof_double = 8 := rfl
  rw [h8, hderef]
  rfl

/-! ## The result of the type check -/

/-- C18 (counterexample): with the four switches set, `dtype__typecheck` on a
value whose tag 13 lies outside `DTYPE_NONE .. DTYPE_CUSTOM` does not return
true: the `DTYPE_TYPE_ERROR` it raises ends the process with status 3. -/
theorem typecheck_corrupt_exits :
    dtype__typecheck Flags.allOn { mem := none, size := 0, type := 13 } DTYPE_INT
      = ⟨[Event.error DTYPE_TYPE_ERROR "dtype_typecheck" "Invalid type, type is corrupted."],
          Res.exit DTYPE_TYPE_ERROR⟩
    ∧ DTYPE_CUSTOM < 13 := by
  decide

/-- C18 (amended): for every value and every expected tag in the valid range.
If the tag of the value lies outside `DTYPE_NONE .. DTYPE_CUSTOM`,
`dtype__typecheck` raises `DTYPE_TYPE_ERROR` and emits no warning: it returns
true (after the error block and the range note when error reporting is enabled),
unless error reporting and exit-on-error are both enabled, in which case the
raise ends the process with status `DTYPE_TYPE_ERROR` and nothing is returned.
If the tag is in range, it returns true and emits exactly one warning naming the
expected and actual type names and codes when warning reporting is enabled and
the tag differs from the expected tag, and otherwise returns false and emits
nothing. Hence it returns true if and only if the tag is out of range and the
process is not ended, or warning reporting is enabled and the valid tag differs
from the expected tag. -/
theorem typecheck_result (fl : Flags) (var : dtype) (type : Int)
    (t0 : DTYPE_NONE ≤ type) (t1 : type ≤ DTYPE_CUSTOM) :
    ((var.type < DTYPE_NONE ∨ var.type > DTYPE_CUSTOM) →
      dtype__typecheck fl var type =
        if fl.DTYPE_ERROR_THROW then
          if fl.DTYPE_EXIT_ON_ERROR then
            ⟨[Event.error DTYPE_TYPE_ERROR "dtype_typecheck" "Invalid type, type is corrupted."],
              Res.exit DTYPE_TYPE_ERROR⟩
          else
            ⟨[Event.error DTYPE_TYPE_ERROR "dtype_typecheck" "Invalid type, type is corrupted.",
              Event.typeRange var.type DTYPE_NONE DTYPE_CUSTOM], Res.ret true⟩
        else ⟨[], Res.ret true⟩)
    ∧ (¬ (var.type < DTYPE_NONE ∨ var.type > DTYPE_CUSTOM) →
      dtype__typecheck fl var type =
        if fl.DTYPE_WARN_THROW = true ∧ var.type ≠ type then
          ⟨[Event.warning (typeName type) type (typeName var.type) var.type], Res.ret true⟩
        else ⟨[], Res.ret false⟩)
    ∧ ((dtype__typecheck fl var type).res = Res.ret true ↔
        (((var.type < DTYPE_NONE ∨ var.type > DTYPE_CUSTOM)
            ∧ ¬ (fl.DTYPE_ERROR_THROW = true ∧ fl.DTYPE_EXIT_ON_ERROR = true))
          ∨ (¬ (var.type < DTYPE_NONE ∨ var.type > DTYPE_CUSTOM)
            ∧ fl.DTYPE_WARN_THROW = true ∧ var.type ≠ type)))
    ∧ ((var.type < DTYPE_NONE ∨ var.type > DTYPE_CUSTOM) →
        ∀ e ∈ (dtype__typecheck fl var type).log, e.isWarning = false) := by
  have hin : ¬ (var.type < DTYPE_NONE ∨ var.type > DTYPE_CUSTOM) →
      dtype__typecheck fl var type =
        if fl.DTYPE_WARN_THROW = true ∧ var.type ≠ type then
          ⟨[Event.warning (typeName type) type (typeName var.type) var.type], Res.ret true⟩
        else ⟨[], Res.ret false⟩ := by
    intro h
    have h0 : DTYPE_NONE ≤ var.type := by
      by_contra hc
      exact h (Or.inl (by omega))
    have h1 : var.type ≤ DTYPE_CUSTOM := by
      by_contra hc
      exact h (Or.inr (by omega))
    rw [typecheck_valid fl var type h0 h1 t0 t1]
    rfl
  refine ⟨fun h => typecheck_corrupt fl var type h, hin, ?_, ?_⟩
  · by_cases h : var.type < DTYPE_NONE ∨ var.type > DTYPE_CUSTOM
    · rw [typecheck_corrupt fl var type h]
      cases fl with
      | mk e w q x => cases e <;> cases x <;> simp [h]
    · rw [hin h]
      by_cases hc : fl.DTYPE_WARN_THROW = true ∧ var.type ≠ type
      · rw [if_pos hc]
        simp only [h, false_and, not_false_eq_true, true_and, false_or]
        exact ⟨fun _ => hc, fun _ => trivial⟩
      · rw [if_neg hc]
        simp only [h, false_and, not_false_eq_true, true_and, false_or]
        constructor
        · intro hr
          cases hr
        · intro hr
          exact absurd hr hc
  · intro h e he
    rw [typecheck_corrupt fl var type h] at he
    cases fl with
    | mk fe fw fq fx =>
      cases fe <;> cases fx <;> simp at he <;>
        first
          | (subst he; rfl)
          | (rcases he with he | he <;> subst he <;> rfl)

/-- Witness of C18 (amended): `dtype__typecheck` against `DTYPE_INT` on the empty
value under the initial switches returns true with one warning. -/
theorem typecheck_result_initial :
    dtype__typecheck Flags.initial dtype_default DTYPE_INT
      = ⟨[Event.warning "int" DTYPE_INT "none" DTYPE_NONE], Res.ret true⟩ :=
  ((typecheck_result Flags.initial dtype_default DTYPE_INT (by decide) (by decide)).2.1
    (by decide)).trans (by decide)

/-! ## The float getter -/

theorem get_float_log (abi : Abi) (fl : Flags) (var : dtype)
    (h0 : DTYPE_NONE ≤ var.type) (h1 : var.type ≤ DTYPE_CUSTOM) :
    (dtype_get_float abi fl var).log
      = if fl.DTYPE_WARN_THROW = true ∧ var.type ≠ DTYPE_BOOL then
          if fl.DTYPE_WARN_EQ_ERROR = true ∧ fl.DTYPE_ERROR_THROW = true then
            [Event.warning "boolean" DTYPE_BOOL (typeName var.type) var.type,
              Event.error DTYPE_WARN_ERROR "dtype_get_float" warn_error_msg]
          else [Event.warning "boolean" DTYPE_BOOL (typeName var.type) var.type]
        else [] := by
  unfold dtype_get_float
  simp only [bind_run, pure_run]
  rw [read_after_check,
    mismatch_check_valid fl var DTYPE_BOOL _ h0 h1 (by decide) (by decide)]
  have hn : typeName DTYPE_BOOL = "boolean" := by decide
  rw [hn]
  split
  · split <;> rfl
  · rfl

/-- C19: with warning reporting enabled, `dtype_get_float` on a value whose tag
is in the valid range emits a type-mismatch warning, naming `boolean` (code
`DTYPE_BOOL`) as the expected type, if and only if the tag is not `DTYPE_BOOL`;
in particular it emits that warning on every value produced by
`dtype_set_float`, whose tag is `DTYPE_FLOAT`, and emits none on a value tagged
`DTYPE_BOOL`. -/
theorem get_float_checks_bool (abi : Abi) (fl : Flags) (var x : dtype) (v : Nat)
    (hw : fl.DTYPE_WARN_THROW = true)
    (h0 : DTYPE_NONE ≤ var.type) (h1 : var.type ≤ DTYPE_CUSTOM) :
    (dtype_get_float abi fl var).log.filter Event.isWarning
        = (if var.type = DTYPE_BOOL then []
           else [Event.warning "boolean" DTYPE_BOOL (typeName var.type) var.type])
    ∧ ((∃ e ∈ (dtype_get_float abi fl var).log, e.isWarning = true) ↔ var.type ≠ DTYPE_BOOL)
    ∧ ∃ y, dtype_set_float abi fl true x v = Run.pure y ∧ y.type = DTYPE_FLOAT
        ∧ (dtype_get_float abi fl y).log.filter Event.isWarning
            = [Event.warning "boolean" DTYPE_BOOL "float" DTYPE_FLOAT] := by
  have hgen : ∀ z : dtype, DTYPE_NONE ≤ z.type → z.type ≤ DTYPE_CUSTOM →
      (dtype_get_float abi fl z).log.filter Event.isWarning
        = (if z.type = DTYPE_BOOL then []
           else [Event.warning "boolean" DTYPE_BOOL (typeName z.type) z.type]) := by
    intro z z0 z1
    rw [get_float_log abi fl z z0 z1]
    by_cases he : z.type = DTYPE_BOOL
    · simp [he]
    · by_cases hq : fl.DTYPE_WARN_EQ_ERROR = true ∧ fl.DTYPE_ERROR_THROW = true
      · simp [hw, he, hq, Event.isWarning]
      · simp [hw, he, hq, Event.isWarning]
  refine ⟨hgen var h0 h1, ?_, ?_⟩
  · rw [get_float_log abi fl var h0 h1]
    by_cases he : var.type = DTYPE_BOOL
    · simp [he]
    · by_cases hq : fl.DTYPE_WARN_EQ_ERROR = true ∧ fl.DTYPE_ERROR_THROW = true
      · simp [hw, he, hq, Event.isWarning]
      · simp [hw, he, hq, Event.isWarning]
  · refine ⟨_, set_float_ok abi fl x v, rfl, ?_⟩
    have hf0 : DTYPE_NONE ≤ DTYPE_FLOAT := by decide
    have hf1 : DTYPE_FLOAT ≤ DTYPE_CUSTOM := by decide
    rw [hgen _ hf0 hf1]
    rfl

/-- Witness of C19: under the initial switches, the float 1.0 set on the empty
value and read back on the x86-64 platform, and a read of a bool value. -/
theorem get_float_checks_bool_initial :
    (dtype_get_float lp64 Flags.initial
        { mem := some [1], size := 1, type := DTYPE_BOOL }).log.filter Event.isWarning = []
    ∧ ∃ y, dtype_set_float lp64 Flags.initial true dtype_default 1065353216 = Run.pure y
        ∧ y.type = DTYPE_FLOAT
        ∧ (dtype_get_float lp64 Flags.initial y).log.filter Event.isWarning
            = [Event.warning "boolean" DTYPE_BOOL "float" DTYPE_FLOAT] :=
  have h := get_float_checks_bool lp64 Flags.initial
    { mem := some [1], size := 1, type := DTYPE_BOOL } dtype_default 1065353216 rfl
    (by decide) (by decide)
  ⟨h.1, h.2.2⟩

/-! ## The tags that can be reached -/

theorem op_ret_tag (abi : Abi) (fl : Flags) (x y : dtype) (op : Op)
    (h : (op.call abi fl x).res = Res.ret y) :
    y.type = x.type ∨ y.type ∈ tagsBelowCustom := by
  cases op with
  | change_size size outcome =>
    left
    cases h
    rfl
  | set_bool val heap =>
    right
    rw [setter_ret_tag fl heap x _ _ _ _ _ y h]
    decide
  | set_char val heap =>
    right
    rw [setter_ret_tag fl heap x _ _ _ _ _ y h]
    decide
  | set_short val heap =>
    right
    rw [setter_ret_tag fl heap x _ _ _ _ _ y h]
    decide
  | set_ushort val heap =>
    right
    rw [setter_ret_tag fl heap x _ _ _ _ _ y h]
    decide
  | set_int val heap =>
    right
    rw [setter_ret_tag fl heap x _ _ _ _ _ y h]
    decide
  | set_uint val heap =>
    right
    rw [setter_ret_tag fl heap x _ _ _ _ _ y h]
    decide
  | set_long val heap =>
    right
    rw [setter_ret_tag fl heap x _ _ _ _ _ y h]
    decide
  | set_ulong val heap =>
    right
    rw [setter_ret_tag fl heap x _ _ _ _ _ y h]
    decide
  | set_float val heap =>
    right
    rw [setter_ret_tag fl heap x _ _ _ _ _ y h]
    decide
  | set_double val heap =>
    right
    rw [setter_ret_tag fl heap x _ _ _ _ _ y h]
    decide
  | set_string val heap =>
    right
    simp only [Op.call] at h
    rw [set_string_shape] at h
    obtain ⟨len, _, h1⟩ := bind_res_ret _ _ _ h
    obtain ⟨bytes, h2⟩ := source_shape_ret _ val (len + 1) _ y h1
    rw [setter_ret_tag fl heap x _ _ _ _ _ y h2]
    decide
  | set_custom src size heap =>
    right
    rw [set_custom_ret_tag fl heap x src size y h]
    decide
  | clear heap =>
    right
    simp only [Op.call, dtype_clear, bind_run, pure_run] at h
    obtain ⟨a, _, h1⟩ := bind_res_ret _ _ _ h
    cases h1
    show DTYPE_NONE ∈ tagsBelowCustom
    decide

theorem reachable_tag (abi : Abi) (y : dtype) (h : ReachableAnyFlags abi y) :
    y.type ∈ tagsBelowCustom := by
  induction h with
  | start => decide
  | step fl x y op _ hcall ih =>
    rcases op_ret_tag abi fl x y op hcall with he | hm
    · rw [he]
      exact ih
    · exact hm

theorem reachable_any_flags (abi : Abi) (fl : Flags) (y : dtype) (h : Reachable abi fl y) :
    ReachableAnyFlags abi y := by
  induction h with
  | start => exact ReachableAnyFlags.start
  | step x y op _ hcall ih => exact ReachableAnyFlags.step fl x y op ih hcall

/-- C20: no sequence of public operations (`dtype_change_size`, the ten primitive
setters, `dtype_set_string`, `dtype_set_custom`, `dtype_clear`) starting from
`dtype_default()` yields a value tagged `DTYPE_CUSTOM`, whatever the outcomes of
the allocations and whatever the switches are before each operation: the tag of
every reachable value is one of the twelve tags `DTYPE_NONE .. DTYPE_STRING`. The
same holds with the switches fixed throughout. -/
theorem custom_tag_unreachable (abi : Abi) (y : dtype) (h : ReachableAnyFlags abi y) :
    y.type ≠ DTYPE_CUSTOM
    ∧ y.type ∈ tagsBelowCustom
    ∧ (∀ (fl : Flags) (z : dtype), Reachable abi fl z →
        z.type ≠ DTYPE_CUSTOM ∧ z.type ∈ tagsBelowCustom) := by
  have hne : ∀ t : Int, t ∈ tagsBelowCustom → t ≠ DTYPE_CUSTOM := by
    intro t ht he
    rw [he] at ht
    revert ht
    decide
  refine ⟨hne _ (reachable_tag abi y h), reachable_tag abi y h, ?_⟩
  intro fl z hz
  have hz2 := reachable_tag abi z (reachable_any_flags abi fl z hz)
  exact ⟨hne _ hz2, hz2⟩

/-- Witness of C20: the value reached on the x86-64 platform by resizing the empty
value to 8 bytes and copying a custom record of 8 bytes into it, as `src/test.c`
does. -/
theorem custom_tag_unreachable_test_c :
    ({ mem := some [15, 0, 0, 0, 16, 0, 0, 0], size := 8, type := DTYPE_NONE } : dtype).type
        ≠ DTYPE_CUSTOM
    ∧ ({ mem := some [15, 0, 0, 0, 16, 0, 0, 0], size := 8, type := DTYPE_NONE } : dtype).type
        ∈ tagsBelowCustom :=
  have h := custom_tag_unreachable lp64
    { mem := some [15, 0, 0, 0, 16, 0, 0, 0], size := 8, type := DTYPE_NONE }
    (ReachableAnyFlags.step Flags.initial
      (dtype_change_size dtype_default 8 (some [])) _
      (Op.set_custom (Source.block [15, 0, 0, 0, 16, 0, 0, 0]) 8 true)
      (ReachableAnyFlags.step Flags.initial dtype_default _ (Op.change_size 8 (some []))
        ReachableAnyFlags.start rfl)
      (by decide))
  ⟨h.1, h.2.1⟩

/-! ## When a memory error is raised -/

/-- C21: `dtype__mem_refresh(x, size, origin)` raises the memory error, that is
calls `dtype__mem_error(size, origin)`, if and only if `size` is non-zero and the
allocation fails; otherwise it writes nothing and returns. The diagnostic has the
code `DTYPE_MEMORY_ERROR` and the origin passed by the calling setter, and the
requested size follows it when `dtype__raise` returns true (error reporting
enabled and the process not ended by exit-on-error); so a diagnostic is written
exactly when error reporting is enabled, `size` is non-zero and the allocation
fails. In particular `dtype_set_custom(x, source, 0)` writes nothing and returns
the value with no buffer, length 0 and tag `DTYPE_NONE`, whatever the source
holds, even nothing, and wherever it points, even into the buffer of `x`: the
source is not read. -/
theorem mem_error_iff_failed_alloc (fl : Flags) (heap : Bool) (x : dtype) (size : Nat)
    (func : String) (src : Source) :
    ((size ≠ 0 ∧ heap = false) →
        dtype__mem_refresh fl heap x size func
          = (dtype__mem_error fl size func).bind
              fun _ => Run.pure { mem := none, size := 0, type := DTYPE_NONE })
    ∧ (¬ (size ≠ 0 ∧ heap = false) →
        ∃ y, dtype__mem_refresh fl heap x size func = Run.pure y)
    ∧ dtype__mem_error fl size func
        = (if fl.DTYPE_ERROR_THROW then
            if fl.DTYPE_EXIT_ON_ERROR then
              ⟨[Event.error DTYPE_MEMORY_ERROR func "Couldn't allocate memory for size"],
                Res.exit DTYPE_MEMORY_ERROR⟩
            else
              ⟨[Event.error DTYPE_MEMORY_ERROR func "Couldn't allocate memory for size",
                Event.memSize size], Res.ret ()⟩
           else ⟨[], Res.ret ()⟩)
    ∧ ((dtype__mem_refresh fl heap x size func).log ≠ []
        ↔ (fl.DTYPE_ERROR_THROW = true ∧ size ≠ 0 ∧ heap = false))
    ∧ ((Event.error DTYPE_MEMORY_ERROR func "Couldn't allocate memory for size"
          ∈ (dtype__mem_refresh fl heap x size func).log)
        ↔ (fl.DTYPE_ERROR_THROW = true ∧ size ≠ 0 ∧ heap = false))
    ∧ dtype_set_custom fl heap x src 0 = Run.pure dtype_default
    ∧ dtype_set_custom fl heap x (Source.block []) 0 = Run.pure dtype_default
    ∧ dtype_default = { mem := none, size := 0, type := DTYPE_NONE } := by
  have hfail : (size ≠ 0 ∧ heap = false) →
      dtype__mem_refresh fl heap x size func
        = (dtype__mem_error fl size func).bind
            fun _ => Run.pure { mem := none, size := 0, type := DTYPE_NONE } := by
    rintro ⟨hs, hh⟩
    subst hh
    exact mem_refresh_fail fl x size func (Nat.pos_of_ne_zero hs)
  have hok : ¬ (size ≠ 0 ∧ heap = false) →
      ∃ y, dtype__mem_refresh fl heap x size func = Run.pure y := by
    intro h
    rcases Nat.eq_zero_or_pos size with hz | hpos
    · subst hz
      exact ⟨_, mem_refresh_zero fl heap x func⟩
    · cases heap
      · exact absurd ⟨Nat.pos_iff_ne_zero.mp hpos, rfl⟩ h
      · exact ⟨_, mem_refresh_ok fl x size func hpos⟩
  refine ⟨hfail, hok, mem_error_eval fl size func, ?_, ?_, set_custom_zero fl heap x src,
    set_custom_zero fl heap x (Source.block []), rfl⟩
  · by_cases hc : size ≠ 0 ∧ heap = false
    · rw [hfail hc, mem_error_eval]
      cases fl with
      | mk fe fw fq fx => cases fe <;> cases fx <;> simp [hc, Run.bind, Run.pure]
    · obtain ⟨y, hy⟩ := hok hc
      rw [hy]
      simp only [Run.pure_log, ne_eq, not_true_eq_false, false_iff]
      intro h
      exact hc h.2
  · by_cases hc : size ≠ 0 ∧ heap = false
    · rw [hfail hc, mem_error_eval]
      cases fl with
      | mk fe fw fq fx => cases fe <;> cases fx <;> simp [hc, Run.bind, Run.pure]
    · obtain ⟨y, hy⟩ := hok hc
      rw [hy]
      simp only [Run.pure_log, List.not_mem_nil, false_iff]
      intro h
      exact hc h.2

/-- Witness of C21: under the initial switches a failing allocation of 4 bytes for
`dtype_set_int` writes the error block and the size, a successful one writes
nothing, and `dtype_set_custom` with size 0 writes nothing. -/
theorem mem_error_iff_failed_alloc_initial :
    dtype__mem_refresh Flags.initial false dtype_default 4 "dtype_set_int"
      = ⟨[Event.error DTYPE_MEMORY_ERROR "dtype_set_int" "Couldn't allocate memory for size",
          Event.memSize 4],
         Res.ret { mem := none, size := 0, type := DTYPE_NONE }⟩
    ∧ (∃ y, dtype__mem_refresh Flags.initial true dtype_default 4 "dtype_set_int"
        = Run.pure y)
    ∧ dtype_set_custom Flags.initial true dtype_default (Source.block [15, 16]) 0
        = Run.pure dtype_default :=
  ⟨((mem_error_iff_failed_alloc Flags.initial false dtype_default 4 "dtype_set_int"
      (Source.block [])).1
      (by decide)).trans (by decide),
   (mem_error_iff_failed_alloc Flags.initial true dtype_default 4 "dtype_set_int"
      (Source.block [])).2.1
      (by decide),
   (mem_error_iff_failed_alloc Flags.initial true dtype_default 0 ""
      (Source.block [15, 16])).2.2.2.2.2.1⟩

/-! ## Getters with warning reporting disabled -/

theorem mismatch_check_silent (fl : Flags) (var : dtype) (type : Int) (func : String)
    (hw : fl.DTYPE_WARN_THROW = false)
    (h0 : DTYPE_NONE ≤ var.type) (h1 : var.type ≤ DTYPE_CUSTOM)
    (t0 : DTYPE_NONE ≤ type) (t1 : type ≤ DTYPE_CUSTOM) :
    mismatch_check fl var type func = Run.pure () := by
  rw [mismatch_check_valid fl var type func h0 h1 t0 t1, if_neg]
  rintro ⟨h, _⟩
  rw [hw] at h
  cases h

/-- C22: with warning reporting disabled, every one of the eleven getters (the
float getter included), called on a value whose tag is in the valid range, writes
nothing at all: no warning and no diagnostic, whatever the settings of
warn-as-error, error reporting and exit-on-error and whether or not the tag
matches the type of the getter. Its type check returns false, nothing is
raised, the process is not ended, and the getter goes on to its read. -/
theorem no_diagnostic_without_warnings (abi : Abi) (fl : Flags) (var : dtype) (g : Getter)
    (hw : fl.DTYPE_WARN_THROW = false)
    (h0 : DTYPE_NONE ≤ var.type) (h1 : var.type ≤ DTYPE_CUSTOM) :
    (g.call abi fl var).log = []
    ∧ (g.call abi fl var).res = (if g.readable abi var then Res.ret () else Res.undef)
    ∧ (∀ (type : Int), DTYPE_NONE ≤ type → type ≤ DTYPE_CUSTOM →
        dtype__typecheck fl var type = Run.pure false)
    ∧ (∀ (type : Int) (func : String), DTYPE_NONE ≤ type → type ≤ DTYPE_CUSTOM →
        mismatch_check fl var type func = Run.pure ()) := by
  have hchk : ∀ (type : Int) (func : String), DTYPE_NONE ≤ type → type ≤ DTYPE_CUSTOM →
      mismatch_check fl var type func = Run.pure () :=
    fun type func t0 t1 => mismatch_check_silent fl var type func hw h0 h1 t0 t1
  have htc : ∀ (type : Int), DTYPE_NONE ≤ type → type ≤ DTYPE_CUSTOM →
      dtype__typecheck fl var type = Run.pure false := by
    intro type t0 t1
    rw [typecheck_valid fl var type h0 h1 t0 t1, if_neg]
    rintro ⟨h, _⟩
    rw [hw] at h
    cases h
  have hcall : g.call abi fl var
      = (Run.pure ()).bind fun _ => if g.readable abi var then Run.pure () else undefined := by
    by_cases hg : g = Getter.float
    · subst hg
      rw [getter_call_float, hchk _ _ (by decide) (by decide)]
    · rw [getter_call_shape abi fl var g hg, hchk _ _ g.tag_valid.1 g.tag_valid.2]
  rw [hcall, Run.pure_bind]
  refine ⟨?_, ?_, htc, hchk⟩
  · cases g.readable abi var <;> rfl
  · cases g.readable abi var <;> rfl

/-- Witness of C22: warnings disabled, warn-as-error, error reporting and
exit-on-error all enabled; `dtype_get_int` on a value tagged `DTYPE_UINT`. -/
theorem no_diagnostic_without_warnings_get_int :
    (Getter.int.call lp64
        { DTYPE_ERROR_THROW := true, DTYPE_WARN_THROW := false,
          DTYPE_WARN_EQ_ERROR := true, DTYPE_EXIT_ON_ERROR := true }
        { mem := some [65, 0, 0, 0], size := 4, type := DTYPE_UINT }).log = []
    ∧ dtype_get_int lp64
        { DTYPE_ERROR_THROW := true, DTYPE_WARN_THROW := false,
          DTYPE_WARN_EQ_ERROR := true, DTYPE_EXIT_ON_ERROR := true }
        { mem := some [65, 0, 0, 0], size := 4, type := DTYPE_UINT }
      = ⟨[], Res.ret 65⟩ :=
  ⟨(no_diagnostic_without_warnings lp64 _
      { mem := some [65, 0, 0, 0], size := 4, type := DTYPE_UINT } Getter.int rfl
      (by decide) (by decide)).1, by decide⟩

/-! ## Lookups in the table of type names -/

theorem strTypesAt_isSome (t : Int) :
    (strTypesAt t).isSome = true ↔ (DTYPE_NONE ≤ t ∧ t ≤ DTYPE_CUSTOM) := by
  constructor
  · intro h
    unfold strTypesAt at h
    simp only [DTYPE_NONE, DTYPE_CUSTOM]
    by_cases h0 : 0 ≤ t
    · rw [if_pos h0] at h
      have hlt : t.toNat < DTYPE_STR_TYPES.length := by
        by_contra hc
        rw [List.getElem?_eq_none (by omega)] at h
        cases h
      have hlen : DTYPE_STR_TYPES.length = 13 := rfl
      omega
    · rw [if_neg h0] at h
      cases h
  · rintro ⟨h0, h1⟩
    rw [strTypesAt_valid t h0 h1]
    rfl

theorem typecheck_defined (fl : Flags) (var : dtype) (type : Int)
    (t0 : DTYPE_NONE ≤ type) (t1 : type ≤ DTYPE_CUSTOM) :
    (dtype__typecheck fl var type).res ≠ Res.undef := by
  by_cases h : var.type < DTYPE_NONE ∨ var.type > DTYPE_CUSTOM
  · rw [typecheck_corrupt fl var type h]
    cases fl with
    | mk fe fw fq fx => cases fe <;> cases fx <;> simp [Run.pure]
  · have h0 : DTYPE_NONE ≤ var.type := by
      by_contra hc
      exact h (Or.inl (by omega))
    have h1 : var.type ≤ DTYPE_CUSTOM := by
      by_contra hc
      exact h (Or.inr (by omega))
    rw [typecheck_valid fl var type h0 h1 t0 t1]
    split <;> simp [Run.pure]

theorem mismatch_check_defined (fl : Flags) (var : dtype) (type : Int) (func : String)
    (t0 : DTYPE_NONE ≤ type) (t1 : type ≤ DTYPE_CUSTOM) :
    (mismatch_check fl var type func).res ≠ Res.undef := by
  unfold mismatch_check
  simp only [bind_run, pure_run]
  have htc := typecheck_defined fl var type t0 t1
  generalize dtype__typecheck fl var type = r at htc
  obtain ⟨l, res⟩ := r
  cases res with
  | undef => exact absurd rfl htc
  | exit c => simp [Run.bind]
  | ret b =>
    simp only [Run.bind]
    split
    · rw [raise_warn_error]
      cases fl with
      | mk fe fw fq fx => cases fe <;> cases fx <;> simp [Run.bind, Run.pure]
    · simp [Run.pure]

/-- C23: the table `DTYPE_STR_TYPES` has 13 entries, one for each tag from
`DTYPE_NONE` to `DTYPE_CUSTOM`, so a lookup is inside the table exactly for those
tags. For every value, whatever its tag, `dtype__typecheck` called with a valid
expected tag never makes a lookup outside the table (its only possible undefined
step), and neither does the type check of any getter; `dtype_debug_print` on a tag
outside the range returns the result of its raise without reaching its lookup,
and on a tag inside the range its lookup finds the name of the tag and the
function goes on to write its block. -/
theorem lookups_in_bounds (abi : Abi) (ff : FloatFormat) (fl : Flags) (var : dtype)
    (type : Int) (t0 : DTYPE_NONE ≤ type) (t1 : type ≤ DTYPE_CUSTOM) :
    DTYPE_STR_TYPES.length = 13
    ∧ (∀ t : Int, (strTypesAt t).isSome = true ↔ (DTYPE_NONE ≤ t ∧ t ≤ DTYPE_CUSTOM))
    ∧ (dtype__typecheck fl var type).res ≠ Res.undef
    ∧ (∀ func : String, (mismatch_check fl var type func).res ≠ Res.undef)
    ∧ ((var.type < DTYPE_NONE ∨ var.type > DTYPE_CUSTOM) →
        dtype_debug_print abi ff fl var
          = ((dtype__raise fl "dtype_debug_print" "Invalid type to print."
                DTYPE_TYPE_ERROR).bind fun r => Run.pure (boolToInt r))
        ∧ (dtype_debug_print abi ff fl var).res ≠ Res.undef)
    ∧ (¬ (var.type < DTYPE_NONE ∨ var.type > DTYPE_CUSTOM) →
        dtype_get_str_type var = some (typeName var.type)
        ∧ dtype_debug_print abi ff fl var
          = ((printf ("\n\x7b typecode = " ++ toString var.type ++ ", type = `"
                ++ typeName var.type ++ "`, size = `" ++ toString var.size
                ++ "`, content = `")).bind
              fun _ => (dtype_print abi ff fl var).bind
                fun ret => (printf "` \x7d\n").bind fun _ => Run.pure ret)) := by
  refine ⟨rfl, strTypesAt_isSome, typecheck_defined fl var type t0 t1,
    fun func => mismatch_check_defined fl var type func t0 t1, ?_, ?_⟩
  · intro h
    have hc : dtype_debug_print abi ff fl var
        = ((dtype__raise fl "dtype_debug_print" "Invalid type to print."
              DTYPE_TYPE_ERROR).bind fun r => Run.pure (boolToInt r)) := by
      unfold dtype_debug_print
      rw [if_pos h]
      rfl
    refine ⟨hc, ?_⟩
    rw [hc, raise_type_error_value]
    cases fl with
    | mk fe fw fq fx => cases fe <;> cases fx <;> simp
  · intro h
    have h0 : DTYPE_NONE ≤ var.type := by
      by_contra hc
      exact h (Or.inl (by omega))
    have h1 : var.type ≤ DTYPE_CUSTOM := by
      by_contra hc
      exact h (Or.inr (by omega))
    have hname : dtype_get_str_type var = some (typeName var.type) :=
      strTypesAt_valid var.type h0 h1
    refine ⟨hname, ?_⟩
    unfold dtype_debug_print
    rw [if_neg h]
    simp only [bind_run, pure_run, hname, checked_some, Run.pure_bind]

/-- Witness of C23: the expected tag `DTYPE_INT`, on a value with the tag 13 and
on the empty value, under the initial switches. -/
theorem lookups_in_bounds_initial :
    (dtype__typecheck Flags.initial { mem := none, size := 0, type := 13 } DTYPE_INT).res
        ≠ Res.undef
    ∧ (dtype_debug_print lp64 FloatFormat.unused Flags.initial
        { mem := none, size := 0, type := 13 }).res ≠ Res.undef
    ∧ dtype_get_str_type dtype_default = some (typeName dtype_default.type) :=
  ⟨(lookups_in_bounds lp64 FloatFormat.unused Flags.initial
      { mem := none, size := 0, type := 13 } DTYPE_INT (by decide) (by decide)).2.2.1,
   ((lookups_in_bounds lp64 FloatFormat.unused Flags.initial
      { mem := none, size := 0, type := 13 } DTYPE_INT (by decide) (by decide)).2.2.2.2.1
      (by decide)).2,
   ((lookups_in_bounds lp64 FloatFormat.unused Flags.initial dtype_default DTYPE_INT
      (by decide) (by decide)).2.2.2.2.2 (by decide)).1⟩

/-! ## The copy of `dtype_set_custom` in the memory of blocks -/

theorem Heap.set_same (m : Heap.Memory) (b : Nat) (st : Heap.BlockState) :
    m.set b st b = st := by
  simp [Heap.Memory.set]

theorem Heap.set_other (m : Heap.Memory) (b i : Nat) (st : Heap.BlockState) (h : i ≠ b) :
    m.set b st i = m i := by
  simp [Heap.Memory.set, h]

theorem Heap.afterFree_other (m : Heap.Memory) (mem : Option Nat) (i : Nat)
    (h : mem ≠ some i) : Heap.afterFree m mem i = m i := by
  cases mem with
  | none => rfl
  | some b =>
    have hb : i ≠ b := fun e => h (by rw [e])
    simp [Heap.afterFree, Heap.set_other _ _ _ _ hb]

theorem Heap.afterFree_own (m : Heap.Memory) (b : Nat) :
    Heap.afterFree m (some b) b = Heap.BlockState.freed := by
  simp [Heap.afterFree, Heap.set_same]

theorem Heap.releasable_live (m : Heap.Memory) (var : Heap.dtype) (b : Nat)
    (hv : Heap.releasable m var = true) (hb : var.mem = some b) :
    ∃ bytes, m b = Heap.BlockState.live bytes := by
  simp only [Heap.releasable, Heap.buffer, hb, Option.isNone_some, Bool.false_or,
    Option.some_bind] at hv
  cases h : m b with
  | live bytes => exact ⟨bytes, rfl⟩
  | unallocated => rw [h] at hv; exact absurd hv (by decide)
  | freed => rw [h] at hv; exact absurd hv (by decide)

theorem Heap.free_releasable (m : Heap.Memory) (var : Heap.dtype)
    (hv : Heap.releasable m var = true) :
    Heap.free_unless_null m var.mem = Run.pure (Heap.afterFree m var.mem) := by
  cases hb : var.mem with
  | none => rfl
  | some b =>
    obtain ⟨bytes, hl⟩ := Heap.releasable_live m var b hv hb
    simp [Heap.free_unless_null, Heap.free, hl, Heap.afterFree, checked]

theorem Heap.blocks_mem_refresh_ok (fl : Flags) (m : Heap.Memory) (var : Heap.dtype) (a size : Nat)
    (func : String) (hv : Heap.releasable m var = true) (hn : 0 < size) :
    Heap.dtype__mem_refresh fl (some a) m var size func
      = Run.pure ((Heap.afterFree m var.mem).set a (Heap.BlockState.live (List.replicate size 0)),
          { mem := some a, size := size, type := DTYPE_NONE }) := by
  have h : size ≠ 0 := Nat.pos_iff_ne_zero.mp hn
  unfold Heap.dtype__mem_refresh
  rw [Heap.free_releasable m var hv]
  simp [bind_run, pure_run, Run.pure_bind, Heap.dtype__mem_alloc, h]

theorem Heap.blocks_mem_refresh_fail (fl : Flags) (m : Heap.Memory) (var : Heap.dtype) (size : Nat)
    (func : String) (hv : Heap.releasable m var = true) (hn : 0 < size) :
    Heap.dtype__mem_refresh fl none m var size func
      = (dtype__mem_error fl size func).bind fun _ =>
          Run.pure (Heap.afterFree m var.mem, { mem := none, size := 0, type := DTYPE_NONE }) := by
  have h : size ≠ 0 := Nat.pos_iff_ne_zero.mp hn
  unfold Heap.dtype__mem_refresh
  rw [Heap.free_releasable m var hv]
  simp [bind_run, pure_run, Run.pure_bind, Heap.dtype__mem_alloc, h]

theorem Heap.blocks_mem_refresh_zero (fl : Flags) (outcome : Option Nat) (m : Heap.Memory)
    (var : Heap.dtype) (func : String) (hv : Heap.releasable m var = true) :
    Heap.dtype__mem_refresh fl outcome m var 0 func
      = Run.pure (Heap.afterFree m var.mem, { mem := none, size := 0, type := DTYPE_NONE }) := by
  unfold Heap.dtype__mem_refresh
  rw [Heap.free_releasable m var hv]
  simp [bind_run, pure_run, Run.pure_bind]

theorem Heap.fresh_ne_live (m : Heap.Memory) (a b : Nat) (bytes : List Nat)
    (ha : m a = Heap.BlockState.unallocated) (hb : m b = Heap.BlockState.live bytes) :
    a ≠ b := by
  intro e
  rw [e, hb] at ha
  exact absurd ha (by simp)

theorem Heap.blocks_set_custom_shape (fl : Flags) (outcome : Option Nat) (m : Heap.Memory)
    (var : Heap.dtype) (p : Heap.Pointer) (size : Nat) :
    Heap.dtype_set_custom fl outcome m var p size
      = (Heap.dtype__mem_refresh fl outcome m var size "dtype_set_custom").bind fun r =>
          (Heap.copy_if_sized r.1 r.2 p size).bind fun m2 => Run.pure (m2, r.2) := rfl

theorem Heap.blocks_set_custom_ok (fl : Flags) (m : Heap.Memory) (var : Heap.dtype)
    (p : Heap.Pointer) (a size : Nat) (sbytes : List Nat)
    (hv : Heap.releasable m var = true) (hs : m p.block = Heap.BlockState.live sbytes)
    (hne : var.mem ≠ some p.block) (ha : m a = Heap.BlockState.unallocated)
    (hn : 0 < size) (hle : p.off + size ≤ sbytes.length) :
    Heap.dtype_set_custom fl (some a) m var p size
      = Run.pure
          ((((Heap.afterFree m var.mem).set a
              (Heap.BlockState.live (List.replicate size 0))).set a
              (Heap.BlockState.live ((sbytes.drop p.off).take size))),
            { mem := some a, size := size, type := DTYPE_NONE }) := by
  have h : size ≠ 0 := Nat.pos_iff_ne_zero.mp hn
  have hap : a ≠ p.block := Heap.fresh_ne_live m a p.block sbytes ha hs
  have hsrc : ((Heap.afterFree m var.mem).set a
      (Heap.BlockState.live (List.replicate size 0))) p.block
        = Heap.BlockState.live sbytes := by
    rw [Heap.set_other _ _ _ _ (Ne.symm hap), Heap.afterFree_other _ _ _ hne, hs]
  rw [Heap.blocks_set_custom_shape, Heap.blocks_mem_refresh_ok fl m var a size _ hv hn, Run.pure_bind]
  simp only [Heap.copy_if_sized, ne_eq, h, not_false_eq_true, if_true]
  have hcp : Heap.memcpy ((Heap.afterFree m var.mem).set a
        (Heap.BlockState.live (List.replicate size 0))) (some a) p size
      = some (((Heap.afterFree m var.mem).set a
          (Heap.BlockState.live (List.replicate size 0))).set a
          (Heap.BlockState.live ((sbytes.drop p.off).take size))) := by
    simp [Heap.memcpy, Heap.set_same, hsrc, hap, hle]
  rw [hcp]
  rfl

theorem Heap.blocks_set_custom_own (fl : Flags) (m : Heap.Memory) (var : Heap.dtype)
    (p : Heap.Pointer) (a size : Nat)
    (hv : Heap.releasable m var = true) (hown : var.mem = some p.block)
    (ha : m a = Heap.BlockState.unallocated) (hn : 0 < size) :
    Heap.dtype_set_custom fl (some a) m var p size = ⟨[], Res.undef⟩ := by
  have h : size ≠ 0 := Nat.pos_iff_ne_zero.mp hn
  obtain ⟨bytes, hl⟩ := Heap.releasable_live m var p.block hv hown
  have hap : a ≠ p.block := Heap.fresh_ne_live m a p.block bytes ha hl
  have hsrc : ((Heap.afterFree m var.mem).set a
      (Heap.BlockState.live (List.replicate size 0))) p.block
        = Heap.BlockState.freed := by
    rw [Heap.set_other _ _ _ _ (Ne.symm hap), hown, Heap.afterFree_own]
  rw [Heap.blocks_set_custom_shape, Heap.blocks_mem_refresh_ok fl m var a size _ hv hn, Run.pure_bind]
  simp only [Heap.copy_if_sized, ne_eq, h, not_false_eq_true, if_true]
  have hcp : Heap.memcpy ((Heap.afterFree m var.mem).set a
        (Heap.BlockState.live (List.replicate size 0))) (some a) p size = none := by
    simp [Heap.memcpy, Heap.set_same, hsrc]
  rw [hcp]
  rfl

theorem Heap.blocks_set_custom_short (fl : Flags) (m : Heap.Memory) (var : Heap.dtype)
    (p : Heap.Pointer) (a size : Nat) (sbytes : List Nat)
    (hv : Heap.releasable m var = true) (hs : m p.block = Heap.BlockState.live sbytes)
    (hne : var.mem ≠ some p.block) (ha : m a = Heap.BlockState.unallocated)
    (hn : 0 < size) (hgt : sbytes.length < p.off + size) :
    Heap.dtype_set_custom fl (some a) m var p size = ⟨[], Res.undef⟩ := by
  have h : size ≠ 0 := Nat.pos_iff_ne_zero.mp hn
  have hap : a ≠ p.block := Heap.fresh_ne_live m a p.block sbytes ha hs
  have hsrc : ((Heap.afterFree m var.mem).set a
      (Heap.BlockState.live (List.replicate size 0))) p.block
        = Heap.BlockState.live sbytes := by
    rw [Heap.set_other _ _ _ _ (Ne.symm hap), Heap.afterFree_other _ _ _ hne, hs]
  rw [Heap.blocks_set_custom_shape, Heap.blocks_mem_refresh_ok fl m var a size _ hv hn, Run.pure_bind]
  simp only [Heap.copy_if_sized, ne_eq, h, not_false_eq_true, if_true]
  have hcp : Heap.memcpy ((Heap.afterFree m var.mem).set a
        (Heap.BlockState.live (List.replicate size 0))) (some a) p size = none := by
    simp [Heap.memcpy, Heap.set_same, hsrc, hap]
    omega
  rw [hcp]
  rfl

theorem Heap.blocks_set_custom_fail (fl : Flags) (m : Heap.Memory) (var : Heap.dtype)
    (p : Heap.Pointer) (size : Nat) (hv : Heap.releasable m var = true) (hn : 0 < size) :
    Heap.dtype_set_custom fl none m var p size
      = (dtype__mem_error fl size "dtype_set_custom").bind fun _ =>
          Run.pure (Heap.afterFree m var.mem, { mem := none, size := 0, type := DTYPE_NONE }) := by
  rw [Heap.blocks_set_custom_shape, Heap.blocks_mem_refresh_fail fl m var size _ hv hn, mem_error_eval]
  cases fl with
  | mk fe fw fq fx => cases fe <;> cases fx <;> rfl

theorem Heap.blocks_set_custom_zero (fl : Flags) (outcome : Option Nat) (m : Heap.Memory)
    (var : Heap.dtype) (p : Heap.Pointer) (hv : Heap.releasable m var = true) :
    Heap.dtype_set_custom fl outcome m var p 0
      = Run.pure (Heap.afterFree m var.mem, { mem := none, size := 0, type := DTYPE_NONE }) := by
  rw [Heap.blocks_set_custom_shape, Heap.blocks_mem_refresh_zero fl outcome m var _ hv]
  rfl

theorem Heap.store_other (m m3 : Heap.Memory) (q : Heap.Pointer) (bytes : List Nat)
    (var : Heap.dtype) (h : Heap.store m q bytes = some m3) (hne : var.mem ≠ some q.block) :
    Heap.buffer m3 var = Heap.buffer m var := by
  unfold Heap.store at h
  cases hq : m q.block with
  | unallocated => rw [hq] at h; exact absurd h (by simp)
  | freed => rw [hq] at h; exact absurd h (by simp)
  | live old =>
    rw [hq] at h
    simp only at h
    split at h
    · cases hb : var.mem with
      | none => simp [Heap.buffer, hb]
      | some b =>
        have hbq : b ≠ q.block := fun e => hne (by rw [hb, e])
        have h3 := Option.some.inj h
        simp [Heap.buffer, hb, ← h3, Heap.set_other _ _ _ _ hbq]
    · exact absurd h (by simp)

theorem Heap.store_live (m : Heap.Memory) (q : Heap.Pointer) (bytes old : List Nat)
    (hq : m q.block = Heap.BlockState.live old) (hle : q.off + bytes.length ≤ old.length) :
    ∃ m3, Heap.store m q bytes = some m3 := by
  simp [Heap.store, hq, hle]

theorem Heap.valueOf_pure (m : Heap.Memory) (var : Heap.dtype) :
    Heap.valueOf (Run.pure (m, var)) = Run.pure (Heap.value m var) := rfl

theorem Heap.value_copied (m : Heap.Memory) (a size : Nat) (bytes : List Nat) :
    Heap.value (m.set a (Heap.BlockState.live bytes))
        { mem := some a, size := size, type := DTYPE_NONE }
      = { mem := some bytes, size := size, type := DTYPE_NONE } := by
  simp [Heap.value, Heap.buffer, Heap.set_same]

theorem set_custom_short (fl : Flags) (x : dtype) (src : List Nat) (size : Nat)
    (hpos : 0 < size) (hgt : src.length < size) :
    dtype_set_custom fl true x (Source.block src) size = ⟨[], Res.undef⟩ := by
  have h : size ≠ 0 := Nat.pos_iff_ne_zero.mp hpos
  have hn : ¬ size ≤ src.length := by omega
  rw [set_custom_block, mem_refresh_ok _ _ _ _ hpos, Run.pure_bind]
  simp [copy_if_sized, memcpy, h, hn, undefined, Run.bind]

theorem set_custom_own (fl : Flags) (x : dtype) (off size : Nat) (hpos : 0 < size) :
    dtype_set_custom fl true x (Source.own off) size = ⟨[], Res.undef⟩ := by
  have h : size ≠ 0 := Nat.pos_iff_ne_zero.mp hpos
  rw [set_custom_shape, mem_refresh_ok _ _ _ _ hpos, Run.pure_bind, copy_source_own]
  simp [h, undefined, Run.bind]

/-- The embedding with the bytes inside the value is the image of the embedding
over the memory of blocks: for a record whose buffer can be released, a source
that is a pointer into that buffer or into another live block, and an allocator
that hands out a block not handed out before, the record returned by
`dtype_set_custom` over the memory, read back as a value, is what
`dtype_set_custom` on the value returns, with the same text and the same kind of
ending. -/
theorem Heap.set_custom_refines (fl : Flags) (outcome : Option Nat) (m : Heap.Memory)
    (var : Heap.dtype) (p : Heap.Pointer) (size : Nat) (s : Source)
    (hv : Heap.releasable m var = true) (hs : Heap.source m var p = some s)
    (ha : ∀ a, outcome = some a → m a = Heap.BlockState.unallocated) :
    Heap.valueOf (Heap.dtype_set_custom fl outcome m var p size)
      = Dtype.dtype_set_custom fl outcome.isSome (Heap.value m var) s size := by
  rcases Nat.eq_zero_or_pos size with h0 | hpos
  · subst h0
    rw [Heap.blocks_set_custom_zero fl outcome m var p hv, Dtype.set_custom_zero, Heap.valueOf_pure]
    rfl
  · cases outcome with
    | none =>
      rw [Heap.blocks_set_custom_fail fl m var p size hv hpos, Option.isSome_none,
        Dtype.set_custom_shape, Dtype.mem_refresh_fail _ _ _ _ hpos, mem_error_eval]
      cases fl with
      | mk fe fw fq fx => cases fe <;> cases fx <;> rfl
    | some a =>
      have hfresh := ha a rfl
      rw [Option.isSome_some]
      unfold Heap.source at hs
      split at hs
      · rename_i hown
        have hs2 : s = Source.own p.off := (Option.some.inj hs).symm
        rw [hs2, Heap.blocks_set_custom_own fl m var p a size hv hown hfresh hpos,
          Dtype.set_custom_own fl _ _ _ hpos]
        rfl
      · rename_i hne
        cases hl : m p.block with
        | unallocated => rw [hl] at hs; exact absurd hs (by simp)
        | freed => rw [hl] at hs; exact absurd hs (by simp)
        | live sbytes =>
          rw [hl] at hs
          simp only at hs
          split at hs
          · rename_i hoff
            have hs2 : s = Source.block (sbytes.drop p.off) := (Option.some.inj hs).symm
            rw [hs2]
            rcases Nat.lt_or_ge sbytes.length (p.off + size) with hgt | hle
            · rw [Heap.blocks_set_custom_short fl m var p a size sbytes hv hl hne hfresh hpos hgt,
                Dtype.set_custom_short fl _ _ _ hpos (by rw [List.length_drop]; omega)]
              rfl
            · rw [Heap.blocks_set_custom_ok fl m var p a size sbytes hv hl hne hfresh hpos hle,
                Dtype.set_custom_ok fl _ _ _ hpos (by rw [List.length_drop]; omega),
                Heap.valueOf_pure, Heap.value_copied]
          · exact absurd hs (by simp)

theorem Heap.stores_other (ws : List (Heap.Pointer × List Nat)) (m m3 : Heap.Memory)
    (var : Heap.dtype) (h : Heap.stores m ws = some m3)
    (hne : ∀ w ∈ ws, var.mem ≠ some w.1.block) :
    Heap.buffer m3 var = Heap.buffer m var := by
  induction ws generalizing m with
  | nil =>
    have h2 : m = m3 := Option.some.inj h
    rw [h2]
  | cons w ws ih =>
    unfold Heap.stores at h
    cases hst : Heap.store m w.1 w.2 with
    | none => rw [hst] at h; exact absurd h (by simp)
    | some m2 =>
      rw [hst] at h
      rw [ih m2 h (fun w2 hw2 => hne w2 (List.mem_cons_of_mem _ hw2)),
        Heap.store_other m m2 w.1 w.2 var hst (hne w (List.mem_cons_self _ _))]

theorem Heap.value_of_buffer (m m3 : Heap.Memory) (var : Heap.dtype)
    (h : Heap.buffer m3 var = Heap.buffer m var) : Heap.value m3 var = Heap.value m var := by
  simp [Heap.value, h]

/-! ## Claim C7 -/

/-- C7, counterexample: the value that holds the record `{15, 16}` in a buffer of
eight bytes is passed to `dtype_set_custom` with its own buffer as source and
size 8, which does not exceed the length of the source, and the allocation
succeeds. The buffer is freed by `dtype__mem_refresh` before `memcpy` reads it:
the call is undefined and no value with the first eight bytes of the source is
returned. The same holds in the memory of blocks, for a record whose buffer is
the live block 0 of eight bytes, passed with that block as source, the allocator
handing out block 2. -/
theorem set_custom_from_own_buffer :
    (Source.own 0).bytesBefore
        { mem := some [15, 0, 0, 0, 16, 0, 0, 0], size := 8, type := DTYPE_NONE }
      = some [15, 0, 0, 0, 16, 0, 0, 0]
    ∧ dtype_set_custom Flags.initial true
        { mem := some [15, 0, 0, 0, 16, 0, 0, 0], size := 8, type := DTYPE_NONE }
        (Source.own 0) 8 = ⟨[], Res.undef⟩
    ∧ Heap.testMemory 0 = Heap.BlockState.live [10, 0, 0, 0, 20, 0, 0, 0]
    ∧ Heap.dtype_set_custom Flags.initial (some 2) Heap.testMemory
        { mem := some 0, size := 8, type := DTYPE_NONE } { block := 0, off := 0 } 8
      = ⟨[], Res.undef⟩ :=
  ⟨by decide, by decide, by decide,
    Heap.blocks_set_custom_own Flags.initial Heap.testMemory _ { block := 0, off := 0 } 2 8
      (by decide) rfl (by decide) (by decide)⟩

/-- C7, amended: `dtype_set_custom` copies the bytes of a source that is not the
buffer of the value itself. Let `src` be the bytes from the source pointer on, at
the time of the call, and `0 < size ≤ src.length`, and let the allocation
succeed. For every prior value `x` the call returns the value with length field
`size`, buffer `src.take size` and tag None; with a source inside the buffer of
`x` the call is undefined instead, at every offset. In the memory of blocks, with
the source pointer `p` into a live block that is not the buffer of the record `v`,
that buffer being `NULL` or live, and `a` the block the allocator hands out: the
call returns the record with `mem` the start of `a` and length field `size`, the
buffer holds `src.take size`, the source block is as it was, every store within
the source block succeeds, and after every sequence of stores into the source
block the buffer still holds `src.take size`. -/
theorem set_custom_copies (fl : Flags) (src : List Nat) (size : Nat) (m : Heap.Memory)
    (v : Heap.dtype) (p : Heap.Pointer) (a : Nat) (sbytes : List Nat)
    (hpos : 0 < size) (hle : size ≤ src.length)
    (hs : m p.block = Heap.BlockState.live sbytes) (hsrc : sbytes.drop p.off = src)
    (hne : v.mem ≠ some p.block) (hv : Heap.releasable m v = true)
    (ha : m a = Heap.BlockState.unallocated) :
    (∀ x : dtype, dtype_set_custom fl true x (Source.block src) size
        = Run.pure { mem := some (src.take size), size := size, type := DTYPE_NONE })
    ∧ (∀ (x : dtype) (off : Nat),
        dtype_set_custom fl true x (Source.own off) size = ⟨[], Res.undef⟩)
    ∧ Heap.source m v p = some (Source.block src)
    ∧ ∃ m2 : Heap.Memory,
        Heap.dtype_set_custom fl (some a) m v p size
          = Run.pure (m2, { mem := some a, size := size, type := DTYPE_NONE })
        ∧ Heap.value m2 { mem := some a, size := size, type := DTYPE_NONE }
          = { mem := some (src.take size), size := size, type := DTYPE_NONE }
        ∧ m2 p.block = Heap.BlockState.live sbytes
        ∧ (∀ (q : Heap.Pointer) (bytes : List Nat), q.block = p.block →
            q.off + bytes.length ≤ sbytes.length → (Heap.store m2 q bytes).isSome = true)
        ∧ ∀ (ws : List (Heap.Pointer × List Nat)) (m3 : Heap.Memory),
            (∀ w ∈ ws, w.1.block = p.block) → Heap.stores m2 ws = some m3 →
            Heap.value m3 { mem := some a, size := size, type := DTYPE_NONE }
              = { mem := some (src.take size), size := size, type := DTYPE_NONE } := by
  have hap : a ≠ p.block := Heap.fresh_ne_live m a p.block sbytes ha hs
  have hlen : p.off + size ≤ sbytes.length := by
    rw [← hsrc, List.length_drop] at hle
    omega
  have hval := Heap.value_copied
    ((Heap.afterFree m v.mem).set a (Heap.BlockState.live (List.replicate size 0)))
    a size (src.take size)
  have hm2 : (((Heap.afterFree m v.mem).set a
      (Heap.BlockState.live (List.replicate size 0))).set a
      (Heap.BlockState.live (src.take size))) p.block = Heap.BlockState.live sbytes := by
    rw [Heap.set_other _ _ _ _ (Ne.symm hap), Heap.set_other _ _ _ _ (Ne.symm hap),
      Heap.afterFree_other _ _ _ hne, hs]
  refine ⟨fun x => set_custom_ok fl x src size hpos hle,
    fun x off => set_custom_own fl x off size hpos, ?_, _, ?_, hval, hm2, ?_, ?_⟩
  · have hoff : p.off ≤ sbytes.length := by omega
    simp [Heap.source, hne, hs, hoff, hsrc]
  · rw [Heap.blocks_set_custom_ok fl m v p a size sbytes hv hs hne ha hpos hlen, hsrc]
  · intro q bytes hq hb
    obtain ⟨m3, h3⟩ := Heap.store_live _ q bytes sbytes (by rw [hq]; exact hm2) hb
    rw [h3]
    rfl
  · intro ws m3 hws h3
    have hb := Heap.stores_other ws _ m3
      { mem := some a, size := size, type := DTYPE_NONE } h3
      (fun w hw e => hap (by rw [← hws w hw]; exact Option.some.inj e))
    rw [Heap.value_of_buffer _ _ _ hb, hval]

/-- Witness of C7, from `src/test.c`: `var` has the buffer of `dtype_change_size`
(block 0, holding `{10, 20}`) and length field 0, the record `c1 = {15, 16}` is
block 1 and the allocator hands out block 2. The call returns the record with the
new block and length field 8; the two stores `c1.x = 0; c1.y = 0;` succeed and
leave zeroes in `c1`, and the buffer still reads 15 and 16. -/
theorem set_custom_test_c :
    ∃ m2 : Heap.Memory,
      Heap.dtype_set_custom Flags.initial (some 2) Heap.testMemory
          { mem := some 0, size := 0, type := DTYPE_NONE } { block := 1, off := 0 } 8
        = Run.pure (m2, { mem := some 2, size := 8, type := DTYPE_NONE })
      ∧ ∃ m3 : Heap.Memory,
          Heap.stores m2 [({ block := 1, off := 0 }, [0, 0, 0, 0]),
            ({ block := 1, off := 4 }, [0, 0, 0, 0])] = some m3
          ∧ m3 1 = Heap.BlockState.live [0, 0, 0, 0, 0, 0, 0, 0]
          ∧ Heap.value m3 { mem := some 2, size := 8, type := DTYPE_NONE }
            = { mem := some [15, 0, 0, 0, 16, 0, 0, 0], size := 8, type := DTYPE_NONE }
          ∧ objval lp64 ([15, 0, 0, 0, 16, 0, 0, 0].take 4) = 15
          ∧ objval lp64 ([15, 0, 0, 0, 16, 0, 0, 0].drop 4) = 16 := by
  obtain ⟨_, _, _, m2, hcall, _, hsrc, _, hinv⟩ :=
    set_custom_copies Flags.initial [15, 0, 0, 0, 16, 0, 0, 0] 8 Heap.testMemory
      { mem := some 0, size := 0, type := DTYPE_NONE } { block := 1, off := 0 } 2
      [15, 0, 0, 0, 16, 0, 0, 0] (by decide) (by decide) (by decide) (by decide)
      (by decide) (by decide) (by decide)
  have hst : Heap.stores m2 [({ block := 1, off := 0 }, [0, 0, 0, 0]),
      ({ block := 1, off := 4 }, [0, 0, 0, 0])]
        = some ((m2.set 1 (Heap.BlockState.live [0, 0, 0, 0, 16, 0, 0, 0])).set 1
            (Heap.BlockState.live [0, 0, 0, 0, 0, 0, 0, 0])) := by
    simp [Heap.stores, Heap.store, hsrc, Heap.set_same]
  refine ⟨m2, hcall, _, hst, Heap.set_same _ _ _, ?_, by decide, by decide⟩
  exact hinv _ _ (by simp) hst

/-! ## Which calls return when exit-on-error is disabled -/

theorem returns_pure {α : Type} (a : α) : (Run.pure a).returns = true := rfl

theorem returns_of_res {α : Type} (r : Run α) (hn : NoExit r) (hd : r.res ≠ Res.undef) :
    r.returns = true := by
  obtain ⟨l, res⟩ := r
  cases res with
  | ret a => rfl
  | exit c => exact absurd rfl (hn c)
  | undef => exact absurd rfl hd

theorem returns_bind {α β : Type} (r : Run α) (k : α → Run β) (b : Bool)
    (hr : r.returns = true) (hk : ∀ a, (k a).returns = b) : (r.bind k).returns = b := by
  obtain ⟨l, res⟩ := r
  cases res with
  | ret a => exact hk a
  | exit c => exact absurd hr (by simp [Run.returns])
  | undef => exact absurd hr (by simp [Run.returns])

theorem returns_bind_total {α β : Type} (r : Run α) (k : α → Run β)
    (hk : ∀ a, (k a).returns = true) : (r.bind k).returns = r.returns := by
  obtain ⟨l, res⟩ := r
  cases res with
  | ret a => exact hk a
  | exit c => rfl
  | undef => rfl

theorem returns_void {α : Type} (r : Run α) : r.void.returns = r.returns :=
  returns_bind_total r _ fun _ => rfl

theorem returns_checked {α : Type} (o : Option α) : (checked o).returns = o.isSome := by
  cases o <;> rfl

theorem returns_printf (text : String) : (printf text).returns = true := rfl

theorem returns_raise (fl : Flags) (func msg : String) (errcode : Int)
    (hx : fl.DTYPE_EXIT_ON_ERROR = false) : (dtype__raise fl func msg errcode).returns = true := by
  rw [raise_eval, hx]
  split <;> rfl

theorem returns_mem_error (fl : Flags) (size : Nat) (func : String)
    (hx : fl.DTYPE_EXIT_ON_ERROR = false) : (dtype__mem_error fl size func).returns = true := by
  rw [mem_error_eval, hx]
  cases fl.DTYPE_ERROR_THROW <;> rfl

theorem returns_mem_refresh (fl : Flags) (heap : Bool) (x : dtype) (size : Nat)
    (func : String) (hx : fl.DTYPE_EXIT_ON_ERROR = false) :
    (dtype__mem_refresh fl heap x size func).returns = true := by
  rcases Nat.eq_zero_or_pos size with h0 | hpos
  · subst h0
    rw [mem_refresh_zero]
    rfl
  · cases heap with
    | true =>
      rw [mem_refresh_ok _ _ _ _ hpos]
      rfl
    | false =>
      rw [mem_refresh_fail _ _ _ _ hpos]
      exact returns_bind _ _ true (returns_mem_error fl size func hx) fun _ => rfl

theorem returns_typecheck (fl : Flags) (var : dtype) (type : Int)
    (hx : fl.DTYPE_EXIT_ON_ERROR = false) :
    (dtype__typecheck fl var type).returns = typecheckDefined fl var type := by
  by_cases h : var.type < DTYPE_NONE ∨ var.type > DTYPE_CUSTOM
  · rw [typecheck_corrupt fl var type h, hx]
    simp only [typecheckDefined, h, decide_True, Bool.true_or]
    cases fl.DTYPE_ERROR_THROW <;> rfl
  · have h0 : DTYPE_NONE ≤ var.type := by
      by_contra hc
      exact h (Or.inl (by omega))
    have h1 : var.type ≤ DTYPE_CUSTOM := by
      by_contra hc
      exact h (Or.inr (by omega))
    have hname : dtype_get_str_type var = some (typeName var.type) :=
      strTypesAt_valid var.type h0 h1
    unfold dtype__typecheck
    rw [if_neg h]
    simp only [typecheckDefined, h, decide_False, Bool.false_or]
    by_cases hc : (!fl.DTYPE_WARN_THROW || var.type == type) = true
    · rw [if_pos hc, hc]
      rfl
    · rw [if_neg hc]
      have hc2 : (!fl.DTYPE_WARN_THROW || var.type == type) = false := by
        simpa using hc
      rw [hc2, Bool.false_or]
      simp only [bind_run, pure_run, hname, checked_some, Run.pure_bind]
      cases hs : strTypesAt type with
      | none => rfl
      | some name => rfl

theorem returns_mismatch_check (fl : Flags) (var : dtype) (type : Int) (func : String)
    (t0 : DTYPE_NONE ≤ type) (t1 : type ≤ DTYPE_CUSTOM)
    (hx : fl.DTYPE_EXIT_ON_ERROR = false) :
    (mismatch_check fl var type func).returns = true :=
  returns_of_res _ (noExit_mismatch_check fl var type func hx)
    (mismatch_check_defined fl var type func t0 t1)

theorem res_of_returns (chk : Run Unit) (h : chk.returns = true) : chk.res = Res.ret () := by
  obtain ⟨l, res⟩ := chk
  cases res with
  | ret a => rfl
  | exit c => exact absurd h (by simp [Run.returns])
  | undef => exact absurd h (by simp [Run.returns])

/-- With exit-on-error disabled a getter returns exactly when its read stays
inside the buffer of the value, and is undefined otherwise. -/
theorem getter_res (abi : Abi) (fl : Flags) (var : dtype) (g : Getter)
    (hx : fl.DTYPE_EXIT_ON_ERROR = false) :
    (g.call abi fl var).res = if g.readable abi var then Res.ret () else Res.undef := by
  by_cases hg : g = Getter.float
  · subst hg
    rw [getter_call_float, check_then_read,
      res_of_returns _ (returns_mismatch_check fl var _ _ (by decide) (by decide) hx)]
  · rw [getter_call_shape abi fl var g hg, check_then_read,
      res_of_returns _ (returns_mismatch_check fl var _ _ g.tag_valid.1 g.tag_valid.2 hx)]

theorem getter_returns (abi : Abi) (fl : Flags) (var : dtype) (g : Getter)
    (hx : fl.DTYPE_EXIT_ON_ERROR = false) :
    (g.call abi fl var).returns = g.readable abi var := by
  unfold Run.returns
  rw [getter_res abi fl var g hx]
  cases g.readable abi var <;> rfl

theorem returns_after_fail {β : Type} (fl : Flags) (x : dtype) (n : Nat) (func : String)
    (k : dtype → Run β) (hn : 0 < n) (hx : fl.DTYPE_EXIT_ON_ERROR = false) :
    ((dtype__mem_refresh fl false x n func).bind k).returns
      = (k { mem := none, size := 0, type := DTYPE_NONE }).returns := by
  rw [mem_refresh_fail _ _ _ _ hn, mem_error_eval, hx]
  cases fl.DTYPE_ERROR_THROW <;> rfl

theorem returns_setter (fl : Flags) (heap : Bool) (x : dtype) (n m : Nat) (func : String)
    (src : List Nat) (f : dtype → dtype) (hn : 0 < n)
    (hx : fl.DTYPE_EXIT_ON_ERROR = false) :
    ((dtype__mem_refresh fl heap x n func).bind fun var =>
        (copy_if_sized var src m).bind fun var => Run.pure (f var)).returns
      = (!heap || decide (m ≤ n ∧ m ≤ src.length)) := by
  have h : n ≠ 0 := Nat.pos_iff_ne_zero.mp hn
  cases heap with
  | true =>
    rw [mem_refresh_ok _ _ _ _ hn, Run.pure_bind]
    by_cases hc : m ≤ n ∧ m ≤ src.length
    · simp [copy_if_sized, memcpy, h, hc, Run.bind, Run.pure, Run.returns]
    · simp [copy_if_sized, memcpy, h, hc, Run.bind, undefined, Run.returns]
  | false =>
    rw [returns_after_fail fl x n func _ hn hx]
    rfl

theorem returns_setter_same (fl : Flags) (heap : Bool) (x : dtype) (n : Nat) (func : String)
    (src : List Nat) (f : dtype → dtype) (hn : 0 < n) (hs : src.length = n)
    (hx : fl.DTYPE_EXIT_ON_ERROR = false) :
    ((dtype__mem_refresh fl heap x n func).bind fun var =>
        (copy_if_sized var src n).bind fun var => Run.pure (f var)).returns = true := by
  rw [returns_setter fl heap x n n func src f hn hx, hs]
  simp

theorem strlen_lt (s : List Nat) (len : Nat) (h : strlen s = some len) : len < s.length := by
  unfold strlen at h
  split at h
  · rename_i h0
    have hl := Option.some.inj h
    rw [← hl]
    by_contra hc
    have hle : (s.takeWhile fun b => b != 0).length ≤ s.length :=
      (List.takeWhile_sublist _).length_le
    have heq : (s.takeWhile fun b => b != 0).length = s.length := by omega
    have hall : s.takeWhile (fun b => b != 0) = s :=
      (List.takeWhile_sublist _).eq_of_length heq
    rw [List.takeWhile_eq_self_iff] at hall
    have := hall 0 h0
    simp at this
  · exact absurd h (by simp)

theorem returns_set_string (fl : Flags) (heap : Bool) (x : dtype) (val : Source)
    (hx : fl.DTYPE_EXIT_ON_ERROR = false) :
    (dtype_set_string fl heap x val).returns
      = (((val.bytesBefore x).bind strlen).isSome && (!heap || val.bytesAfter.isSome)) := by
  rw [set_string_shape]
  cases hlen : (val.bytesBefore x).bind strlen with
  | none => rfl
  | some len =>
    rw [checked_some, Run.pure_bind, Option.isSome_some, Bool.true_and]
    cases val with
    | own off =>
      cases heap with
      | true =>
        rw [mem_refresh_ok _ _ _ _ (Nat.succ_pos len), Run.pure_bind]
        rfl
      | false =>
        rw [returns_after_fail fl x _ _ _ (Nat.succ_pos len) hx]
        rfl
    | block bytes =>
      have hb : strlen bytes = some len := hlen
      have hlt := strlen_lt bytes len hb
      have hr := returns_setter fl heap x (len + 1) (len + 1) "dtype_set_string" bytes
        (fun var => { var with type := DTYPE_STRING }) (Nat.succ_pos len) hx
      have hd : decide (len + 1 ≤ len + 1 ∧ len + 1 ≤ bytes.length) = true := by
        simp
        omega
      rw [hd] at hr
      simp only [Source.bytesAfter, Option.isSome_some]
      exact hr

theorem returns_set_custom (fl : Flags) (heap : Bool) (x : dtype) (val : Source)
    (size : Nat) (hx : fl.DTYPE_EXIT_ON_ERROR = false) :
    (dtype_set_custom fl heap x val size).returns
      = (size == 0 || !heap ||
          match val.bytesAfter with
          | some bytes => decide (size ≤ bytes.length)
          | none => false) := by
  rcases Nat.eq_zero_or_pos size with h0 | hpos
  · subst h0
    rw [set_custom_zero]
    rfl
  · have hne : (size == 0) = false := by
      simp
      omega
    rw [hne, Bool.false_or]
    cases val with
    | own off =>
      cases heap with
      | true =>
        rw [set_custom_own fl x off size hpos]
        rfl
      | false =>
        rw [set_custom_shape, returns_after_fail fl x _ _ _ hpos hx]
        rfl
    | block bytes =>
      have hr := returns_setter fl heap x size size "dtype_set_custom" bytes
        (fun var => var) hpos hx
      simp only [Source.bytesAfter]
      rw [set_custom_block]
      rw [hr]
      simp

/-- With exit-on-error disabled an operation returns exactly when its reads stay
inside live objects. -/
theorem op_returns (abi : Abi) (fl : Flags) (x : dtype) (op : Op)
    (hx : fl.DTYPE_EXIT_ON_ERROR = false) :
    (op.call abi fl x).returns = op.defined abi x := by
  cases op with
  | change_size size outcome => rfl
  | set_bool val heap =>
    exact returns_setter_same fl heap x _ _ _ _ abi.bool_pos (objrep_length _ _ _) hx
  | set_char val heap =>
    exact returns_setter_same fl heap x _ _ _ _ (by decide) (objrep_length _ _ _) hx
  | set_short val heap =>
    exact returns_setter_same fl heap x _ _ _ _ abi.short_pos (objrep_length _ _ _) hx
  | set_ushort val heap =>
    exact returns_setter_same fl heap x _ _ _ _ abi.short_pos (objrep_length _ _ _) hx
  | set_int val heap =>
    exact returns_setter_same fl heap x _ _ _ _ abi.int_pos (objrep_length _ _ _) hx
  | set_uint val heap =>
    exact returns_setter_same fl heap x _ _ _ _ abi.int_pos (objrep_length _ _ _) hx
  | set_long val heap =>
    exact returns_setter_same fl heap x _ _ _ _ abi.long_pos (objrep_length _ _ _) hx
  | set_ulong val heap =>
    exact returns_setter_same fl heap x _ _ _ _ abi.long_pos (objrep_length _ _ _) hx
  | set_float val heap =>
    exact returns_setter_same fl heap x _ _ _ _ abi.float_pos (objrep_length _ _ _) hx
  | set_double val heap =>
    have hr := returns_setter fl heap x abi.sizeof_int abi.sizeof_int "dtype_set_double"
      (objrep abi abi.sizeof_double val) (fun var => { var with type := DTYPE_DOUBLE })
      abi.int_pos hx
    rw [objrep_length] at hr
    simp only [le_refl, true_and] at hr
    exact hr
  | set_string val heap => exact returns_set_string fl heap x val hx
  | set_custom valPointer size heap => exact returns_set_custom fl heap x valPointer size hx
  | clear heap =>
    show (dtype_clear fl heap x).returns = true
    unfold dtype_clear
    simp only [bind_run, pure_run, mem_refresh_zero, Run.pure_bind]
    rfl

theorem returns_get_string_then {β : Type} (fl : Flags) (var : dtype)
    (k : Option (List Nat) → Run β) (hx : fl.DTYPE_EXIT_ON_ERROR = false) :
    ((dtype_get_string fl var).bind k).returns = (k var.mem).returns := by
  have hc := res_of_returns _
    (returns_mismatch_check fl var DTYPE_STRING "dtype_get_string" (by decide) (by decide) hx)
  unfold dtype_get_string
  simp only [bind_run, pure_run]
  generalize mismatch_check fl var DTYPE_STRING "dtype_get_string" = chk at hc
  obtain ⟨l, res⟩ := chk
  simp only at hc
  subst hc
  rfl

theorem returns_cstring_print (mem : Option (List Nat)) :
    ((checked mem).bind fun block =>
        (checked (cstring block)).bind fun s => printf (bytesToString s)).returns
      = (mem.bind cstring).isSome := by
  cases mem with
  | none => rfl
  | some block =>
    rw [checked_some, Run.pure_bind, Option.some_bind]
    cases cstring block <;> rfl

/-- With exit-on-error disabled `dtype_print` returns exactly when the read it
makes for the tag of the value stays inside the buffer. -/
theorem print_returns (abi : Abi) (ff : FloatFormat) (fl : Flags) (var : dtype)
    (hx : fl.DTYPE_EXIT_ON_ERROR = false) :
    (dtype_print abi ff fl var).returns = printable abi var := by
  unfold dtype_print printable
  simp only [bind_run, pure_run]
  by_cases h0 : var.type = DTYPE_NONE
  · have hn : ∀ t : Int, t ≠ DTYPE_NONE → var.type ≠ t :=
      fun t ht e => ht (e.symm.trans h0)
    rw [if_pos h0, if_neg (hn _ (by decide)), if_neg (hn _ (by decide)), if_neg (hn _ (by decide)),
        if_neg (hn _ (by decide)), if_neg (hn _ (by decide)), if_neg (hn _ (by decide)),
        if_neg (hn _ (by decide)), if_neg (hn _ (by decide)), if_neg (hn _ (by decide)),
        if_neg (hn _ (by decide)), if_neg (hn _ (by decide))]
    rfl
  · by_cases h1 : var.type = DTYPE_BOOL
    · rw [if_neg h0, if_pos h1, if_pos h1, returns_bind_total _ _ (fun _ => returns_printf _)]
      exact (returns_void _).symm.trans (getter_returns abi fl var Getter.bool hx)
    · by_cases h2 : var.type = DTYPE_CHAR
      · rw [if_neg h0, if_neg h1, if_pos h2, if_neg h1, if_pos h2,
          returns_bind_total _ _ (fun _ => returns_printf _)]
        exact (returns_void _).symm.trans (getter_returns abi fl var Getter.char hx)
      · by_cases h3 : var.type = DTYPE_SHORT
        · rw [if_neg h0, if_neg h1, if_neg h2, if_pos h3, if_neg h1, if_neg h2, if_pos h3,
            returns_bind_total _ _ (fun _ => returns_printf _)]
          exact (returns_void _).symm.trans (getter_returns abi fl var Getter.short hx)
        · by_cases h4 : var.type = DTYPE_USHORT
          · rw [if_neg h0, if_neg h1, if_neg h2, if_neg h3, if_pos h4, if_neg h1, if_neg h2,
              if_neg h3, if_pos h4, returns_bind_total _ _ (fun _ => returns_printf _)]
            exact (returns_void _).symm.trans (getter_returns abi fl var Getter.ushort hx)
          · by_cases h5 : var.type = DTYPE_INT
            · rw [if_neg h0, if_neg h1, if_neg h2, if_neg h3, if_neg h4, if_pos h5, if_neg h1,
                if_neg h2, if_neg h3, if_neg h4, if_pos h5,
                returns_bind_total _ _ (fun _ => returns_printf _)]
              exact (returns_void _).symm.trans (getter_returns abi fl var Getter.int hx)
            · by_cases h6 : var.type = DTYPE_UINT
              · rw [if_neg h0, if_neg h1, if_neg h2, if_neg h3, if_neg h4, if_neg h5, if_pos h6,
                  if_neg h1, if_neg h2, if_neg h3, if_neg h4, if_neg h5, if_pos h6,
                  returns_bind_total _ _ (fun _ => returns_printf _)]
                exact (returns_void _).symm.trans (getter_returns abi fl var Getter.uint hx)
              · by_cases h7 : var.type = DTYPE_LONG
                · rw [if_neg h0, if_neg h1, if_neg h2, if_neg h3, if_neg h4, if_neg h5, if_neg h6,
                    if_pos h7, if_neg h1, if_neg h2, if_neg h3, if_neg h4, if_neg h5, if_neg h6,
                    if_pos h7, returns_bind_total _ _ (fun _ => returns_printf _)]
                  exact (returns_void _).symm.trans (getter_returns abi fl var Getter.long hx)
                · by_cases h8 : var.type = DTYPE_ULONG
                  · rw [if_neg h0, if_neg h1, if_neg h2, if_neg h3, if_neg h4, if_neg h5,
                      if_neg h6, if_neg h7, if_pos h8, if_neg h1, if_neg h2, if_neg h3, if_neg h4,
                      if_neg h5, if_neg h6, if_neg h7, if_pos h8,
                      returns_bind_total _ _ (fun _ => returns_printf _)]
                    exact (returns_void _).symm.trans (getter_returns abi fl var Getter.ulong hx)
                  · by_cases h9 : var.type = DTYPE_FLOAT
                    · rw [if_neg h0, if_neg h1, if_neg h2, if_neg h3, if_neg h4, if_neg h5,
                        if_neg h6, if_neg h7, if_neg h8, if_pos h9, if_neg h1, if_neg h2,
                        if_neg h3, if_neg h4, if_neg h5, if_neg h6, if_neg h7, if_neg h8,
                        if_pos h9, returns_bind_total _ _ (fun _ => returns_printf _)]
                      exact (returns_void _).symm.trans (getter_returns abi fl var Getter.float hx)
                    · by_cases h10 : var.type = DTYPE_DOUBLE
                      · rw [if_neg h0, if_neg h1, if_neg h2, if_neg h3, if_neg h4, if_neg h5,
                          if_neg h6, if_neg h7, if_neg h8, if_neg h9, if_pos h10, if_neg h1,
                          if_neg h2, if_neg h3, if_neg h4, if_neg h5, if_neg h6, if_neg h7,
                          if_neg h8, if_neg h9, if_pos h10,
                          returns_bind_total _ _ (fun _ => returns_printf _)]
                        exact (returns_void _).symm.trans
                          (getter_returns abi fl var Getter.double hx)
                      · by_cases h11 : var.type = DTYPE_STRING
                        · rw [if_neg h0, if_neg h1, if_neg h2, if_neg h3, if_neg h4, if_neg h5,
                            if_neg h6, if_neg h7, if_neg h8, if_neg h9, if_neg h10, if_pos h11,
                            if_neg h1, if_neg h2, if_neg h3, if_neg h4, if_neg h5, if_neg h6,
                            if_neg h7, if_neg h8, if_neg h9, if_neg h10, if_pos h11,
                            returns_get_string_then fl var _ hx]
                          exact returns_cstring_print var.mem
                        · by_cases h12 : var.type = DTYPE_CUSTOM
                          · rw [if_neg h0, if_neg h1, if_neg h2, if_neg h3, if_neg h4, if_neg h5,
                              if_neg h6, if_neg h7, if_neg h8, if_neg h9, if_neg h10, if_neg h11,
                              if_pos h12, if_neg h1, if_neg h2, if_neg h3, if_neg h4, if_neg h5,
                              if_neg h6, if_neg h7, if_neg h8, if_neg h9, if_neg h10, if_neg h11]
                            rfl
                          · rw [if_neg h0, if_neg h1, if_neg h2, if_neg h3, if_neg h4, if_neg h5,
                              if_neg h6, if_neg h7, if_neg h8, if_neg h9, if_neg h10, if_neg h11,
                              if_neg h12, if_neg h1, if_neg h2, if_neg h3, if_neg h4, if_neg h5,
                              if_neg h6, if_neg h7, if_neg h8, if_neg h9, if_neg h10, if_neg h11]
                            exact returns_bind _ _ true (returns_raise fl _ _ _ hx) fun _ => rfl

theorem printable_corrupt (abi : Abi) (var : dtype)
    (h : var.type < DTYPE_NONE ∨ var.type > DTYPE_CUSTOM) : printable abi var = true := by
  have hn : ∀ t : Int, DTYPE_NONE ≤ t → t ≤ DTYPE_CUSTOM → var.type ≠ t := by
    intro t h0 h1 he
    rw [he] at h
    omega
  unfold printable
  rw [if_neg (hn _ (by decide) (by decide)), if_neg (hn _ (by decide) (by decide)),
    if_neg (hn _ (by decide) (by decide)), if_neg (hn _ (by decide) (by decide)),
    if_neg (hn _ (by decide) (by decide)), if_neg (hn _ (by decide) (by decide)),
    if_neg (hn _ (by decide) (by decide)), if_neg (hn _ (by decide) (by decide)),
    if_neg (hn _ (by decide) (by decide)), if_neg (hn _ (by decide) (by decide)),
    if_neg (hn _ (by decide) (by decide))]

/-- With exit-on-error disabled `dtype_debug_print` returns exactly when
`dtype_print` does. -/
theorem debug_print_returns (abi : Abi) (ff : FloatFormat) (fl : Flags) (var : dtype)
    (hx : fl.DTYPE_EXIT_ON_ERROR = false) :
    (dtype_debug_print abi ff fl var).returns = printable abi var := by
  by_cases h : var.type < DTYPE_NONE ∨ var.type > DTYPE_CUSTOM
  · rw [printable_corrupt abi var h]
    unfold dtype_debug_print
    rw [if_pos h]
    exact returns_bind _ _ true (returns_raise fl _ _ _ hx) fun _ => rfl
  · have h0 : DTYPE_NONE ≤ var.type := by
      by_contra hc
      exact h (Or.inl (by omega))
    have h1 : var.type ≤ DTYPE_CUSTOM := by
      by_contra hc
      exact h (Or.inr (by omega))
    have hname : dtype_get_str_type var = some (typeName var.type) :=
      strTypesAt_valid var.type h0 h1
    unfold dtype_debug_print
    rw [if_neg h]
    simp only [bind_run, pure_run, hname, checked_some, Run.pure_bind]
    refine returns_bind _ _ _ (returns_printf _) fun _ => ?_
    refine (returns_bind_total _ _ fun _ => ?_).trans (print_returns abi ff fl var hx)
    rfl

/-! ## Claim C12 -/

theorem raise_exit_iff (fl : Flags) (func msg : String) (errcode : Int) :
    (∃ c, (dtype__raise fl func msg errcode).res = Res.exit c)
      ↔ (fl.DTYPE_EXIT_ON_ERROR = true ∧ fl.DTYPE_ERROR_THROW = true
          ∧ DTYPE_MEMORY_ERROR ≤ errcode ∧ errcode ≤ DTYPE_UNKNOWN_ERROR) := by
  rw [raise_eval]
  simp only [DTYPE_NO_ERROR, DTYPE_MEMORY_ERROR, DTYPE_UNKNOWN_ERROR]
  constructor
  · rintro ⟨c, hc⟩
    split at hc
    · rename_i h
      cases hx : fl.DTYPE_EXIT_ON_ERROR
      · rw [hx] at hc
        cases hc
      · exact ⟨rfl, h.1, by omega, h.2.2⟩
    · cases hc
  · rintro ⟨hx, he, h1, h2⟩
    refine ⟨errcode, ?_⟩
    rw [if_pos ⟨he, by omega, h2⟩, hx]
    rfl

theorem raise_exit_status (fl : Flags) (func msg : String) (errcode c : Int)
    (hc : (dtype__raise fl func msg errcode).res = Res.exit c) : c = errcode := by
  rw [raise_eval] at hc
  split at hc
  · cases hx : fl.DTYPE_EXIT_ON_ERROR
    · rw [hx] at hc
      cases hc
    · rw [hx] at hc
      cases hc
      rfl
  · cases hc

/-- C12, counterexample: under the initial switches exit-on-error is disabled, and
`dtype_get_int` on the empty value `dtype_default()` writes its warning and then
reads an `int` through the `NULL` pointer of the value. The call does not return:
its behaviour is undefined, and the process is ended by the platform (a
segmentation fault) although exit-on-error is disabled. -/
theorem get_int_default_undefined :
    Flags.initial.DTYPE_EXIT_ON_ERROR = false
    ∧ dtype_default.mem = none
    ∧ deref dtype_default lp64.sizeof_int = none
    ∧ dtype_get_int lp64 Flags.initial dtype_default
      = ⟨[Event.warning "int" DTYPE_INT "none" DTYPE_NONE], Res.undef⟩
    ∧ (dtype_get_int lp64 Flags.initial dtype_default).returns = false := by
  decide

/-- C12, amended: the process is ended through `exit` only by exit-on-error.
`dtype__raise` ends the process if and only if exit-on-error is enabled, error
reporting is enabled and the error code lies in
`DTYPE_MEMORY_ERROR .. DTYPE_UNKNOWN_ERROR`, and the exit status then is the error
code. With exit-on-error disabled no function of the library ends in `exit`, and
each returns unless it reads outside a live object, which is undefined and can
still end the process: a setter, `dtype_change_size` or `dtype_clear` returns
exactly when the reads of the operation stay inside live objects (`Op.defined`:
always, except for `dtype_set_double` where an `int` is larger than a `double`,
and for `dtype_set_string` and `dtype_set_custom` with a source that is not
terminated, too short, or inside the buffer the call frees); a getter returns
when the buffer of the value holds the `sizeof(T)` bytes it reads and is
undefined otherwise; `dtype_print` and `dtype_debug_print` return exactly when
the read made for the tag stays inside the buffer; `dtype__typecheck` returns
exactly when its lookups stay inside the table of type names; `dtype__raise`,
`dtype__mem_error` and `dtype__mem_refresh` always return. -/
theorem exit_only_on_exit_on_error (abi : Abi) (ff : FloatFormat) (fl : Flags)
    (func msg : String) (errcode : Int) :
    ((∃ c, (dtype__raise fl func msg errcode).res = Res.exit c)
        ↔ (fl.DTYPE_EXIT_ON_ERROR = true ∧ fl.DTYPE_ERROR_THROW = true
            ∧ DTYPE_MEMORY_ERROR ≤ errcode ∧ errcode ≤ DTYPE_UNKNOWN_ERROR))
    ∧ (∀ c, (dtype__raise fl func msg errcode).res = Res.exit c → c = errcode)
    ∧ (fl.DTYPE_EXIT_ON_ERROR = false →
        (∀ (x : dtype) (op : Op),
            NoExit (op.call abi fl x) ∧ (op.call abi fl x).returns = op.defined abi x)
        ∧ (∀ (x : dtype) (g : Getter),
            (g.call abi fl x).res = if g.readable abi x then Res.ret () else Res.undef)
        ∧ (∀ x : dtype,
            NoExit (dtype_print abi ff fl x)
            ∧ (dtype_print abi ff fl x).returns = printable abi x)
        ∧ (∀ x : dtype,
            NoExit (dtype_debug_print abi ff fl x)
            ∧ (dtype_debug_print abi ff fl x).returns = printable abi x)
        ∧ (∀ (f m : String) (e : Int), (dtype__raise fl f m e).returns = true)
        ∧ (∀ (size : Nat) (f : String), (dtype__mem_error fl size f).returns = true)
        ∧ (∀ (x : dtype) (t : Int),
            NoExit (dtype__typecheck fl x t)
            ∧ (dtype__typecheck fl x t).returns = typecheckDefined fl x t)
        ∧ (∀ (heap : Bool) (x : dtype) (size : Nat) (f : String),
            (dtype__mem_refresh fl heap x size f).returns = true)) := by
  refine ⟨raise_exit_iff fl func msg errcode,
    fun c hc => raise_exit_status fl func msg errcode c hc, ?_⟩
  intro hx
  exact ⟨fun x op => ⟨noExit_op abi fl x op hx, op_returns abi fl x op hx⟩,
    fun x g => getter_res abi fl x g hx,
    fun x => ⟨noExit_print abi ff fl x hx, print_returns abi ff fl x hx⟩,
    fun x => ⟨noExit_debug_print abi ff fl x hx, debug_print_returns abi ff fl x hx⟩,
    fun f m e => returns_raise fl f m e hx,
    fun size f => returns_mem_error fl size f hx,
    fun x t => ⟨noExit_typecheck fl x t hx, returns_typecheck fl x t hx⟩,
    fun heap x size f => returns_mem_refresh fl heap x size f hx⟩

/-- Witness of C12, under the initial switches (exit-on-error disabled): a
`dtype_set_int` whose allocation fails returns, `dtype_get_int` returns on a
value that holds four bytes and is undefined on a value that holds two, and
`dtype_set_custom` from the buffer of the value itself does not return. -/
theorem exit_only_on_exit_on_error_initial :
    (dtype_set_int lp64 Flags.initial false dtype_default 5).returns = true
    ∧ (Getter.int.call lp64 Flags.initial
        { mem := some [5, 0, 0, 0], size := 4, type := DTYPE_INT }).res = Res.ret ()
    ∧ (Getter.int.call lp64 Flags.initial
        { mem := some [5, 0], size := 2, type := DTYPE_SHORT }).res = Res.undef
    ∧ (dtype_set_custom Flags.initial true
        { mem := some [5, 0, 0, 0], size := 4, type := DTYPE_INT } (Source.own 0) 4).returns
      = false :=
  have h := (exit_only_on_exit_on_error lp64 FloatFormat.unused Flags.initial "" "" 0).2.2 rfl
  ⟨(h.1 dtype_default (Op.set_int 5 false)).2,
    (h.2.1 { mem := some [5, 0, 0, 0], size := 4, type := DTYPE_INT } Getter.int).trans
      (by decide),
    (h.2.1 { mem := some [5, 0], size := 2, type := DTYPE_SHORT } Getter.int).trans
      (by decide),
    (h.1 { mem := some [5, 0, 0, 0], size := 4, type := DTYPE_INT }
      (Op.set_custom (Source.own 0) 4 true)).2⟩

/-! ## The copy of `dtype_set_string` in the memory of blocks -/

theorem Heap.blocks_set_string_shape (fl : Flags) (outcome : Option Nat) (m : Heap.Memory)
    (var : Heap.dtype) (p : Heap.Pointer) :
    Heap.dtype_set_string fl outcome m var p
      = (checked (Heap.strlen m p)).bind fun len =>
          (Heap.dtype__mem_refresh fl outcome m var (len + 1) "dtype_set_string").bind fun r =>
            (Heap.copy_string_if_sized r.1 r.2 p).bind fun m2 =>
              Run.pure (m2, { r.2 with type := DTYPE_STRING }) := rfl

theorem Heap.source_bytes (m : Heap.Memory) (var : Heap.dtype) (p : Heap.Pointer)
    (s : Source) (hv : Heap.releasable m var = true) (hs : Heap.source m var p = some s) :
    s.bytesBefore (Heap.value m var) = Heap.bytesAt m p := by
  unfold Heap.source at hs
  split at hs
  · rename_i hown
    obtain ⟨bytes, hl⟩ := Heap.releasable_live m var p.block hv hown
    rw [← Option.some.inj hs]
    simp [Source.bytesBefore, Heap.value, Heap.buffer, hown, hl, Heap.bytesAt]
  · cases hl : m p.block with
    | unallocated => rw [hl] at hs; exact absurd hs (by simp)
    | freed => rw [hl] at hs; exact absurd hs (by simp)
    | live sbytes =>
      rw [hl] at hs
      simp only at hs
      split at hs
      · rename_i hoff
        rw [← Option.some.inj hs]
        simp [Source.bytesBefore, Heap.bytesAt, hl, hoff]
      · exact absurd hs (by simp)

theorem Heap.bytesAt_length (m : Heap.Memory) (p : Heap.Pointer) (sbytes src : List Nat)
    (hl : m p.block = Heap.BlockState.live sbytes) (h : Heap.bytesAt m p = some src) :
    sbytes.drop p.off = src ∧ p.off + src.length = sbytes.length := by
  unfold Heap.bytesAt at h
  rw [hl] at h
  simp only at h
  split at h
  · have h2 := Option.some.inj h
    refine ⟨h2, ?_⟩
    rw [← h2, List.length_drop]
    omega
  · exact absurd h (by simp)

/-- The embedding of `dtype_set_string` with the bytes inside the value is the
image of the embedding over the memory of blocks, under the conditions of
`Heap.set_custom_refines`. -/
theorem Heap.set_string_refines (fl : Flags) (outcome : Option Nat) (m : Heap.Memory)
    (var : Heap.dtype) (p : Heap.Pointer) (s : Source)
    (hv : Heap.releasable m var = true) (hs : Heap.source m var p = some s)
    (ha : ∀ a, outcome = some a → m a = Heap.BlockState.unallocated) :
    Heap.valueOf (Heap.dtype_set_string fl outcome m var p)
      = Dtype.dtype_set_string fl outcome.isSome (Heap.value m var) s := by
  have hbytes := Heap.source_bytes m var p s hv hs
  rw [Heap.blocks_set_string_shape, Dtype.set_string_shape, hbytes]
  show Heap.valueOf ((checked (Heap.strlen m p)).bind _) = (checked (Heap.strlen m p)).bind _
  cases hlen : Heap.strlen m p with
  | none => rfl
  | some len =>
    rw [checked_some, Run.pure_bind, Run.pure_bind]
    have hpos : 0 < len + 1 := Nat.succ_pos len
    cases outcome with
    | none =>
      rw [Heap.blocks_mem_refresh_fail fl m var _ _ hv hpos, Option.isSome_none,
        Dtype.mem_refresh_fail _ _ _ _ hpos, mem_error_eval]
      cases fl with
      | mk fe fw fq fx => cases fe <;> cases fx <;> rfl
    | some a =>
      have hfresh := ha a rfl
      rw [Heap.blocks_mem_refresh_ok fl m var a _ _ hv hpos, Option.isSome_some,
        Dtype.mem_refresh_ok _ _ _ _ hpos, Run.pure_bind, Run.pure_bind]
      unfold Heap.source at hs
      split at hs
      · rename_i hown
        obtain ⟨bytes, hl⟩ := Heap.releasable_live m var p.block hv hown
        have hap : a ≠ p.block := Heap.fresh_ne_live m a p.block bytes hfresh hl
        have hfreed : ((Heap.afterFree m var.mem).set a
            (Heap.BlockState.live (List.replicate (len + 1) 0))) p.block
              = Heap.BlockState.freed := by
          rw [Heap.set_other _ _ _ _ (Ne.symm hap), hown, Heap.afterFree_own]
        rw [← Option.some.inj hs, copy_source_own]
        simp [Heap.copy_string_if_sized, Heap.strlen, Heap.bytesAt, hfreed, checked,
          undefined, Run.bind, Heap.valueOf]
      · rename_i hne
        cases hl : m p.block with
        | unallocated => rw [hl] at hs; exact absurd hs (by simp)
        | freed => rw [hl] at hs; exact absurd hs (by simp)
        | live sbytes =>
          have hap : a ≠ p.block := Heap.fresh_ne_live m a p.block sbytes hfresh hl
          have hkeep : ((Heap.afterFree m var.mem).set a
              (Heap.BlockState.live (List.replicate (len + 1) 0))) p.block
                = Heap.BlockState.live sbytes := by
            rw [Heap.set_other _ _ _ _ (Ne.symm hap), Heap.afterFree_other _ _ _ hne, hl]
          cases hat : Heap.bytesAt m p with
          | none =>
            rw [Heap.strlen, hat] at hlen
            exact absurd hlen (by simp)
          | some src =>
            obtain ⟨hdrop, hsum⟩ := Heap.bytesAt_length m p sbytes src hl hat
            have hsl : Dtype.strlen src = some len := by
              rw [Heap.strlen, hat] at hlen
              exact hlen
            have hlt := strlen_lt src len hsl
            have hle : p.off ≤ sbytes.length := by omega
            have hat2 : Heap.bytesAt ((Heap.afterFree m var.mem).set a
                (Heap.BlockState.live (List.replicate (len + 1) 0))) p = some src := by
              simp [Heap.bytesAt, hkeep, hle, hdrop]
            have hsrc : s = Source.block src := by
              rw [hl] at hs
              simp only [hle, if_true] at hs
              rw [← Option.some.inj hs, hdrop]
            have hcp : Heap.memcpy ((Heap.afterFree m var.mem).set a
                  (Heap.BlockState.live (List.replicate (len + 1) 0))) (some a) p (len + 1)
                = some (((Heap.afterFree m var.mem).set a
                    (Heap.BlockState.live (List.replicate (len + 1) 0))).set a
                    (Heap.BlockState.live (src.take (len + 1)))) := by
              have hb : p.off + (len + 1) ≤ sbytes.length := by omega
              simp [Heap.memcpy, Heap.set_same, hkeep, hap, hb, hdrop]
            rw [hsrc, copy_source_block, copy_fresh _ _ _ hpos (by omega)]
            simp [Heap.copy_string_if_sized, Heap.strlen, hat2, hsl, hcp, checked,
              Run.bind, Run.pure, Heap.valueOf, Heap.value, Heap.buffer, Heap.set_same]

/-! ## Claim C6 -/

theorem set_string_own (fl : Flags) (x : dtype) (off : Nat) :
    dtype_set_string fl true x (Source.own off) = ⟨[], Res.undef⟩ := by
  rw [set_string_shape]
  cases hpre : ((Source.own off).bytesBefore x).bind strlen with
  | none => rfl
  | some len =>
    rw [checked_some, Run.pure_bind, mem_refresh_ok fl x (len + 1) _ (Nat.succ_pos len),
      Run.pure_bind, copy_source_own]
    rfl

/-- C6 (counterexample): the string "hi" is set, and the value is then set to its
own string, `dtype_set_string(x, dtype_get_string(x))`: the pointer returned by
the getter is the buffer of `x`, which the setter frees before it copies from it,
so with the allocation succeeding the call does not return the value described
by the claim but reads freed memory. The same holds in the memory of blocks, for
the record whose buffer is block 0, holding "hi", passed with that block as
argument, the allocator handing out block 1. -/
theorem set_string_of_own_string :
    dtype_set_string Flags.initial true dtype_default (Source.block [104, 105, 0])
        = Run.pure { mem := some [104, 105, 0], size := 3, type := DTYPE_STRING }
    ∧ dtype_get_string Flags.initial
          { mem := some [104, 105, 0], size := 3, type := DTYPE_STRING }
        = Run.pure (some [104, 105, 0])
    ∧ (Source.own 0).bytesBefore { mem := some [104, 105, 0], size := 3, type := DTYPE_STRING }
        = some [104, 105, 0]
    ∧ dtype_set_string Flags.initial true
          { mem := some [104, 105, 0], size := 3, type := DTYPE_STRING } (Source.own 0)
        = ⟨[], Res.undef⟩
    ∧ Heap.strlen Heap.hiMemory { block := 0, off := 0 } = some 2
    ∧ Heap.valueOf (Heap.dtype_set_string Flags.initial (some 1) Heap.hiMemory
          { mem := some 0, size := 3, type := DTYPE_STRING } { block := 0, off := 0 })
        = ⟨[], Res.undef⟩ :=
  ⟨by decide, by decide, by decide, by decide, by decide,
    (Heap.set_string_refines Flags.initial (some 1) Heap.hiMemory
      { mem := some 0, size := 3, type := DTYPE_STRING } { block := 0, off := 0 }
      (Source.own 0) (by decide) (by decide)
      (fun a h => by rw [← Option.some.inj h]; decide)).trans
      (set_string_own _ _ _)⟩

/-- C6 (amended): for every string `s` (a list of non-zero bytes, possibly empty)
followed by its terminator and held in a block other than the buffer of the prior
value `x`, when the allocation succeeds `dtype_set_string` returns a value of
length `strlen(s) + 1` whose buffer is `s` followed by one zero byte, with tag
`DTYPE_STRING`; `dtype_get_string` on that value writes nothing and returns the
buffer, and the C string read there is `s`. When the argument points into the
buffer of `x` itself, the allocation succeeding, the buffer has been freed when
the copy reads it and the call is undefined. The two cases are those of the
memory of blocks: for a record `v` whose buffer is `NULL` or live and a block `a`
not handed out before, the call with a pointer to the string in another live
block returns the record that stands for the value above, and the call with a
pointer into the buffer of `v` is undefined. -/
theorem set_string_stores_terminated (fl : Flags) (x : dtype) (s rest : List Nat)
    (hs : ∀ b ∈ s, b ≠ 0) :
    strlen (s ++ 0 :: rest) = some s.length
    ∧ dtype_set_string fl true x (Source.block (s ++ 0 :: rest))
        = Run.pure { mem := some (s ++ [0]), size := s.length + 1, type := DTYPE_STRING }
    ∧ dtype_get_string fl { mem := some (s ++ [0]), size := s.length + 1, type := DTYPE_STRING }
        = Run.pure (some (s ++ [0]))
    ∧ cstring (s ++ [0]) = some s
    ∧ (∀ off : Nat, dtype_set_string fl true x (Source.own off) = ⟨[], Res.undef⟩)
    ∧ (∀ (m : Heap.Memory) (v : Heap.dtype) (p : Heap.Pointer) (a : Nat),
        Heap.releasable m v = true → m a = Heap.BlockState.unallocated →
        (Heap.source m v p = some (Source.block (s ++ 0 :: rest)) →
          Heap.valueOf (Heap.dtype_set_string fl (some a) m v p)
            = Run.pure { mem := some (s ++ [0]), size := s.length + 1,
                         type := DTYPE_STRING })
        ∧ (v.mem = some p.block →
          Heap.valueOf (Heap.dtype_set_string fl (some a) m v p) = ⟨[], Res.undef⟩)) := by
  refine ⟨strlen_terminated s rest hs, set_string_ok fl x s rest hs, ?_,
    cstring_terminated s [] hs, fun off => set_string_own fl x off, ?_⟩
  · unfold dtype_get_string
    simp only [bind_run, pure_run]
    rw [mismatch_check_tag _ _ _ _ _ (by decide) (by decide), Run.pure_bind]
  · intro m v p a hv ha
    have hfresh : ∀ b, some a = some b → m b = Heap.BlockState.unallocated := by
      intro b hb
      rw [← Option.some.inj hb]
      exact ha
    constructor
    · intro hsrc
      rw [Heap.set_string_refines fl (some a) m v p _ hv hsrc hfresh]
      exact set_string_ok fl _ s rest hs
    · intro hown
      have hsrc : Heap.source m v p = some (Source.own p.off) := by
        simp [Heap.source, hown]
      rw [Heap.set_string_refines fl (some a) m v p _ hv hsrc hfresh]
      exact set_string_own fl _ _

/-- Witness of C6 (amended): the string "hi" is stored as the three bytes `h`, `i`,
0, also in the memory of blocks, where block 0 holds the string, the value is
empty and the allocator hands out block 1. -/
theorem set_string_hi :
    strlen ([104, 105] ++ 0 :: []) = some 2
    ∧ dtype_set_string Flags.initial true dtype_default (Source.block ([104, 105] ++ 0 :: []))
        = Run.pure { mem := some [104, 105, 0], size := 3, type := DTYPE_STRING }
    ∧ dtype_get_string Flags.initial { mem := some [104, 105, 0], size := 3, type := DTYPE_STRING }
        = Run.pure (some [104, 105, 0])
    ∧ cstring [104, 105, 0] = some [104, 105]
    ∧ Heap.valueOf (Heap.dtype_set_string Flags.initial (some 1) Heap.hiMemory
          { mem := none, size := 0, type := DTYPE_NONE } { block := 0, off := 0 })
        = Run.pure { mem := some [104, 105, 0], size := 3, type := DTYPE_STRING } :=
  have h := set_string_stores_terminated Flags.initial dtype_default [104, 105] [] (by decide)
  ⟨h.1, h.2.1, h.2.2.1, h.2.2.2.1,
    (h.2.2.2.2.2 Heap.hiMemory { mem := none, size := 0, type := DTYPE_NONE }
      { block := 0, off := 0 } 1 (by decide) (by decide)).1 (by decide)⟩

end Dtype
